import Mathlib

/-!
# KhisoBot: registration flow and one-time codes

A shallow embedding of the Go sources of the bot (`internal/service/user.go`,
`internal/service/sms.go`, `internal/repository/postgres/otp.go`,
`internal/repository/postgres/user.go`, `internal/repository/postgres/admin.go`,
`internal/domain/user.go`, `internal/bot/handler.go`, `pkg/i18n/messages.go`,
`config/config.go`) and theorems about it.

Conventions of the embedding.

* A Go `string` is a Lean `String`: the texts handled here arrive as JSON and
  are valid UTF-8, so a string is its sequence of runes.
* A Go `error` is the `String` of its text; `nil` is `none`.
* Database tables are lists of rows in insertion order.  Every call that reaches
  the database takes the outcome of that call as an argument (`none` when the
  driver reports no error, `some e` when it reports `e`); a statement that fails
  leaves its table as it was.
* Clock readings (`time.Now()` in the process, `NOW()` in the database) are
  arguments as well.  A point in time is an integer count of nanoseconds; a
  `time.Duration` is a 64-bit count of nanoseconds, and its arithmetic wraps.
* Logging has no effect on the state and is left out.
-/

namespace KhisoBot

/-! ## Go values -/

/-- A point in time, in nanoseconds. -/
abbrev Time := Int

/-- Outcome of a Go call that returns `(value, error)` and may also panic.  A call
that cannot panic returns an `Except String`. -/
inductive Result (α : Type) where
  | ok (val : α)
  | err (msg : String)
  | panic (msg : String)
deriving DecidableEq, Repr

/-- Two's-complement wrap of an integer into the range of `int64`. -/
def wrapInt64 (x : Int) : Int :=
  (x + 2 ^ 63) % 2 ^ 64 - 2 ^ 63

/-- The constant `time.Minute`: nanoseconds in a minute. -/
def Minute : Int := 60000000000

/-! ## Package `strings` and `unicode` -/

/-- The function `unicode.IsSpace`: the Latin-1 spaces, then the White_Space table. -/
def isSpace (c : Char) : Bool :=
  let r := c.toNat
  if r ≤ 0xFF then
    r == 0x09 || r == 0x0A || r == 0x0B || r == 0x0C || r == 0x0D || r == 0x20
      || r == 0x85 || r == 0xA0
  else
    r == 0x1680 || (0x2000 ≤ r && r ≤ 0x200A) || r == 0x2028 || r == 0x2029
      || r == 0x202F || r == 0x205F || r == 0x3000

/-- Worker of `strings.Fields`: `cur` is the field being read, in reverse. -/
def fieldsAux : List Char → List Char → List (List Char)
  | [], cur => if cur.isEmpty then [] else [cur.reverse]
  | c :: cs, cur =>
    if isSpace c then
      if cur.isEmpty then fieldsAux cs [] else cur.reverse :: fieldsAux cs []
    else fieldsAux cs (c :: cur)

/-- The function `strings.Fields`: the maximal runs of non-space runes. -/
def Fields (s : String) : List String :=
  (fieldsAux s.data []).map String.mk

/-- Worker of `strings.Split` for a one-rune separator. -/
def splitAux (sep : Char) : List Char → List Char → List (List Char)
  | [], cur => [cur.reverse]
  | c :: cs, cur =>
    if c = sep then cur.reverse :: splitAux sep cs [] else splitAux sep cs (c :: cur)

/-- The function `strings.Split` with a separator of one rune (the handler only
splits on `","`): the pieces between the separators, empty ones included. -/
def Split (s : String) (sep : Char) : List String :=
  (splitAux sep s.data []).map String.mk

/-- The function `strings.Join`. -/
def Join : List String → String → String
  | [], _ => ""
  | [a], _ => a
  | a :: b :: rest, sep => a ++ sep ++ Join (b :: rest) sep

/-- Runes of a string with the leading and trailing spaces removed. -/
def trimChars (l : List Char) : List Char :=
  ((l.dropWhile isSpace).reverse.dropWhile isSpace).reverse

/-- The function `strings.TrimSpace`. -/
def TrimSpace (s : String) : String :=
  String.mk (trimChars s.data)

/-- The function `strings.HasPrefix`. -/
def HasPrefix (s pre : String) : Bool :=
  pre.data.isPrefixOf s.data

/-- The function `strings.TrimPrefix`. -/
def TrimPrefix (s pre : String) : String :=
  if HasPrefix s pre then String.mk (s.data.drop pre.data.length) else s

/-- The built-in `len` of a string: its number of bytes in UTF-8. -/
def len (s : String) : Nat :=
  (s.data.map Char.utf8Size).sum

/-- Worker of `sliceBytes`: `off` is the byte offset of the first rune of the list. -/
def sliceBytesAux (lo hi : Nat) : List Char → Nat → List Char
  | [], _ => []
  | c :: cs, off =>
    if lo ≤ off ∧ off < hi then c :: sliceBytesAux lo hi cs (off + c.utf8Size)
    else sliceBytesAux lo hi cs (off + c.utf8Size)

/-- The slice expression `s[lo:hi]` on a string, for bounds that are in range (the
callers test `lo ≤ hi ≤ len(s)` and panic otherwise): the runes whose first byte lies
in `[lo, hi)`.  This is the slice of Go whenever both bounds fall between runes, as they
do in a string of one-byte runes; a bound inside a rune would leave Go with a string
that is not valid UTF-8. -/
def sliceBytes (s : String) (lo hi : Nat) : String :=
  String.mk (sliceBytesAux lo hi s.data 0)

/-- The replacer `strings.NewReplacer(" ", "", "+", "", "-", "", "(", "", ")", "")` of the
handlers: every space, `+`, `-`, `(` and `)` is removed. -/
def phoneReplacer (s : String) : String :=
  String.mk (s.data.filter
    (fun c => !(c == ' ' || c == '+' || c == '-' || c == '(' || c == ')')))

/-! ## Package `strconv` -/

/-- Value of a run of decimal digits read from the left, `acc` being the value so far;
`none` when a rune is not one of `0` to `9`. -/
def parseDigits : List Char → Nat → Option Nat
  | [], acc => some acc
  | c :: cs, acc =>
    if c.isDigit then parseDigits cs (acc * 10 + (c.toNat - '0'.toNat)) else none

/-- The function `strconv.ParseInt(s, 10, 64)` as `(value, error)`: an optional sign and
at least one decimal digit; on a syntax error the value is 0, and a value outside
`int64` is an error with the nearest bound as value.  The error is kept by its kind, not
by the text Go builds for it. -/
def ParseInt (s : String) : Int × Option String :=
  let body : Bool × List Char :=
    match s.data with
    | '+' :: cs => (false, cs)
    | '-' :: cs => (true, cs)
    | cs => (false, cs)
  match body with
  | (_, []) => (0, some "invalid syntax")
  | (neg, cs) =>
    match parseDigits cs 0 with
    | none => (0, some "invalid syntax")
    | some n =>
      if neg then
        if n > 2 ^ 63 then (-(2 ^ 63), some "value out of range") else (-(n : Int), none)
      else
        if n ≥ 2 ^ 63 then (2 ^ 63 - 1, some "value out of range") else ((n : Int), none)

/-- The function `strconv.Atoi` on a platform whose `int` has 64 bits. -/
def Atoi (s : String) : Except String Int :=
  match ParseInt s with
  | (_, some e) => Except.error e
  | (v, none) => Except.ok v

/-! ## Package `fmt` -/

/-- An operand of `fmt.Sprintf`. -/
inductive Arg where
  | str (s : String)
  | int (n : Int)
deriving DecidableEq, Repr

/-- Worker of `Sprintf` on the runes of the format.  The verbs of the repository
are `%s` with a string operand and `%d` with an integer operand; for a verb that
meets the other kind of operand, or none, the text is the one Go prints. -/
def sprintfAux : List Char → List Arg → List Char
  | [], _ => []
  | '%' :: '%' :: rest, args => '%' :: sprintfAux rest args
  | '%' :: 's' :: rest, Arg.str s :: args => s.data ++ sprintfAux rest args
  | '%' :: 's' :: rest, Arg.int n :: args =>
    ("%!s(int=" ++ toString n ++ ")").data ++ sprintfAux rest args
  | '%' :: 's' :: rest, [] => "%!s(MISSING)".data ++ sprintfAux rest []
  | '%' :: 'd' :: rest, Arg.int n :: args => (toString n).data ++ sprintfAux rest args
  | '%' :: 'd' :: rest, Arg.str s :: args =>
    ("%!d(string=" ++ s ++ ")").data ++ sprintfAux rest args
  | '%' :: 'd' :: rest, [] => "%!d(MISSING)".data ++ sprintfAux rest []
  | c :: rest, args => c :: sprintfAux rest args

/-- The function `fmt.Sprintf`, for formats whose verbs are `%s`, `%d` and `%%` and
which consume all their operands, as the formats of the repository do. -/
def Sprintf (format : String) (args : List Arg) : String :=
  String.mk (sprintfAux format.data args)

/-! ## Configuration (`config/config.go`) -/

/-- The fields of `config.Config` read by the services modelled here. -/
structure Config where
  OTPLength : Int
  OTPExpiresMins : Int
deriving DecidableEq, Repr

/-! ## Domain (`internal/domain/user.go`) -/

def StateStart : String := "start"

def StateWaitFullName : String := "wait_full_name"

def StateWaitLocation : String := "wait_location"

def StateWaitGrade : String := "wait_grade"

def StateWaitPhone : String := "wait_phone"

def StateWaitOTP : String := "wait_otp"

def StateRegistered : String := "registered"

/-- The struct `domain.User`.  A column that is NULL is read as the zero value
of its field (`sql.NullString`, `sql.NullInt32`), which is how it is kept here. -/
structure User where
  ID : Int
  TelegramID : Int
  Username : String
  LanguageCode : String
  FirstName : String
  LastName : String
  Region : String
  District : String
  School : String
  Grade : Int
  Phone : String
  IsVerified : Bool
  State : String
  CreatedAt : Time
  UpdatedAt : Time
deriving DecidableEq, Repr

/-- The struct `domain.OTPCode`. -/
structure OTPCode where
  ID : Int
  UserID : Int
  Phone : String
  Code : String
  MessageID : String
  IsUsed : Bool
  ExpiresAt : Time
  CreatedAt : Time
deriving DecidableEq, Repr

def AdminStateNone : String := ""

def AdminStateWaitChannel : String := "wait_channel"

def AdminStateWaitBroadcast : String := "wait_broadcast"

/-- The struct `domain.Admin`, without the field `State` that is not in the table. -/
structure Admin where
  ID : Int
  TelegramID : Int
  Username : String
  CreatedAt : Time
deriving DecidableEq, Repr

/-- The struct `domain.Channel`. -/
structure Channel where
  ID : Int
  ChannelID : Int
  ChannelUsername : String
  Title : String
  IsActive : Bool
  CreatedAt : Time
deriving DecidableEq, Repr

/-- The struct `domain.Stats`. -/
structure Stats where
  TotalUsers : Int
  VerifiedUsers : Int
  TodayUsers : Int
  TotalChannels : Int
deriving DecidableEq, Repr

/-! ## OTP repository (`internal/repository/postgres/otp.go`) -/

/-- Modelled from the spec: the definition of table `otp_codes` is not among the
sources.  The table is its rows in insertion order together with the next value
of the key that `INSERT ... RETURNING id` hands out; a row that is inserted
without `is_used` has `consumed = false`. -/
structure OTPTable where
  rows : List OTPCode
  nextID : Int
deriving DecidableEq, Repr

/-- The method `OTPRepository.Create`: returns the struct with `ID` and `CreatedAt`
filled in, and the table with the new row. -/
def OTPRepository.Create (db : OTPTable) (dbErr : Option String) (now : Time)
    (otp : OTPCode) : Except String OTPCode × OTPTable :=
  match dbErr with
  | some e => (Except.error ("create otp: " ++ e), db)
  | none =>
    let stored : OTPCode := { otp with ID := db.nextID, IsUsed := false, CreatedAt := now }
    (Except.ok { otp with ID := db.nextID, CreatedAt := now },
      { rows := db.rows ++ [stored], nextID := db.nextID + 1 })

/-- The `WHERE` clause of `GetByPhoneAndCode` at database time `now`. -/
def matchesPhoneAndCode (now : Time) (phone code : String) (r : OTPCode) : Bool :=
  r.Phone == phone && r.Code == code && r.IsUsed == false && decide (now < r.ExpiresAt)

/-- The `WHERE` clause of `GetLatestByPhone` at database time `now`. -/
def matchesPhone (now : Time) (phone : String) (r : OTPCode) : Bool :=
  r.Phone == phone && r.IsUsed == false && decide (now < r.ExpiresAt)

/-- The clause `ORDER BY created_at DESC LIMIT 1`: a row of greatest `created_at`.
Among rows created at the same instant SQL leaves the choice open; here the
first of them in table order is taken. -/
def latestCreated : List OTPCode → Option OTPCode
  | [] => none
  | r :: rs =>
    match latestCreated rs with
    | none => some r
    | some b => if r.CreatedAt < b.CreatedAt then some b else some r

/-- The method `OTPRepository.GetLatestByPhone`. -/
def OTPRepository.GetLatestByPhone (db : OTPTable) (dbErr : Option String) (now : Time)
    (phone : String) : Except String (Option OTPCode) :=
  match dbErr with
  | some e => Except.error ("get latest otp: " ++ e)
  | none => Except.ok (latestCreated (db.rows.filter (matchesPhone now phone)))

/-- The method `OTPRepository.GetByPhoneAndCode`; no row is `(nil, nil)`. -/
def OTPRepository.GetByPhoneAndCode (db : OTPTable) (dbErr : Option String) (now : Time)
    (phone code : String) : Except String (Option OTPCode) :=
  match dbErr with
  | some e => Except.error ("get otp by phone and code: " ++ e)
  | none => Except.ok (latestCreated (db.rows.filter (matchesPhoneAndCode now phone code)))

/-- The method `OTPRepository.MarkAsUsed`: `UPDATE ... SET is_used = TRUE WHERE id = $1`. -/
def OTPRepository.MarkAsUsed (db : OTPTable) (dbErr : Option String) (id : Int) :
    Option String × OTPTable :=
  match dbErr with
  | some e => (some ("mark otp as used: " ++ e), db)
  | none =>
    let rows := db.rows.map (fun r => if r.ID = id then { r with IsUsed := true } else r)
    (none, { db with rows := rows })

/-! ## SMS gateway (`internal/service/sms.go`) -/

/-- What the HTTP exchange of `SendSMS` with the gateway comes to. -/
inductive HTTPOutcome where
  | marshalError (e : String)
  | requestError (e : String)
  | sendError (e : String)
  | status500
  | decodeError (e : String)
  | response (queryCode : Int) (queryState : String)
deriving DecidableEq, Repr

/-- The method `SMSService.SendSMS`: the message id on query code 200, an error
otherwise.  `now` is the clock reading the message id is made of. -/
def SMSService.SendSMS (now : Time) (http : HTTPOutcome) (_phone _message : String) :
    Except String String :=
  let messageID := Sprintf "OTP_%d" [Arg.int now]
  match http with
  | HTTPOutcome.marshalError e => Except.error ("marshal sms request: " ++ e)
  | HTTPOutcome.requestError e => Except.error ("create http request: " ++ e)
  | HTTPOutcome.sendError e => Except.error ("send sms request: " ++ e)
  | HTTPOutcome.status500 => Except.error "sms service error: invalid request format"
  | HTTPOutcome.decodeError e => Except.error ("decode sms response: " ++ e)
  | HTTPOutcome.response queryCode queryState =>
    if queryCode = 200 then Except.ok messageID
    else if queryCode = 401 then Except.error (Sprintf "sms auth failed: %s" [Arg.str queryState])
    else if queryCode = 503 then
      Except.error (Sprintf "sms service error: %s" [Arg.str queryState])
    else Except.error (Sprintf "unknown sms error: code=%d, state=%s"
      [Arg.int queryCode, Arg.str queryState])

/-! ## OTP service (`internal/service/user.go`) -/

/-- The constant `digits` of `generateOTPCode`. -/
def digits : List Char := "0123456789".data

/-- The byte `digits[n]` for a value drawn below `len(digits)`. -/
def digitAt (n : Fin 10) : Char :=
  digits.get (Fin.cast (rfl : 10 = digits.length) n)

/-- The loop of `generateOTPCode`: `todo` iterations remain, the next one is number
`i`, and `code` holds the bytes written so far.  `rand i` is the outcome of the
call of `rand.Int(rand.Reader, 10)` in iteration `i`. -/
def generateOTPCodeLoop (rand : Nat → Except String (Fin 10)) : Nat → Nat → List Char →
    Result String
  | 0, _, code => Result.ok (String.mk code)
  | todo + 1, i, code =>
    match rand i with
    | Except.ok n => generateOTPCodeLoop rand todo (i + 1) (code ++ [digitAt n])
    | Except.error e => Result.err e

/-- The function `generateOTPCode`; `make([]byte, length)` panics on a negative length. -/
def generateOTPCode (length : Int) (rand : Nat → Except String (Fin 10)) : Result String :=
  if length < 0 then Result.panic "runtime error: makeslice: len out of range"
  else generateOTPCodeLoop rand length.toNat 0 []

/-- The duration `time.Duration(cfg.OTPExpiresMins) * time.Minute`. -/
def expiryWindow (cfg : Config) : Int :=
  wrapInt64 (cfg.OTPExpiresMins * Minute)

/-- What `GenerateAndSendOTP` meets outside the process: the random source, the
clock read by `SendSMS`, the HTTP exchange, the clock read for `ExpiresAt`, the
outcome of the `INSERT` and the clock read by the repository for `created_at`. -/
structure IssueEnv where
  rand : Nat → Except String (Fin 10)
  smsClock : Time
  http : HTTPOutcome
  clock : Time
  dbErr : Option String
  dbClock : Time

/-- What a call of `GenerateAndSendOTP` leaves behind: its `error` (or panic), the
table, and the calls of `SendSMS` it made, as `(phone, text)`. -/
structure IssueResult where
  result : Result Unit
  db : OTPTable
  sms : List (String × String)

/-- The method `OTPService.GenerateAndSendOTP`. -/
def OTPService.GenerateAndSendOTP (cfg : Config) (env : IssueEnv) (db : OTPTable)
    (userID : Int) (phone : String) : IssueResult :=
  match generateOTPCode cfg.OTPLength env.rand with
  | Result.panic e => { result := Result.panic e, db := db, sms := [] }
  | Result.err e => { result := Result.err ("generate otp code: " ++ e), db := db, sms := [] }
  | Result.ok code =>
    let message := Sprintf "Sizning tasdiqlash kodingiz: %s\nKod %d daqiqa ichida amal qiladi."
      [Arg.str code, Arg.int cfg.OTPExpiresMins]
    match SMSService.SendSMS env.smsClock env.http phone message with
    | Except.error e =>
      { result := Result.err ("send sms: " ++ e), db := db, sms := [(phone, message)] }
    | Except.ok messageID =>
      let otp : OTPCode :=
        { ID := 0, UserID := userID, Phone := phone, Code := code, MessageID := messageID,
          IsUsed := false, ExpiresAt := env.clock + expiryWindow cfg, CreatedAt := 0 }
      match OTPRepository.Create db env.dbErr env.dbClock otp with
      | (Except.ok _, db1) => { result := Result.ok (), db := db1, sms := [(phone, message)] }
      | (Except.error e, db1) =>
        { result := Result.err ("save otp: " ++ e), db := db1, sms := [(phone, message)] }

/-- What `VerifyOTP` meets outside the process: the outcome of the `SELECT`, the
database time `NOW()` of that query, and the outcome of the `UPDATE`. -/
structure VerifyEnv where
  getErr : Option String
  dbNow : Time
  markErr : Option String

/-- What a call of `VerifyOTP` leaves behind: its `(bool, error)` and the table. -/
structure VerifyResult where
  valid : Bool
  err : Option String
  db : OTPTable
deriving DecidableEq, Repr

/-- The method `OTPService.VerifyOTP`. -/
def OTPService.VerifyOTP (env : VerifyEnv) (db : OTPTable) (phone code : String) :
    VerifyResult :=
  match OTPRepository.GetByPhoneAndCode db env.getErr env.dbNow phone code with
  | Except.error e => { valid := false, err := some ("get otp: " ++ e), db := db }
  | Except.ok none => { valid := false, err := none, db := db }
  | Except.ok (some otp) =>
    match OTPRepository.MarkAsUsed db env.markErr otp.ID with
    | (some e, db1) => { valid := false, err := some ("mark otp as used: " ++ e), db := db1 }
    | (none, db1) => { valid := true, err := none, db := db1 }

/-! ## Messages (`pkg/i18n/messages.go`) -/

/-- The struct `i18n.Messages`. -/
structure Messages where
  Welcome : String
  AskFullName : String
  InvalidFullName : String
  AskLocation : String
  InvalidLocation : String
  AskGrade : String
  InvalidGrade : String
  AskPhone : String
  AskOTP : String
  InvalidPhone : String
  InvalidOTP : String
  OTPSent : String
  RegistrationDone : String
  MainMenu : String
  AlreadyRegistered : String
  Error : String
  ResendOTP : String
  NotRegistered : String
  BtnLogin : String
  BtnRegister : String
  BtnShareContact : String
  MustSubscribe : String
  BtnCheckSub : String
  SubscribeSuccess : String
deriving DecidableEq, Repr

/-- The entry `"uz"` of the map `messages`. -/
def messagesUz : Messages where
  Welcome :=
    "👋 Xush kelibsiz!\n\nRo'yxatdan o'tish uchun ma'lumotlaringizni kiriting."
  AskFullName :=
    "👤 Ism va familiyangizni kiriting:\n\n<i>Misol: Anvar Karimov</i>"
  InvalidFullName :=
    "❌ Ism va familiyangizni to'liq kiriting.\n\n<i>Misol: Anvar Karimov</i>"
  AskLocation :=
    "📍 Viloyat, tuman va maktabingizni kiriting:\n\n<i>Misol: Toshkent, Yunusobod, 56-maktab</i>"
  InvalidLocation :=
    "❌ Noto'g'ri format.\n\nQuyidagi formatda kiriting:\n<i>Viloyat, Tuman, Maktab</i>\n\nMisol: Toshkent, Yunusobod, 56-maktab"
  AskGrade :=
    "🎓 Nechanchi sinfda o'qiysiz?\n\n<i>1 dan 11 gacha raqam kiriting</i>"
  InvalidGrade :=
    "❌ Noto'g'ri sinf raqami.\n\n<i>1 dan 11 gacha raqam kiriting</i>"
  AskPhone :=
    "📱 Telefon raqamingizni kiriting yoki pastdagi tugmani bosing:\n\n<i>Misol: 998901234567</i>"
  AskOTP :=
    "🔐 Telefon raqamingizga yuborilgan tasdiqlash kodini kiriting:"
  InvalidPhone :=
    "❌ Telefon raqam noto'g'ri formatda.\n\n<i>Misol: 998901234567</i>"
  InvalidOTP :=
    "❌ Tasdiqlash kodi noto'g'ri. Qaytadan urinib ko'ring."
  OTPSent :=
    "✅ Tasdiqlash kodi yuborildi: <b>%s</b>"
  RegistrationDone :=
    "🎉 Tabriklaymiz! Ro'yxatdan muvaffaqiyatli o'tdingiz.\n\n👤 Ism: <b>%s</b>\n👤 Familiya: <b>%s</b>\n🏙 Viloyat: <b>%s</b>\n🏘 Tuman: <b>%s</b>\n🏫 Maktab: <b>%s</b>\n🎓 Sinf: <b>%d</b>\n📱 Telefon: <b>%s</b>"
  MainMenu :=
    "Assalomu alaykum! Botimizga xush kelibsiz.\n\nAgar sizda <a href=\"https://khiso.uz\">khiso.uz</a> onlayn olimpiadalar platformasida akkaunt mavjud bo'lsa, \"Akkauntga kirish\" tugmasini bosing.\nAgar siz <a href=\"https://khiso.uz\">khiso.uz</a> onlayn olimpiadalar platformasidan ro'yxatdan o'tmagan bo'lsangiz, \"Akkaunt yaratish\" tugmasi orqali ro'yxatdan o'ting.\n\n<b>Diqqat!</b> Account yaratilgandan so'ng Olimpiadalar bo'limiga o'tib ro'yxatdan o'tishingiz mumkin."
  AlreadyRegistered :=
    "✅ Siz allaqachon ro'yxatdan o'tgansiz."
  Error :=
    "❌ Xatolik yuz berdi. Iltimos qaytadan urinib ko'ring."
  ResendOTP :=
    "🔄 Kodni qayta yuborish"
  NotRegistered :=
    "❌ Siz hali ro'yxatdan o'tmagansiz. /start bosing."
  BtnLogin :=
    "🔑 Akkauntga kirish"
  BtnRegister :=
    "📝 Akkaunt yaratish"
  BtnShareContact :=
    "📱 Telefon raqamni ulashish"
  MustSubscribe :=
    "📢 Botdan foydalanish uchun quyidagi kanallarga obuna bo'ling:"
  BtnCheckSub :=
    "✅ Obunani tekshirish"
  SubscribeSuccess :=
    "✅ Rahmat! Endi botdan foydalanishingiz mumkin."

/-- The entry `"ru"` of the map `messages`. -/
def messagesRu : Messages where
  Welcome :=
    "👋 Добро пожаловать!\n\nВведите свои данные для регистрации."
  AskFullName :=
    "👤 Введите имя и фамилию:\n\n<i>Пример: Анвар Каримов</i>"
  InvalidFullName :=
    "❌ Введите полное имя и фамилию.\n\n<i>Пример: Анвар Каримов</i>"
  AskLocation :=
    "📍 Введите область, район и школу:\n\n<i>Пример: Ташкент, Юнусабад, школа 56</i>"
  InvalidLocation :=
    "❌ Неверный формат.\n\nВведите в формате:\n<i>Область, Район, Школа</i>\n\nПример: Ташкент, Юнусабад, школа 56"
  AskGrade :=
    "🎓 В каком классе вы учитесь?\n\n<i>Введите число от 1 до 11</i>"
  InvalidGrade :=
    "❌ Неверный номер класса.\n\n<i>Введите число от 1 до 11</i>"
  AskPhone :=
    "📱 Введите номер телефона или нажмите кнопку ниже:\n\n<i>Пример: 998901234567</i>"
  AskOTP :=
    "🔐 Введите код подтверждения, отправленный на ваш телефон:"
  InvalidPhone :=
    "❌ Неверный формат номера.\n\n<i>Пример: 998901234567</i>"
  InvalidOTP :=
    "❌ Неверный код подтверждения. Попробуйте еще раз."
  OTPSent :=
    "✅ Код подтверждения отправлен: <b>%s</b>"
  RegistrationDone :=
    "🎉 Поздравляем! Вы успешно зарегистрировались.\n\n👤 Имя: <b>%s</b>\n👤 Фамилия: <b>%s</b>\n🏙 Область: <b>%s</b>\n🏘 Район: <b>%s</b>\n🏫 Школа: <b>%s</b>\n🎓 Класс: <b>%d</b>\n📱 Телефон: <b>%s</b>"
  MainMenu :=
    "Ассалому алайкум! Добро пожаловать в наш бот.\n\nЕсли у вас есть аккаунт на платформе онлайн олимпиад <a href=\"https://khiso.uz\">khiso.uz</a>, нажмите кнопку \"Войти в аккаунт\".\nЕсли вы не зарегистрированы на платформе <a href=\"https://khiso.uz\">khiso.uz</a>, зарегистрируйтесь через кнопку \"Создать аккаунт\".\n\n<b>Внимание!</b> После создания аккаунта вы можете перейти в раздел Олимпиады и зарегистрироваться."
  AlreadyRegistered :=
    "✅ Вы уже зарегистрированы."
  Error :=
    "❌ Произошла ошибка. Попробуйте еще раз."
  ResendOTP :=
    "🔄 Отправить код повторно"
  NotRegistered :=
    "❌ Вы еще не зарегистрированы. Нажмите /start."
  BtnLogin :=
    "🔑 Войти в аккаунт"
  BtnRegister :=
    "📝 Создать аккаунт"
  BtnShareContact :=
    "📱 Поделиться номером"
  MustSubscribe :=
    "📢 Для использования бота подпишитесь на следующие каналы:"
  BtnCheckSub :=
    "✅ Проверить подписку"
  SubscribeSuccess :=
    "✅ Спасибо! Теперь вы можете использовать бота."

/-- The entry `"en"` of the map `messages`. -/
def messagesEn : Messages where
  Welcome :=
    "👋 Welcome!\n\nPlease enter your information to register."
  AskFullName :=
    "👤 Enter your first and last name:\n\n<i>Example: John Smith</i>"
  InvalidFullName :=
    "❌ Please enter your full name.\n\n<i>Example: John Smith</i>"
  AskLocation :=
    "📍 Enter your region, district and school:\n\n<i>Example: Tashkent, Yunusabad, School 56</i>"
  InvalidLocation :=
    "❌ Invalid format.\n\nPlease enter in format:\n<i>Region, District, School</i>\n\nExample: Tashkent, Yunusabad, School 56"
  AskGrade :=
    "🎓 What grade are you in?\n\n<i>Enter a number from 1 to 11</i>"
  InvalidGrade :=
    "❌ Invalid grade number.\n\n<i>Enter a number from 1 to 11</i>"
  AskPhone :=
    "📱 Enter your phone number or tap the button below:\n\n<i>Example: 998901234567</i>"
  AskOTP :=
    "🔐 Enter the verification code sent to your phone:"
  InvalidPhone :=
    "❌ Invalid phone number format.\n\n<i>Example: 998901234567</i>"
  InvalidOTP :=
    "❌ Invalid verification code. Please try again."
  OTPSent :=
    "✅ Verification code sent: <b>%s</b>"
  RegistrationDone :=
    "🎉 Congratulations! You have successfully registered.\n\n👤 First Name: <b>%s</b>\n👤 Last Name: <b>%s</b>\n🏙 Region: <b>%s</b>\n🏘 District: <b>%s</b>\n🏫 School: <b>%s</b>\n🎓 Grade: <b>%d</b>\n📱 Phone: <b>%s</b>"
  MainMenu :=
    "Assalomu alaykum! Welcome to our bot.\n\nIf you have an account on the <a href=\"https://khiso.uz\">khiso.uz</a> online olympiad platform, click \"Login to account\".\nIf you are not registered on <a href=\"https://khiso.uz\">khiso.uz</a>, register via \"Create account\" button.\n\n<b>Attention!</b> After creating an account, you can go to the Olympiads section and register."
  AlreadyRegistered :=
    "✅ You are already registered."
  Error :=
    "❌ An error occurred. Please try again."
  ResendOTP :=
    "🔄 Resend code"
  NotRegistered :=
    "❌ You are not registered yet. Press /start."
  BtnLogin :=
    "🔑 Login to account"
  BtnRegister :=
    "📝 Create account"
  BtnShareContact :=
    "📱 Share phone number"
  MustSubscribe :=
    "📢 To use the bot, please subscribe to the following channels:"
  BtnCheckSub :=
    "✅ Check subscription"
  SubscribeSuccess :=
    "✅ Thank you! You can now use the bot."

/-- The function `i18n.Get`: the messages of `lang`, those of `"uz"` for a language
that is not in the map. -/
def i18n.Get (lang : String) : Messages :=
  if lang = "uz" then messagesUz
  else if lang = "ru" then messagesRu
  else if lang = "en" then messagesEn
  else messagesUz

/-! ## User repository (`internal/repository/postgres/user.go`) -/

/-- Modelled from the spec: the definition of table `users` is not among the
sources.  The table is its rows in insertion order together with the next value
of the key that `INSERT ... RETURNING id` hands out. -/
structure UserTable where
  rows : List User
  nextID : Int
deriving DecidableEq, Repr

/-- The method `UserRepository.GetByTelegramID`; no row is `(nil, nil)`. -/
def UserRepository.GetByTelegramID (db : UserTable) (dbErr : Option String)
    (telegramID : Int) : Except String (Option User) :=
  match dbErr with
  | some e => Except.error ("get user by telegram id: " ++ e)
  | none => Except.ok (db.rows.find? (fun u => u.TelegramID == telegramID))

/-- An `UPDATE users SET ... WHERE telegram_id = $1`: `set` is applied to every row
of that telegram id. -/
def UserTable.updateWhere (db : UserTable) (telegramID : Int) (set : User → User) :
    UserTable :=
  { db with rows := db.rows.map (fun u => if u.TelegramID = telegramID then set u else u) }

/-- The method `UserRepository.Update`. -/
def UserRepository.Update (db : UserTable) (dbErr : Option String) (now : Time)
    (user : User) : Option String × UserTable :=
  match dbErr with
  | some e => (some ("update user: " ++ e), db)
  | none =>
    (none, db.updateWhere user.TelegramID (fun u =>
      { u with Username := user.Username, LanguageCode := user.LanguageCode,
               FirstName := user.FirstName, LastName := user.LastName,
               Region := user.Region, District := user.District, School := user.School,
               Grade := user.Grade, Phone := user.Phone, IsVerified := user.IsVerified,
               State := user.State, UpdatedAt := now }))

/-- The method `UserRepository.UpdateState`. -/
def UserRepository.UpdateState (db : UserTable) (dbErr : Option String) (now : Time)
    (telegramID : Int) (state : String) : Option String × UserTable :=
  match dbErr with
  | some e => (some ("update user state: " ++ e), db)
  | none => (none, db.updateWhere telegramID (fun u => { u with State := state, UpdatedAt := now }))

/-- The method `UserRepository.UpdateFullName`. -/
def UserRepository.UpdateFullName (db : UserTable) (dbErr : Option String) (now : Time)
    (telegramID : Int) (firstName lastName : String) : Option String × UserTable :=
  match dbErr with
  | some e => (some ("update full name: " ++ e), db)
  | none =>
    (none, db.updateWhere telegramID (fun u =>
      { u with FirstName := firstName, LastName := lastName, UpdatedAt := now }))

/-- The method `UserRepository.UpdateLocation`. -/
def UserRepository.UpdateLocation (db : UserTable) (dbErr : Option String) (now : Time)
    (telegramID : Int) (region district school : String) : Option String × UserTable :=
  match dbErr with
  | some e => (some ("update location: " ++ e), db)
  | none =>
    (none, db.updateWhere telegramID (fun u =>
      { u with Region := region, District := district, School := school, UpdatedAt := now }))

/-- The method `UserRepository.UpdateGrade`. -/
def UserRepository.UpdateGrade (db : UserTable) (dbErr : Option String) (now : Time)
    (telegramID : Int) (grade : Int) : Option String × UserTable :=
  match dbErr with
  | some e => (some ("update grade: " ++ e), db)
  | none => (none, db.updateWhere telegramID (fun u => { u with Grade := grade, UpdatedAt := now }))

/-- The method `UserRepository.UpdatePhone`. -/
def UserRepository.UpdatePhone (db : UserTable) (dbErr : Option String) (now : Time)
    (telegramID : Int) (phone : String) : Option String × UserTable :=
  match dbErr with
  | some e => (some ("update phone: " ++ e), db)
  | none => (none, db.updateWhere telegramID (fun u => { u with Phone := phone, UpdatedAt := now }))

/-- Modelled from the spec: the definition of table `users` is not among the
sources; a user is created unverified, with no profile (the columns that the `INSERT`
of `Create` leaves out are NULL, `is_verified` is false).  The method
`UserRepository.Create`: the state column is `wait_full_name` whatever the struct says. -/
def UserRepository.Create (db : UserTable) (dbErr : Option String) (now : Time)
    (user : User) : Except String User × UserTable :=
  match dbErr with
  | some e => (Except.error ("create user: " ++ e), db)
  | none =>
    let stored : User :=
      { ID := db.nextID, TelegramID := user.TelegramID, Username := user.Username,
        LanguageCode := user.LanguageCode, FirstName := "", LastName := "", Region := "",
        District := "", School := "", Grade := 0, Phone := "", IsVerified := false,
        State := StateWaitFullName, CreatedAt := now, UpdatedAt := now }
    (Except.ok { user with ID := db.nextID, CreatedAt := now, UpdatedAt := now },
      { rows := db.rows ++ [stored], nextID := db.nextID + 1 })

/-- Insertion of `x` into a list that is in descending order of `key`. -/
def insertDesc {α : Type} (key : α → Time) (x : α) : List α → List α
  | [] => [x]
  | y :: ys => if key y < key x then x :: y :: ys else y :: insertDesc key x ys

/-- The clause `ORDER BY created_at DESC`: the rows in descending order of `key`.
Rows of the same instant come in an order SQL leaves open; here in table order. -/
def orderByDesc {α : Type} (key : α → Time) (rows : List α) : List α :=
  rows.foldr (insertDesc key) []

/-- The method `UserRepository.GetAllVerified`. -/
def UserRepository.GetAllVerified (db : UserTable) (dbErr : Option String) :
    Except String (List User) :=
  match dbErr with
  | some e => Except.error ("get all verified users: " ++ e)
  | none => Except.ok (orderByDesc (fun u => u.CreatedAt) (db.rows.filter (fun u => u.IsVerified)))

/-! ## Admin and channel repositories (`internal/repository/postgres/admin.go`) -/

/-- The method `AdminRepository.IsAdmin` on the rows of table `admins`. -/
def AdminRepository.IsAdmin (admins : List Admin) (dbErr : Option String) (telegramID : Int) :
    Except String Bool :=
  match dbErr with
  | some e => Except.error ("check admin: " ++ e)
  | none => Except.ok (admins.any (fun a => a.TelegramID == telegramID))

/-- Modelled from the spec: the definition of table `channels` is not among the
sources.  The table is its rows in insertion order together with the next value of
the key that `INSERT ... RETURNING id` hands out. -/
structure ChannelTable where
  rows : List Channel
  nextID : Int
deriving DecidableEq, Repr

/-- The method `ChannelRepository.Create`: the row is active, `created_at` is the time
of the database. -/
def ChannelRepository.Create (db : ChannelTable) (dbErr : Option String) (now : Time)
    (channel : Channel) : Except String Channel × ChannelTable :=
  match dbErr with
  | some e => (Except.error ("create channel: " ++ e), db)
  | none =>
    let stored : Channel :=
      { channel with ID := db.nextID, IsActive := true, CreatedAt := now }
    (Except.ok { channel with ID := db.nextID, CreatedAt := now },
      { rows := db.rows ++ [stored], nextID := db.nextID + 1 })

/-- The method `ChannelRepository.GetAll`. -/
def ChannelRepository.GetAll (db : ChannelTable) (dbErr : Option String) :
    Except String (List Channel) :=
  match dbErr with
  | some e => Except.error ("get all channels: " ++ e)
  | none => Except.ok (orderByDesc (fun c => c.CreatedAt) db.rows)

/-- The method `ChannelRepository.GetActive`; the rows come in table order. -/
def ChannelRepository.GetActive (db : ChannelTable) (dbErr : Option String) :
    Except String (List Channel) :=
  match dbErr with
  | some e => Except.error ("get active channels: " ++ e)
  | none => Except.ok (db.rows.filter (fun c => c.IsActive))

/-- The method `ChannelRepository.Delete`. -/
def ChannelRepository.Delete (db : ChannelTable) (dbErr : Option String) (id : Int) :
    Option String × ChannelTable :=
  match dbErr with
  | some e => (some ("delete channel: " ++ e), db)
  | none => (none, { db with rows := db.rows.filter (fun c => c.ID != id) })

/-- The method `UserRepository.GetStats`: four counts, each a query of its own with
outcome `dbErr k`; `today` is `CURRENT_DATE`, the start of the day of the database. -/
def UserRepository.GetStats (users : UserTable) (channels : ChannelTable)
    (dbErr : Nat → Option String) (today : Time) : Except String Stats :=
  match dbErr 0 with
  | some e => Except.error ("get total users: " ++ e)
  | none =>
    match dbErr 1 with
    | some e => Except.error ("get verified users: " ++ e)
    | none =>
      match dbErr 2 with
      | some e => Except.error ("get today users: " ++ e)
      | none =>
        match dbErr 3 with
        | some e => Except.error ("get total channels: " ++ e)
        | none =>
          Except.ok
            { TotalUsers := users.rows.length,
              VerifiedUsers := (users.rows.filter (fun u => u.IsVerified)).length,
              TodayUsers := (users.rows.filter (fun u => decide (today ≤ u.CreatedAt))).length,
              TotalChannels := (channels.rows.filter (fun c => c.IsActive)).length }

/-! ## User service (`internal/service/user.go`) -/

/-- The method `UserService.GetUser`. -/
def UserService.GetUser (db : UserTable) (dbErr : Option String) (telegramID : Int) :
    Except String (Option User) :=
  UserRepository.GetByTelegramID db dbErr telegramID

/-- The method `UserService.UpdateUserState`. -/
def UserService.UpdateUserState (db : UserTable) (dbErr : Option String) (now : Time)
    (telegramID : Int) (state : String) : Option String × UserTable :=
  UserRepository.UpdateState db dbErr now telegramID state

/-- The method `UserService.UpdateFullName`. -/
def UserService.UpdateFullName (db : UserTable) (dbErr : Option String) (now : Time)
    (telegramID : Int) (firstName lastName : String) : Option String × UserTable :=
  UserRepository.UpdateFullName db dbErr now telegramID firstName lastName

/-- The method `UserService.UpdateLocation`. -/
def UserService.UpdateLocation (db : UserTable) (dbErr : Option String) (now : Time)
    (telegramID : Int) (region district school : String) : Option String × UserTable :=
  UserRepository.UpdateLocation db dbErr now telegramID region district school

/-- The method `UserService.VerifyUser`: `getErr` is the outcome of its read,
`updErr` and `now` belong to its write. -/
def UserService.VerifyUser (db : UserTable) (getErr updErr : Option String) (now : Time)
    (telegramID : Int) : Option String × UserTable :=
  match UserRepository.GetByTelegramID db getErr telegramID with
  | Except.error e => (some ("get user: " ++ e), db)
  | Except.ok none => (some "user not found", db)
  | Except.ok (some user) =>
    UserRepository.Update db updErr now { user with IsVerified := true, State := StateRegistered }

/-- The method `UserService.UpdateGrade`. -/
def UserService.UpdateGrade (db : UserTable) (dbErr : Option String) (now : Time)
    (telegramID : Int) (grade : Int) : Option String × UserTable :=
  UserRepository.UpdateGrade db dbErr now telegramID grade

/-- The method `UserService.UpdatePhone`. -/
def UserService.UpdatePhone (db : UserTable) (dbErr : Option String) (now : Time)
    (telegramID : Int) (phone : String) : Option String × UserTable :=
  UserRepository.UpdatePhone db dbErr now telegramID phone

/-- The method `UserService.GetOrCreateUser`: `getErr` is the outcome of its read,
`createErr` and `now` belong to its `INSERT`. -/
def UserService.GetOrCreateUser (db : UserTable) (getErr createErr : Option String)
    (now : Time) (telegramID : Int) (username langCode : String) :
    Except String User × UserTable :=
  match UserRepository.GetByTelegramID db getErr telegramID with
  | Except.error e => (Except.error ("get user: " ++ e), db)
  | Except.ok (some user) => (Except.ok user, db)
  | Except.ok none =>
    let langCode :=
      if langCode = "" ∨ (langCode ≠ "uz" ∧ langCode ≠ "ru" ∧ langCode ≠ "en") then "uz"
      else langCode
    let newUser : User :=
      { ID := 0, TelegramID := telegramID, Username := username, LanguageCode := langCode,
        FirstName := "", LastName := "", Region := "", District := "", School := "",
        Grade := 0, Phone := "", IsVerified := false, State := StateWaitFullName,
        CreatedAt := 0, UpdatedAt := 0 }
    match UserRepository.Create db createErr now newUser with
    | (Except.error e, db1) => (Except.error ("create user: " ++ e), db1)
    | (Except.ok created, db1) => (Except.ok created, db1)

/-- The method `UserService.GetAllVerified`. -/
def UserService.GetAllVerified (db : UserTable) (dbErr : Option String) :
    Except String (List User) :=
  UserRepository.GetAllVerified db dbErr

/-- The method `UserService.GetStats`. -/
def UserService.GetStats (users : UserTable) (channels : ChannelTable)
    (dbErr : Nat → Option String) (today : Time) : Except String Stats :=
  UserRepository.GetStats users channels dbErr today

/-! ## Bot handler (`internal/bot/handler.go`) -/

def CallbackLogin : String := "login"

def CallbackRegister : String := "register"

def CallbackCheckSub : String := "check_sub"

def CallbackResendOTP : String := "resend_otp"

def CallbackAdminStats : String := "admin_stats"

def CallbackAdminAdd : String := "admin_add_channel"

def CallbackAdminRemove : String := "admin_remove_channel"

def CallbackAdminExport : String := "admin_export"

def CallbackAdminBack : String := "admin_back"

def CallbackDelChannel : String := "del_ch_"

/-- The variable `phoneRegex`, compiled from `^998[0-9]{9}$`, by its `MatchString`:
the runes `998` and then exactly nine of `0` to `9`. -/
def phoneRegex.MatchString (s : String) : Bool :=
  match s.data with
  | '9' :: '9' :: '8' :: rest => rest.length == 9 && rest.all Char.isDigit
  | _ => false

/-- A button of an inline keyboard: `NewInlineKeyboardButtonData` or
`NewInlineKeyboardButtonURL`. -/
inductive Button where
  | data (text : String) (data : String)
  | url (text : String) (url : String)
deriving DecidableEq, Repr

/-- A button of a reply keyboard; `NewKeyboardButtonContact` sets `RequestContact`. -/
structure KeyboardButton where
  Text : String
  RequestContact : Bool
deriving DecidableEq, Repr

/-- The reply markup of an outgoing message. -/
inductive ReplyMarkup where
  | none
  | inlineKeyboard (rows : List (List Button))
  | replyKeyboard (rows : List (List KeyboardButton)) (oneTimeKeyboard resizeKeyboard : Bool)
  | removeKeyboard (selective : Bool)
deriving DecidableEq, Repr

/-- An outgoing `tgbotapi.MessageConfig`, as handed to `bot.Send`. -/
structure MessageConfig where
  ChatID : Int
  Text : String
  ParseMode : String
  ReplyMarkup : ReplyMarkup
  DisableWebPagePreview : Bool
deriving DecidableEq, Repr

/-- The function `tgbotapi.NewMessage`. -/
def NewMessage (chatID : Int) (text : String) : MessageConfig :=
  { ChatID := chatID, Text := text, ParseMode := "", ReplyMarkup := ReplyMarkup.none,
    DisableWebPagePreview := false }

/-- The constant `tgbotapi.ModeHTML`. -/
def ModeHTML : String := "HTML"

/-- The fields of an incoming `tgbotapi.Message` that the handlers read; the sender
`From` and the chat are present.  `Contact` is the phone number of a shared contact;
`Command` is `some c` when `IsCommand()` holds, with `c` the value of `Command()`. -/
structure Message where
  ChatID : Int
  FromID : Int
  Text : String
  FromUserName : String := ""
  FromLanguageCode : String := ""
  Contact : Option String := none
  Command : Option String := none
deriving DecidableEq, Repr

/-- The fields of an incoming `tgbotapi.CallbackQuery` that the handlers read; the
sender and the message the button belongs to are present. -/
structure CallbackQuery where
  ID : String
  FromID : Int
  FromUserName : String
  FromLanguageCode : String
  ChatID : Int
  Data : String
deriving DecidableEq, Repr

/-- An incoming `tgbotapi.Update`: a message, a callback query, or neither. -/
inductive Update where
  | message (msg : Message)
  | callback (query : CallbackQuery)
  | other
deriving DecidableEq, Repr

/-- A cell of the exported sheet; `date t` stands for `t.Format("02.01.2006")`. -/
inductive Cell where
  | str (s : String)
  | int (n : Int)
  | date (t : Time)
deriving DecidableEq, Repr

/-- An outgoing `tgbotapi.DocumentConfig` that holds a workbook of one sheet, by the
rows of the sheet. -/
structure DocumentConfig where
  ChatID : Int
  Name : String
  Sheet : String
  Rows : List (List Cell)
  Caption : String
deriving DecidableEq, Repr

/-- The state the handlers act on: the two tables, the messages handed to
`bot.Send` (oldest first), and whether the handler has panicked; then the table of
channels, the rows of table `admins`, the map `adminStates` of the handler, the calls of
`SendSMS` as `(phone, text)`, the documents handed to `bot.Send`, and the ids of the
callback queries that were answered. -/
structure World where
  users : UserTable
  otps : OTPTable
  sent : List MessageConfig
  panicked : Bool
  channels : ChannelTable := { rows := [], nextID := 1 }
  admins : List Admin := []
  adminStates : List (Int × String) := []
  sms : List (String × String) := []
  documents : List DocumentConfig := []
  answered : List String := []
deriving DecidableEq, Repr

/-- What one run of a handler meets outside the process.  The calls of a handler
that reach the database are numbered in the order of the source text, from 0:
`dbErr k` is the outcome of call `k` and `clock k` the clock reading made for it.
A run issues at most one code: `rand` and `http` belong to that issuance, `smsClock`
is the clock read by `SendSMS` and `otpClock` the one read for `ExpiresAt`.
`member j i` is the outcome of `GetChatMember` for the channel at position `i` in the
`j`-th run of `checkSubscription`: the status of the member, or an error.  `today` is
`CURRENT_DATE` of the database. -/
structure Env where
  dbErr : Nat → Option String
  clock : Nat → Time
  rand : Nat → Except String (Fin 10) := fun _ => Except.ok 0
  http : HTTPOutcome := HTTPOutcome.response 200 "OK"
  smsClock : Time := 0
  otpClock : Time := 0
  member : Nat → Nat → Except String String := fun _ _ => Except.ok "member"
  today : Time := 0

/-- The environment of a callee whose first database call is call `k` of the caller. -/
def Env.shift (env : Env) (k : Nat) : Env :=
  { env with dbErr := fun i => env.dbErr (i + k), clock := fun i => env.clock (i + k) }

/-- The environment of what follows the first run of `checkSubscription`. -/
def Env.nextCheck (env : Env) : Env :=
  { env with member := fun j => env.member (j + 1) }

/-- The environment of an issuance whose `INSERT` is database call `k`. -/
def Env.issue (env : Env) (k : Nat) : IssueEnv :=
  { rand := env.rand, smsClock := env.smsClock, http := env.http, clock := env.otpClock,
    dbErr := env.dbErr k, dbClock := env.clock k }

/-- The method `Handler.sendMessage`. -/
def Handler.sendMessage (w : World) (chatID : Int) (text : String) : World :=
  { w with sent := w.sent ++ [NewMessage chatID text] }

/-- The method `Handler.sendMessageHTML`. -/
def Handler.sendMessageHTML (w : World) (chatID : Int) (text : String) : World :=
  { w with sent := w.sent ++ [{ NewMessage chatID text with ParseMode := ModeHTML }] }

/-- The method `Handler.sendMainMenu`. -/
def Handler.sendMainMenu (w : World) (chatID : Int) (langCode : String) : World :=
  let msgs := i18n.Get langCode
  let keyboard := ReplyMarkup.inlineKeyboard
    [[Button.url msgs.BtnLogin "https://khiso.uz/login"],
     [Button.url msgs.BtnRegister "https://khiso.uz/register"]]
  { w with sent := w.sent ++ [{ NewMessage chatID msgs.MainMenu with
      ParseMode := ModeHTML, ReplyMarkup := keyboard, DisableWebPagePreview := true }] }

/-- The method `Handler.handleFullName`.  Database calls: 0 `UpdateFullName`,
1 `UpdateUserState`. -/
def Handler.handleFullName (env : Env) (w : World) (msg : Message) (user : User)
    (text : String) : World :=
  let parts := Fields text
  if h : parts.length < 2 then
    Handler.sendMessageHTML w msg.ChatID (i18n.Get user.LanguageCode).InvalidFullName
  else
    let firstName := parts.get ⟨0, by omega⟩
    let lastName := Join (parts.drop 1) " "
    match UserService.UpdateFullName w.users (env.dbErr 0) (env.clock 0) user.TelegramID
        firstName lastName with
    | (some _, users1) =>
      Handler.sendMessage { w with users := users1 } msg.ChatID (i18n.Get user.LanguageCode).Error
    | (none, users1) =>
      match UserService.UpdateUserState users1 (env.dbErr 1) (env.clock 1) user.TelegramID
          StateWaitLocation with
      | (some _, users2) => { w with users := users2 }
      | (none, users2) =>
        Handler.sendMessageHTML { w with users := users2 } msg.ChatID
          (i18n.Get user.LanguageCode).AskLocation

/-- The method `Handler.handleLocation`.  Database calls: 0 `UpdateLocation`,
1 `UpdateUserState`. -/
def Handler.handleLocation (env : Env) (w : World) (msg : Message) (user : User)
    (text : String) : World :=
  let parts := Split text ','
  if h : parts.length < 3 then
    Handler.sendMessageHTML w msg.ChatID (i18n.Get user.LanguageCode).InvalidLocation
  else
    let region := TrimSpace (parts.get ⟨0, by omega⟩)
    let district := TrimSpace (parts.get ⟨1, by omega⟩)
    let school := TrimSpace (Join (parts.drop 2) ",")
    if region = "" ∨ district = "" ∨ school = "" then
      Handler.sendMessageHTML w msg.ChatID (i18n.Get user.LanguageCode).InvalidLocation
    else
      match UserService.UpdateLocation w.users (env.dbErr 0) (env.clock 0) user.TelegramID
          region district school with
      | (some _, users1) =>
        Handler.sendMessage { w with users := users1 } msg.ChatID
          (i18n.Get user.LanguageCode).Error
      | (none, users1) =>
        match UserService.UpdateUserState users1 (env.dbErr 1) (env.clock 1) user.TelegramID
            StateWaitGrade with
        | (some _, users2) => { w with users := users2 }
        | (none, users2) =>
          Handler.sendMessageHTML { w with users := users2 } msg.ChatID
            (i18n.Get user.LanguageCode).AskGrade

/-- The method `Handler.handleOTPInput`.  Database calls: 0 `GetUser`, 1 the `SELECT`
of `VerifyOTP` (`clock 1` is its `NOW()`), 2 the `UPDATE` of `VerifyOTP`, 3 the read
of `VerifyUser`, 4 its write, 5 the last `GetUser`.  The errors of `GetUser`,
`VerifyOTP` and `VerifyUser` are dropped by the handler; when `GetUser` fails its
user is `nil`, and reading the fields of a `nil` final user panics. -/
def Handler.handleOTPInput (env : Env) (w : World) (message : Message) (user : User)
    (text : String) : World :=
  let currentUser : Option User :=
    match UserService.GetUser w.users (env.dbErr 0) user.TelegramID with
    | Except.ok u => u
    | Except.error _ => none
  match currentUser with
  | none => Handler.sendMessage w message.ChatID (i18n.Get user.LanguageCode).Error
  | some currentUser =>
    if currentUser.Phone = "" then
      Handler.sendMessage w message.ChatID (i18n.Get user.LanguageCode).Error
    else
      let verified := OTPService.VerifyOTP
        { getErr := env.dbErr 1, dbNow := env.clock 1, markErr := env.dbErr 2 }
        w.otps currentUser.Phone (TrimSpace text)
      let w1 : World := { w with otps := verified.db }
      if !verified.valid then
        let keyboard := ReplyMarkup.inlineKeyboard
          [[Button.data (i18n.Get user.LanguageCode).ResendOTP CallbackResendOTP]]
        { w1 with sent := w1.sent ++
            [{ NewMessage message.ChatID (i18n.Get user.LanguageCode).InvalidOTP with
                ParseMode := ModeHTML, ReplyMarkup := keyboard }] }
      else
        let w2 : World := { w1 with users :=
          (UserService.VerifyUser w1.users (env.dbErr 3) (env.dbErr 4) (env.clock 4)
            user.TelegramID).2 }
        match UserService.GetUser w2.users (env.dbErr 5) user.TelegramID with
        | Except.ok (some finalUser) =>
          let successMsg := Sprintf (i18n.Get user.LanguageCode).RegistrationDone
            [Arg.str finalUser.FirstName, Arg.str finalUser.LastName, Arg.str finalUser.Region,
             Arg.str finalUser.District, Arg.str finalUser.School, Arg.int finalUser.Grade,
             Arg.str finalUser.Phone]
          Handler.sendMainMenu (Handler.sendMessageHTML w2 message.ChatID successMsg)
            message.ChatID user.LanguageCode
        | _ => { w2 with panicked := true }

/-- The method `Handler.sendOTPMessage`. -/
def Handler.sendOTPMessage (w : World) (chatID : Int) (langCode maskedPhone : String) : World :=
  let msgs := i18n.Get langCode
  let keyboard := ReplyMarkup.inlineKeyboard [[Button.data msgs.ResendOTP CallbackResendOTP]]
  let text := Sprintf msgs.OTPSent [Arg.str maskedPhone] ++ "\n\n" ++ msgs.AskOTP
  { w with sent := w.sent ++ [{ NewMessage chatID text with
      ParseMode := ModeHTML, ReplyMarkup := keyboard }] }

/-- The expression `phone[:6] + "****" + phone[len(phone)-2:]` of the four places that
show a phone; `none` is the panic of a slice bound out of range. -/
def maskPhone (phone : String) : Option String :=
  if len phone < 6 then none
  else some (sliceBytes phone 0 6 ++ "****" ++ sliceBytes phone (len phone - 2) (len phone))

/-- The method `Handler.sendPhoneRequest`. -/
def Handler.sendPhoneRequest (w : World) (chatID : Int) (langCode : String) : World :=
  let msgs := i18n.Get langCode
  let keyboard := ReplyMarkup.replyKeyboard
    [[{ Text := "📱 Telefon raqamni ulashish", RequestContact := true }]] true true
  { w with sent := w.sent ++ [{ NewMessage chatID msgs.AskPhone with
      ParseMode := ModeHTML, ReplyMarkup := keyboard }] }

/-- The method `Handler.handleGrade`.  Database calls: 0 `UpdateGrade`,
1 `UpdateUserState`. -/
def Handler.handleGrade (env : Env) (w : World) (msg : Message) (user : User)
    (text : String) : World :=
  match Atoi text with
  | Except.error _ =>
    Handler.sendMessageHTML w msg.ChatID (i18n.Get user.LanguageCode).InvalidGrade
  | Except.ok grade =>
    if grade < 1 ∨ grade > 11 then
      Handler.sendMessageHTML w msg.ChatID (i18n.Get user.LanguageCode).InvalidGrade
    else
      match UserService.UpdateGrade w.users (env.dbErr 0) (env.clock 0) user.TelegramID
          grade with
      | (some _, users1) =>
        Handler.sendMessage { w with users := users1 } msg.ChatID
          (i18n.Get user.LanguageCode).Error
      | (none, users1) =>
        match UserService.UpdateUserState users1 (env.dbErr 1) (env.clock 1) user.TelegramID
            StateWaitPhone with
        | (some _, users2) => { w with users := users2 }
        | (none, users2) =>
          Handler.sendPhoneRequest { w with users := users2 } msg.ChatID user.LanguageCode

/-- The common tail of `handleContact` and `handlePhone`, from `UpdatePhone` on, for a
phone that has passed `phoneRegex`.  Database calls: 0 `UpdatePhone`, 1 `GetUser`, 2 the
`INSERT` of `GenerateAndSendOTP`, 3 `UpdateUserState`.  The errors of `GetUser` and
`UpdateUserState` are dropped; reading the id of a `nil` updated user panics. -/
def Handler.submitPhone (cfg : Config) (env : Env) (w : World) (msg : Message) (user : User)
    (phone : String) : World :=
  match UserService.UpdatePhone w.users (env.dbErr 0) (env.clock 0) user.TelegramID phone with
  | (some _, users1) =>
    Handler.sendMessage { w with users := users1 } msg.ChatID (i18n.Get user.LanguageCode).Error
  | (none, users1) =>
    let w1 : World := { w with users := users1 }
    match UserService.GetUser w1.users (env.dbErr 1) user.TelegramID with
    | Except.ok (some updatedUser) =>
      let issued := OTPService.GenerateAndSendOTP cfg (env.issue 2) w1.otps updatedUser.ID phone
      let w2 : World := { w1 with otps := issued.db, sms := w1.sms ++ issued.sms }
      match issued.result with
      | Result.panic _ => { w2 with panicked := true }
      | Result.err _ => Handler.sendMessage w2 msg.ChatID (i18n.Get user.LanguageCode).Error
      | Result.ok _ =>
        let w3 : World := { w2 with users :=
          (UserService.UpdateUserState w2.users (env.dbErr 3) (env.clock 3) user.TelegramID
            StateWaitOTP).2 }
        let w4 : World := { w3 with sent := w3.sent ++
          [{ NewMessage msg.ChatID "✅" with ReplyMarkup := ReplyMarkup.removeKeyboard true }] }
        match maskPhone phone with
        | none => { w4 with panicked := true }
        | some maskedPhone => Handler.sendOTPMessage w4 msg.ChatID user.LanguageCode maskedPhone
    | _ => { w1 with panicked := true }

/-- The method `Handler.handleContact`; it reads the contact of the message, which
panics when there is none. -/
def Handler.handleContact (cfg : Config) (env : Env) (w : World) (msg : Message)
    (user : User) : World :=
  match msg.Contact with
  | none => { w with panicked := true }
  | some phoneNumber =>
    let phone := phoneReplacer phoneNumber
    let phone := if !HasPrefix phone "998" && len phone == 9 then "998" ++ phone else phone
    if !phoneRegex.MatchString phone then
      Handler.sendMessageHTML w msg.ChatID (i18n.Get user.LanguageCode).InvalidPhone
    else Handler.submitPhone cfg env w msg user phone

/-- The method `Handler.handlePhone`. -/
def Handler.handlePhone (cfg : Config) (env : Env) (w : World) (msg : Message) (user : User)
    (text : String) : World :=
  let phone := phoneReplacer text
  if !phoneRegex.MatchString phone then
    Handler.sendMessageHTML w msg.ChatID (i18n.Get user.LanguageCode).InvalidPhone
  else Handler.submitPhone cfg env w msg user phone

/-- The common body of `handleResendOTP` and `handleResendOTPCallback`.  Database
calls: 0 `GetUser`, 1 the `INSERT` of `GenerateAndSendOTP`. -/
def Handler.resendOTP (cfg : Config) (env : Env) (w : World) (chatID userID : Int) : World :=
  let user : Option User :=
    match UserService.GetUser w.users (env.dbErr 0) userID with
    | Except.ok u => u
    | Except.error _ => none
  match user with
  | none => w
  | some user =>
    if user.Phone = "" ∨ user.State ≠ StateWaitOTP then w
    else
      let issued := OTPService.GenerateAndSendOTP cfg (env.issue 1) w.otps user.ID user.Phone
      let w1 : World := { w with otps := issued.db, sms := w.sms ++ issued.sms }
      match issued.result with
      | Result.panic _ => { w1 with panicked := true }
      | Result.err _ => Handler.sendMessage w1 chatID (i18n.Get user.LanguageCode).Error
      | Result.ok _ =>
        match maskPhone user.Phone with
        | none => { w1 with panicked := true }
        | some maskedPhone => Handler.sendOTPMessage w1 chatID user.LanguageCode maskedPhone

/-- The method `Handler.handleResendOTP`. -/
def Handler.handleResendOTP (cfg : Config) (env : Env) (w : World) (msg : Message) : World :=
  Handler.resendOTP cfg env w msg.ChatID msg.FromID

/-- The method `Handler.handleResendOTPCallback`. -/
def Handler.handleResendOTPCallback (cfg : Config) (env : Env) (w : World)
    (chatID userID : Int) : World :=
  Handler.resendOTP cfg env w chatID userID

/-- The method `Handler.handleProfile`.  Database call: 0 `GetUser`. -/
def Handler.handleProfile (env : Env) (w : World) (msg : Message) : World :=
  match UserService.GetUser w.users (env.dbErr 0) msg.FromID with
  | Except.ok (some user) =>
    if !user.IsVerified then
      Handler.sendMessage w msg.ChatID (i18n.Get "uz").NotRegistered
    else
      Handler.sendMessageHTML w msg.ChatID
        (Sprintf (i18n.Get user.LanguageCode).RegistrationDone
          [Arg.str user.FirstName, Arg.str user.LastName, Arg.str user.Region,
           Arg.str user.District, Arg.str user.School, Arg.int user.Grade,
           Arg.str user.Phone])
  | _ => Handler.sendMessage w msg.ChatID (i18n.Get "uz").NotRegistered

/-- The channels of `channels`, the first of which has position `i`, whose member query
fails or reports `left` or `kicked`: the loop of `checkSubscription`. -/
def notSubscribedFrom (member : Nat → Except String String) : Nat → List Channel →
    List Channel
  | _, [] => []
  | i, ch :: rest =>
    let missing : Bool :=
      match member i with
      | Except.error _ => true
      | Except.ok status => status == "left" || status == "kicked"
    if missing then ch :: notSubscribedFrom member (i + 1) rest
    else notSubscribedFrom member (i + 1) rest

/-- The method `Handler.checkSubscription`.  Database call: 0 `GetActive`. -/
def Handler.checkSubscription (env : Env) (w : World) (_userID chatID : Int) (lang : String) :
    Bool × World :=
  match ChannelRepository.GetActive w.channels (env.dbErr 0) with
  | Except.error _ => (true, w)
  | Except.ok channels =>
    if channels.length = 0 then (true, w)
    else
      let notSubscribed := notSubscribedFrom (env.member 0) 0 channels
      if notSubscribed.length = 0 then (true, w)
      else
        let rows := notSubscribed.map (fun ch =>
          [Button.url ("📢 " ++ ch.ChannelUsername) ("https://t.me/" ++ ch.ChannelUsername)])
        let rows := rows ++ [[Button.data (i18n.Get lang).BtnCheckSub CallbackCheckSub]]
        (false, { w with sent := w.sent ++ [{ NewMessage chatID (i18n.Get lang).MustSubscribe with
          ParseMode := ModeHTML, ReplyMarkup := ReplyMarkup.inlineKeyboard rows }] })

/-- The method `Handler.handleStart`.  Database calls: 0 `GetActive`, 1 the read of
`GetOrCreateUser`, 2 its `INSERT`. -/
def Handler.handleStart (env : Env) (w : World) (msg : Message) : World :=
  let langCode := if msg.FromLanguageCode = "" then "uz" else msg.FromLanguageCode
  match Handler.checkSubscription env w msg.FromID msg.ChatID langCode with
  | (false, w1) => w1
  | (true, w1) =>
    match UserService.GetOrCreateUser w1.users (env.dbErr 1) (env.dbErr 2) (env.clock 2)
        msg.FromID msg.FromUserName langCode with
    | (Except.error _, users1) =>
      Handler.sendMessage { w1 with users := users1 } msg.ChatID (i18n.Get langCode).Error
    | (Except.ok user, users1) =>
      if user.State = StateRegistered ∧ user.IsVerified = true then
        Handler.sendMainMenu { w1 with users := users1 } msg.ChatID user.LanguageCode
      else
        Handler.sendMessageHTML { w1 with users := users1 } msg.ChatID
          ((i18n.Get user.LanguageCode).Welcome ++ "\n\n" ++
            (i18n.Get user.LanguageCode).AskFullName)

/-- The method `Handler.sendAdminPanel`.  Database calls: 0 to 3, the four counts of
`GetStats`, whose error is dropped; reading the fields of `nil` stats panics. -/
def Handler.sendAdminPanel (env : Env) (w : World) (chatID : Int) : World :=
  match UserService.GetStats w.users w.channels env.dbErr env.today with
  | Except.error _ => { w with panicked := true }
  | Except.ok stats =>
    let text := Sprintf
      "🔐 <b>Admin Panel</b>\n\n📊 <b>Statistika:</b>\n👥 Jami foydalanuvchilar: <b>%d</b>\n✅ Tasdiqlangan: <b>%d</b>\n📅 Bugun qo'shilgan: <b>%d</b>\n📢 Faol kanallar: <b>%d</b>"
      [Arg.int stats.TotalUsers, Arg.int stats.VerifiedUsers, Arg.int stats.TodayUsers,
       Arg.int stats.TotalChannels]
    let keyboard := ReplyMarkup.inlineKeyboard
      [[Button.data "📊 Statistika" CallbackAdminStats],
       [Button.data "➕ Kanal qo'shish" CallbackAdminAdd,
        Button.data "➖ Kanal o'chirish" CallbackAdminRemove],
       [Button.data "📥 Excel yuklab olish" CallbackAdminExport]]
    { w with sent := w.sent ++ [{ NewMessage chatID text with
        ParseMode := ModeHTML, ReplyMarkup := keyboard }] }

/-- The method `Handler.handleAdmin`.  Database calls: 0 `IsAdmin`, whose error is
dropped, then those of `sendAdminPanel`. -/
def Handler.handleAdmin (env : Env) (w : World) (msg : Message) : World :=
  let isAdmin : Bool :=
    match AdminRepository.IsAdmin w.admins (env.dbErr 0) msg.FromID with
    | Except.ok b => b
    | Except.error _ => false
  if !isAdmin then w else Handler.sendAdminPanel (env.shift 1) w msg.ChatID

/-- The map `adminStates` at a key; a key that is absent reads as the empty string. -/
def adminStateOf (states : List (Int × String)) (id : Int) : String :=
  (states.lookup id).getD ""

/-- The method `Handler.handleAddChannel`.  Database calls: 0 `Create`, then those of
`sendAdminPanel`. -/
def Handler.handleAddChannel (env : Env) (w : World) (msg : Message) : World :=
  let w1 : World := { w with adminStates := w.adminStates.filter (fun p => p.1 != msg.FromID) }
  let username := TrimSpace (TrimPrefix msg.Text "@")
  let channel : Channel :=
    { ID := 0, ChannelID := 0, ChannelUsername := username, Title := username,
      IsActive := false, CreatedAt := 0 }
  match ChannelRepository.Create w1.channels (env.dbErr 0) (env.clock 0) channel with
  | (Except.error e, channels1) =>
    Handler.sendMessage { w1 with channels := channels1 } msg.ChatID
      ("❌ Kanal qo'shishda xatolik: " ++ e)
  | (Except.ok _, channels1) =>
    Handler.sendAdminPanel (env.shift 1)
      (Handler.sendMessage { w1 with channels := channels1 } msg.ChatID
        (Sprintf "✅ Kanal qo'shildi: @%s" [Arg.str username]))
      msg.ChatID

/-- The method `Handler.sendChannelList`.  Database call: 0 `GetAll`, whose error is
dropped. -/
def Handler.sendChannelList (env : Env) (w : World) (chatID : Int) : World :=
  let channels : List Channel :=
    match ChannelRepository.GetAll w.channels (env.dbErr 0) with
    | Except.ok l => l
    | Except.error _ => []
  if channels.length = 0 then Handler.sendMessage w chatID "📢 Hozircha kanallar yo'q"
  else
    let rows := channels.map (fun ch =>
      [Button.data (Sprintf "🗑 @%s" [Arg.str ch.ChannelUsername])
        (CallbackDelChannel ++ toString ch.ID)])
    let rows := rows ++ [[Button.data "⬅️ Orqaga" CallbackAdminBack]]
    { w with sent := w.sent ++ [{ NewMessage chatID "📢 O'chirish uchun kanalni tanlang:" with
        ReplyMarkup := ReplyMarkup.inlineKeyboard rows }] }

/-- The rows of the sheet of `exportToExcel` for the users from number `i` on. -/
def exportRows : Nat → List User → List (List Cell)
  | _, [] => []
  | i, u :: rest =>
    [Cell.int (i + 1), Cell.str u.FirstName, Cell.str u.LastName, Cell.str u.Region,
      Cell.str u.District, Cell.str u.School, Cell.int u.Grade, Cell.str u.Phone,
      Cell.str u.Username, Cell.date u.CreatedAt] :: exportRows (i + 1) rest

/-- The method `Handler.exportToExcel`.  Database call: 0 `GetAllVerified`. -/
def Handler.exportToExcel (env : Env) (w : World) (chatID : Int) : World :=
  match UserService.GetAllVerified w.users (env.dbErr 0) with
  | Except.error e => Handler.sendMessage w chatID ("❌ Xatolik: " ++ e)
  | Except.ok users =>
    let headers : List Cell :=
      ["#", "Ism", "Familiya", "Viloyat", "Tuman", "Maktab", "Sinf", "Telefon", "Username",
        "Sana"].map Cell.str
    let doc : DocumentConfig :=
      { ChatID := chatID, Name := "users.xlsx", Sheet := "Users",
        Rows := headers :: exportRows 0 users,
        Caption := Sprintf "📊 Jami %d ta foydalanuvchi" [Arg.int users.length] }
    { w with documents := w.documents ++ [doc] }

/-- The method `Handler.handleStartFromCallback`: `handleStart` on a message that has
the sender and the chat of the callback query and nothing else. -/
def Handler.handleStartFromCallback (env : Env) (w : World) (callback : CallbackQuery) :
    World :=
  Handler.handleStart env w
    { ChatID := callback.ChatID, FromID := callback.FromID, Text := "",
      FromUserName := callback.FromUserName, FromLanguageCode := callback.FromLanguageCode }

/-- The method `Handler.handleCallback`.  The query is answered first.  Database calls
of `check_sub`: 0 `GetUser`, whose error is dropped, 1 `GetActive`, then those of
`handleStart`, whose `checkSubscription` is the second of the run.  Database calls of a
`del_ch_` query: 0 `Delete`, whose error is dropped as is that of `ParseInt`, then those
of `sendAdminPanel`. -/
def Handler.handleCallback (cfg : Config) (env : Env) (w : World) (callback : CallbackQuery) :
    World :=
  let w : World := { w with answered := w.answered ++ [callback.ID] }
  if callback.Data = CallbackCheckSub then
    let lang : String :=
      match UserService.GetUser w.users (env.dbErr 0) callback.FromID with
      | Except.ok (some user) => user.LanguageCode
      | _ => "uz"
    match Handler.checkSubscription (env.shift 1) w callback.FromID callback.ChatID lang with
    | (false, w1) => w1
    | (true, w1) =>
      Handler.handleStartFromCallback (env.shift 2).nextCheck
        (Handler.sendMessageHTML w1 callback.ChatID (i18n.Get lang).SubscribeSuccess) callback
  else if callback.Data = CallbackResendOTP then
    Handler.handleResendOTPCallback cfg env w callback.ChatID callback.FromID
  else if callback.Data = CallbackAdminStats then
    Handler.sendAdminPanel env w callback.ChatID
  else if callback.Data = CallbackAdminAdd then
    Handler.sendMessage
      { w with adminStates := (callback.FromID, AdminStateWaitChannel) ::
          w.adminStates.filter (fun p => p.1 != callback.FromID) }
      callback.ChatID "📢 Kanal username'ini kiriting (masalan: @channel_name):"
  else if callback.Data = CallbackAdminRemove then
    Handler.sendChannelList env w callback.ChatID
  else if callback.Data = CallbackAdminExport then
    Handler.exportToExcel env w callback.ChatID
  else if callback.Data = CallbackAdminBack then
    Handler.sendAdminPanel env w callback.ChatID
  else if HasPrefix callback.Data CallbackDelChannel then
    let id := (ParseInt (TrimPrefix callback.Data CallbackDelChannel)).1
    let w1 : World := { w with channels := (ChannelRepository.Delete w.channels (env.dbErr 0) id).2 }
    Handler.sendAdminPanel (env.shift 1)
      (Handler.sendMessage w1 callback.ChatID "✅ Kanal o'chirildi") callback.ChatID
  else w

/-- The method `Handler.handleMessage`.  Database call: 0 `GetUser`, then those of the
handler the message goes to. -/
def Handler.handleMessage (cfg : Config) (env : Env) (w : World) (msg : Message) : World :=
  if adminStateOf w.adminStates msg.FromID = AdminStateWaitChannel then
    Handler.handleAddChannel env w msg
  else
    match UserService.GetUser w.users (env.dbErr 0) msg.FromID with
    | Except.ok (some user) =>
      if msg.Contact.isSome ∧ user.State = StateWaitPhone then
        Handler.handleContact cfg (env.shift 1) w msg user
      else
        let text := TrimSpace msg.Text
        if text = "" then w
        else if user.State = StateWaitFullName then
          Handler.handleFullName (env.shift 1) w msg user text
        else if user.State = StateWaitLocation then
          Handler.handleLocation (env.shift 1) w msg user text
        else if user.State = StateWaitGrade then
          Handler.handleGrade (env.shift 1) w msg user text
        else if user.State = StateWaitPhone then
          Handler.handlePhone cfg (env.shift 1) w msg user text
        else if user.State = StateWaitOTP then
          Handler.handleOTPInput (env.shift 1) w msg user text
        else if user.State = StateRegistered then
          Handler.sendMainMenu w msg.ChatID user.LanguageCode
        else w
    | _ => Handler.handleStart (env.shift 1) w msg

/-- The method `Handler.handleCommand`. -/
def Handler.handleCommand (cfg : Config) (env : Env) (w : World) (msg : Message)
    (command : String) : World :=
  if command = "start" then Handler.handleStart env w msg
  else if command = "resend" then Handler.handleResendOTP cfg env w msg
  else if command = "profile" then Handler.handleProfile env w msg
  else if command = "admin" then Handler.handleAdmin env w msg
  else w

/-- The method `Handler.HandleUpdate`. -/
def Handler.HandleUpdate (cfg : Config) (env : Env) (w : World) (update : Update) : World :=
  match update with
  | Update.message msg =>
    match msg.Command with
    | some command => Handler.handleCommand cfg env w msg command
    | none => Handler.handleMessage cfg env w msg
  | Update.callback query => Handler.handleCallback cfg env w query
  | Update.other => w

/-- The updates handled one after the other, each with what its run meets outside the
process: every handler has returned before the next one starts.  `main` starts a goroutine
for each update and does not wait for it; these are the runs of `main` in which no two
goroutines overlap, the others are those of `runConcurrent`. -/
def runUpdates (cfg : Config) : List (Env × Update) → World → World
  | [], w => w
  | (env, update) :: rest, w => runUpdates cfg rest (Handler.HandleUpdate cfg env w update)

/-! ## Goroutines (`cmd/main.go`) -/

/-- OTP settings of the defaults of `config.Load`: six digits, five minutes. -/
def exampleConfig : Config := { OTPLength := 6, OTPExpiresMins := 5 }

/-- An issuance at time 1000 in which every draw is `d`, the gateway answers 200 and
the `INSERT` succeeds. -/
def exampleIssueEnv (d : Fin 10) : IssueEnv :=
  { rand := fun _ => Except.ok d, smsClock := 1000, http := HTTPOutcome.response 200 "OK",
    clock := 1000, dbErr := none, dbClock := 1000 }

/-- An issuance in which the gateway answers with query code 503. -/
def failingIssueEnv : IssueEnv :=
  { rand := fun _ => Except.ok 3, smsClock := 1000, http := HTTPOutcome.response 503 "busy",
    clock := 1000, dbErr := none, dbClock := 1000 }

/-- A verification at database time `now` whose store operations succeed. -/
def exampleVerifyEnv (now : Time) : VerifyEnv :=
  { getErr := none, dbNow := now, markErr := none }

def emptyOTPTable : OTPTable := { rows := [], nextID := 1 }

/-- A table with two unused rows of the same phone and code, the second created later, and
a third row of another code. -/
def exampleTable : OTPTable :=
  { rows :=
      [{ ID := 1, UserID := 7, Phone := "998901234567", Code := "111111", MessageID := "OTP_10",
         IsUsed := false, ExpiresAt := 500, CreatedAt := 10 },
       { ID := 2, UserID := 7, Phone := "998901234567", Code := "111111", MessageID := "OTP_20",
         IsUsed := false, ExpiresAt := 600, CreatedAt := 20 },
       { ID := 3, UserID := 7, Phone := "998901234567", Code := "222222", MessageID := "OTP_30",
         IsUsed := false, ExpiresAt := 700, CreatedAt := 30 }],
    nextID := 4 }

/-- A table that already holds an unused, unexpired row of phone `998901234567` and
code `000000`. -/
def tableWithSameCode : OTPTable :=
  { rows :=
      [{ ID := 1, UserID := 7, Phone := "998901234567", Code := "000000", MessageID := "OTP_10",
         IsUsed := false, ExpiresAt := 300000000900, CreatedAt := 900 }],
    nextID := 2 }

/-- A user who has just been created: state `wait_full_name`, no profile yet. -/
def exampleUser : User :=
  { ID := 1, TelegramID := 42, Username := "anvar", LanguageCode := "en", FirstName := "",
    LastName := "", Region := "", District := "", School := "", Grade := 0, Phone := "",
    IsVerified := false, State := StateWaitFullName, CreatedAt := 5, UpdatedAt := 5 }

/-- A user who has submitted the phone and waits for the code. -/
def waitingUser : User :=
  { ID := 7, TelegramID := 42, Username := "anvar", LanguageCode := "en", FirstName := "Anvar",
    LastName := "Karimov", Region := "Tashkent", District := "Yunusabad", School := "School 56",
    Grade := 9, Phone := "998901234567", IsVerified := false, State := StateWaitOTP,
    CreatedAt := 5, UpdatedAt := 50 }

/-- A world whose only user is `exampleUser`. -/
def exampleWorld : World :=
  { users := { rows := [exampleUser], nextID := 2 }, otps := emptyOTPTable, sent := [],
    panicked := false }

/-- A world in which `waitingUser` has outstanding codes (`exampleTable`). -/
def waitingWorld : World :=
  { users := { rows := [waitingUser], nextID := 8 }, otps := exampleTable, sent := [],
    panicked := false }

/-- A run in which every store operation succeeds; the clock reads `100 + k` at call `k`. -/
def exampleEnv : Env :=
  { dbErr := fun _ => none, clock := fun k => 100 + k }

def exampleMessage : Message := { ChatID := 42, FromID := 42, Text := "" }

/-- The user `exampleUser` at the step `state`. -/
def userAt (state : String) : User :=
  { exampleUser with State := state }

/-- A world whose only user is `userAt state`. -/
def worldAt (state : String) : World :=
  { exampleWorld with users := { rows := [userAt state], nextID := 2 } }

/-- An environment in which the gateway answers with query code 503 and everything else
succeeds. -/
def smsDownEnv : Env :=
  { exampleEnv with http := HTTPOutcome.response 503 "busy" }

/-- A user who has completed the registration. -/
def registeredUser : User :=
  { waitingUser with IsVerified := true, State := StateRegistered }

/-- A world whose only user is `registeredUser`, with one active channel. -/
def gatedWorld : World :=
  { users := { rows := [registeredUser], nextID := 8 }, otps := exampleTable, sent := [],
    panicked := false,
    channels :=
      { rows := [{ ID := 1, ChannelID := 0, ChannelUsername := "khiso", Title := "khiso",
                   IsActive := true, CreatedAt := 1 }],
        nextID := 2 } }

/-- A world whose only user is `registeredUser`, who has pressed the button that adds a
channel and has not yet answered. -/
def taggedWorld : World :=
  { users := { rows := [registeredUser], nextID := 8 }, otps := exampleTable, sent := [],
    panicked := false, adminStates := [(42, AdminStateWaitChannel)] }

/-- A run in which every store operation succeeds and the sender has left every
channel. -/
def leftEnv : Env :=
  { exampleEnv with member := fun _ _ => Except.ok "left" }

/-- The command `/start` of the sender of `exampleMessage`. -/
def startMessage : Message :=
  { exampleMessage with Text := "/start", Command := some "start" }

/-- Auxiliary predicate of the proofs about the dispatch: `db1` is `db` after `UPDATE`s of
the rows of the telegram id of `user` that keep the telegram id, that leave the state or
set it to `target`, and that leave the phone or set it to one that matches `phoneRegex` or
to the phone of `user`. -/
def UsersStep (target : String) (user : User) (db db1 : UserTable) : Prop :=
  ∃ f : User → User, db1 = db.updateWhere user.TelegramID f ∧
    ∀ u, (f u).TelegramID = u.TelegramID ∧ ((f u).State = u.State ∨ (f u).State = target) ∧
      ((f u).Phone = u.Phone ∨ phoneRegex.MatchString (f u).Phone = true ∨
        (f u).Phone = user.Phone)

/-- A callback query of the sender of `exampleMessage` with the data `data`. -/
def callbackOf (data : String) : CallbackQuery :=
  { ID := "q1", FromID := 42, FromUserName := "anvar", FromLanguageCode := "en", ChatID := 42,
    Data := data }

/-- A run in which every store operation fails. -/
def storeDownEnv : Env :=
  { exampleEnv with dbErr := fun _ => some "connection refused" }

/-- A run in which the second store operation of the handler fails and every other one
succeeds. -/
def stateWriteDownEnv : Env :=
  { exampleEnv with dbErr := fun k => if k = 1 then some "connection refused" else none }

/-- A world with no user, no code, no channel and no admin. -/
def emptyWorld : World :=
  { users := { rows := [], nextID := 1 }, otps := emptyOTPTable, sent := [], panicked := false }

/-- An update that carries the text `text` of the sender of `exampleMessage`. -/
def textUpdate (text : String) : Update :=
  Update.message { exampleMessage with Text := text }

/-- The command `/start` of the sender of `exampleMessage`, whose client reports the user
name `anvar` and the language `en`. -/
def startMessageEn : Message :=
  { startMessage with FromUserName := "anvar", FromLanguageCode := "en" }

/-- The six updates of a whole registration of the sender of `exampleMessage`, in runs
in which every store operation succeeds, the gateway answers 200 and every draw is 0, so
that the code is `000000`. -/
def exampleRun : List (Env × Update) :=
  [(exampleEnv, Update.message startMessageEn), (exampleEnv, textUpdate "Anvar Karimov"),
   (exampleEnv, textUpdate "Tashkent, Yunusabad, School 56"), (exampleEnv, textUpdate "9"),
   (exampleEnv, textUpdate "998901234567"), (exampleEnv, textUpdate "000000")]

theorem digitAt_eq_digitChar : ∀ n : Fin 10, digitAt n = Nat.digitChar n.val := by decide

theorem digitAt_isDigit : ∀ n : Fin 10, (digitAt n).isDigit = true := by decide

theorem digitAt_injective : Function.Injective digitAt := by
  intro a b h
  revert a b
  decide

theorem generateOTPCodeLoop_ok (rand : Nat → Except String (Fin 10)) (draw : Nat → Fin 10) :
    ∀ (todo i : Nat) (code : List Char),
      (∀ j, i ≤ j → j < i + todo → rand j = Except.ok (draw j)) →
      generateOTPCodeLoop rand todo i code =
        Result.ok (String.mk (code ++ (List.range' i todo).map (fun j => digitAt (draw j)))) := by
  intro todo
  induction todo with
  | zero => intro i code _; simp [generateOTPCodeLoop]
  | succ k ih =>
    intro i code h
    have h0 : rand i = Except.ok (draw i) := h i (Nat.le_refl i) (by omega)
    have hrest : ∀ j, i + 1 ≤ j → j < i + 1 + k → rand j = Except.ok (draw j) :=
      fun j h1 h2 => h j (by omega) (by omega)
    simp [generateOTPCodeLoop, h0, ih (i + 1) (code ++ [digitAt (draw i)]) hrest,
      List.range'_succ]

/-! ## Lemmas: the OTP table -/

theorem latestCreated_eq_none_iff (l : List OTPCode) : latestCreated l = none ↔ l = [] := by
  cases l with
  | nil => simp [latestCreated]
  | cons r rs =>
    simp only [latestCreated]
    cases latestCreated rs with
    | none => simp
    | some b => by_cases h : r.CreatedAt < b.CreatedAt <;> simp [h]

theorem latestCreated_some (l : List OTPCode) (r : OTPCode) (h : latestCreated l = some r) :
    r ∈ l ∧ ∀ x ∈ l, x.CreatedAt ≤ r.CreatedAt := by
  induction l generalizing r with
  | nil => simp [latestCreated] at h
  | cons a rs ih =>
    simp only [latestCreated] at h
    cases hb : latestCreated rs with
    | none =>
      rw [hb] at h
      have hrs : rs = [] := (latestCreated_eq_none_iff rs).mp hb
      simp only [Option.some.injEq] at h
      subst h; subst hrs
      simp
    | some b =>
      rw [hb] at h
      obtain ⟨hmem, hmax⟩ := ih b hb
      by_cases hlt : a.CreatedAt < b.CreatedAt
      · simp only [hlt, if_true, Option.some.injEq] at h
        subst h
        refine ⟨List.mem_cons_of_mem _ hmem, ?_⟩
        intro x hx
        rcases List.mem_cons.mp hx with rfl | hx
        · exact le_of_lt hlt
        · exact hmax x hx
      · simp only [hlt, if_false, Option.some.injEq] at h
        subst h
        refine ⟨List.mem_cons_self _ _, ?_⟩
        intro x hx
        rcases List.mem_cons.mp hx with rfl | hx
        · exact le_refl _
        · exact le_trans (hmax x hx) (not_lt.mp hlt)

theorem matchesPhoneAndCode_iff (now : Time) (phone code : String) (r : OTPCode) :
    matchesPhoneAndCode now phone code r = true ↔
      r.Phone = phone ∧ r.Code = code ∧ r.IsUsed = false ∧ now < r.ExpiresAt := by
  simp [matchesPhoneAndCode, and_assoc]

/-- The rows of the table after `UPDATE ... SET is_used = TRUE WHERE id = id`. -/
theorem MarkAsUsed_ok (db : OTPTable) (id : Int) :
    OTPRepository.MarkAsUsed db none id =
      (none, { rows := db.rows.map (fun r => if r.ID = id then { r with IsUsed := true } else r),
               nextID := db.nextID }) := rfl

theorem VerifyOTP_of_none (env : VerifyEnv) (db : OTPTable) (phone code : String)
    (hget : env.getErr = none)
    (h : latestCreated (db.rows.filter (matchesPhoneAndCode env.dbNow phone code)) = none) :
    OTPService.VerifyOTP env db phone code = { valid := false, err := none, db := db } := by
  simp [OTPService.VerifyOTP, OTPRepository.GetByPhoneAndCode, hget, h]

theorem VerifyOTP_of_some (env : VerifyEnv) (db : OTPTable) (phone code : String) (r : OTPCode)
    (hget : env.getErr = none) (hmark : env.markErr = none)
    (h : latestCreated (db.rows.filter (matchesPhoneAndCode env.dbNow phone code)) = some r) :
    OTPService.VerifyOTP env db phone code =
      { valid := true, err := none,
        db := { rows := db.rows.map (fun x => if x.ID = r.ID then { x with IsUsed := true } else x),
                nextID := db.nextID } } := by
  simp [OTPService.VerifyOTP, OTPRepository.GetByPhoneAndCode, OTPRepository.MarkAsUsed, hget,
    hmark, h]

/-- Whatever the database answers, a verification that is not valid leaves the table as it was. -/
theorem VerifyOTP_db_of_not_valid (env : VerifyEnv) (db : OTPTable) (phone code : String)
    (h : (OTPService.VerifyOTP env db phone code).valid = false) :
    (OTPService.VerifyOTP env db phone code).db = db := by
  unfold OTPService.VerifyOTP OTPRepository.GetByPhoneAndCode OTPRepository.MarkAsUsed at h ⊢
  cases hg : env.getErr with
  | some e => simp
  | none =>
    cases hl : latestCreated (db.rows.filter (matchesPhoneAndCode env.dbNow phone code)) with
    | none => simp
    | some r =>
      cases hm : env.markErr with
      | some e => simp
      | none => simp [hg, hl, hm] at h

theorem VerifyOTP_valid_iff (env : VerifyEnv) (db : OTPTable) (phone code : String)
    (hget : env.getErr = none) (hmark : env.markErr = none) :
    (OTPService.VerifyOTP env db phone code).valid = true ↔
      ∃ r ∈ db.rows, r.Phone = phone ∧ r.Code = code ∧ r.IsUsed = false ∧
        env.dbNow < r.ExpiresAt := by
  cases hl : latestCreated (db.rows.filter (matchesPhoneAndCode env.dbNow phone code)) with
  | none =>
    rw [VerifyOTP_of_none env db phone code hget hl]
    have hnil := (latestCreated_eq_none_iff _).mp hl
    constructor
    · intro h; simp at h
    · rintro ⟨r, hr, hm⟩
      have : r ∈ db.rows.filter (matchesPhoneAndCode env.dbNow phone code) :=
        List.mem_filter.mpr ⟨hr, (matchesPhoneAndCode_iff _ _ _ _).mpr hm⟩
      rw [hnil] at this
      simp at this
  | some r =>
    rw [VerifyOTP_of_some env db phone code r hget hmark hl]
    obtain ⟨hmem, _⟩ := latestCreated_some _ _ hl
    obtain ⟨hr, hm⟩ := List.mem_filter.mp hmem
    simp only [true_iff]
    exact ⟨r, hr, (matchesPhoneAndCode_iff _ _ _ _).mp hm⟩

/-- A verification that is valid has found a matching row, whatever the database answers. -/
theorem VerifyOTP_exists_of_valid (env : VerifyEnv) (db : OTPTable) (phone code : String)
    (h : (OTPService.VerifyOTP env db phone code).valid = true) :
    ∃ r ∈ db.rows, (r.Phone = phone ∧ r.Code = code ∧ r.IsUsed = false ∧
        env.dbNow < r.ExpiresAt) ∧
      (OTPService.VerifyOTP env db phone code).db.rows =
        db.rows.map (fun x => if x.ID = r.ID then { x with IsUsed := true } else x) := by
  cases hg : env.getErr with
  | some e => simp [OTPService.VerifyOTP, OTPRepository.GetByPhoneAndCode, hg] at h
  | none =>
    cases hl : latestCreated (db.rows.filter (matchesPhoneAndCode env.dbNow phone code)) with
    | none => simp [VerifyOTP_of_none env db phone code hg hl] at h
    | some r =>
      cases hm : env.markErr with
      | some e =>
        simp [OTPService.VerifyOTP, OTPRepository.GetByPhoneAndCode, OTPRepository.MarkAsUsed,
          hg, hl, hm] at h
      | none =>
        obtain ⟨hmem, _⟩ := latestCreated_some _ _ hl
        obtain ⟨hr, hmatch⟩ := List.mem_filter.mp hmem
        refine ⟨r, hr, (matchesPhoneAndCode_iff _ _ _ _).mp hmatch, ?_⟩
        rw [VerifyOTP_of_some env db phone code r hg hm hl]

/-- With `id` a key, the `UPDATE` of `MarkAsUsed` changes the one row that has the id. -/
theorem map_mark_eq_set (l : List OTPCode) (hkey : (l.map (fun r => r.ID)).Nodup) (i : Nat)
    (h : i < l.length) :
    l.map (fun x => if x.ID = (l.get ⟨i, h⟩).ID then { x with IsUsed := true } else x) =
      l.set i { l.get ⟨i, h⟩ with IsUsed := true } := by
  induction l generalizing i with
  | nil => simp at h
  | cons a rs ih =>
    simp only [List.map_cons, List.nodup_cons, List.mem_map, not_exists, not_and] at hkey
    obtain ⟨hnot, hnd⟩ := hkey
    cases i with
    | zero =>
      simp only [List.get_eq_getElem, List.getElem_cons_zero, List.map_cons, if_true,
        List.set_cons_zero, List.cons.injEq, true_and]
      calc rs.map (fun x => if x.ID = a.ID then { x with IsUsed := true } else x)
          = rs.map id := by
            apply List.map_congr_left
            intro x hx
            have : x.ID ≠ a.ID := hnot x hx
            simp [this]
        _ = rs := List.map_id rs
    | succ j =>
      have hj : j < rs.length := by simpa using h
      have hne : a.ID ≠ (rs.get ⟨j, hj⟩).ID := fun e => hnot _ (List.get_mem rs j hj) e.symm
      have := ih hnd j hj
      simp only [List.get_eq_getElem] at this hne
      simp [hne, this]

/-! ## Lemmas: issuing a code -/

theorem wrapInt64_of_range (x : Int) (h : -2 ^ 63 ≤ x ∧ x < 2 ^ 63) : wrapInt64 x = x := by
  unfold wrapInt64
  norm_num at h ⊢
  omega

/-- What a successful `GenerateAndSendOTP` has done: one row appended. -/
theorem GenerateAndSendOTP_of_ok (cfg : Config) (env : IssueEnv) (db : OTPTable) (userID : Int)
    (phone c : String) (hgen : generateOTPCode cfg.OTPLength env.rand = Result.ok c)
    (hok : (OTPService.GenerateAndSendOTP cfg env db userID phone).result = Result.ok ()) :
    ∃ messageID : String,
      (OTPService.GenerateAndSendOTP cfg env db userID phone).db =
        { rows := db.rows ++
            [{ ID := db.nextID, UserID := userID, Phone := phone, Code := c,
               MessageID := messageID, IsUsed := false,
               ExpiresAt := env.clock + expiryWindow cfg, CreatedAt := env.dbClock }],
          nextID := db.nextID + 1 } := by
  unfold OTPService.GenerateAndSendOTP at hok ⊢
  simp only [hgen] at hok ⊢
  cases hs : SMSService.SendSMS env.smsClock env.http phone
      (Sprintf "Sizning tasdiqlash kodingiz: %s\nKod %d daqiqa ichida amal qiladi."
        [Arg.str c, Arg.int cfg.OTPExpiresMins]) with
  | error e => simp [hs] at hok
  | ok messageID =>
    cases hd : env.dbErr with
    | some e => simp [hs, hd, OTPRepository.Create] at hok
    | none => exact ⟨messageID, by simp [hd, OTPRepository.Create]⟩

/-! ## Lemmas: package `strings` -/

theorem fieldsAux_tokens : ∀ (cs cur : List Char), (∀ c ∈ cur, isSpace c = false) →
    ∀ t ∈ fieldsAux cs cur, t ≠ [] ∧ ∀ c ∈ t, isSpace c = false := by
  intro cs
  induction cs with
  | nil =>
    intro cur hcur t ht
    cases cur with
    | nil => simp [fieldsAux] at ht
    | cons a l =>
      simp only [fieldsAux, List.isEmpty_cons, Bool.false_eq_true, if_false,
        List.mem_singleton] at ht
      subst ht
      exact ⟨by simp, fun c hc => hcur c (List.mem_reverse.mp hc)⟩
  | cons x xs ih =>
    intro cur hcur t ht
    simp only [fieldsAux] at ht
    by_cases hx : isSpace x = true
    · simp only [hx, if_true] at ht
      cases cur with
      | nil =>
        simp only [List.isEmpty_nil, if_true] at ht
        exact ih [] (by simp) t ht
      | cons a l =>
        simp only [List.isEmpty_cons, Bool.false_eq_true, if_false, List.mem_cons] at ht
        rcases ht with rfl | ht
        · exact ⟨by simp, fun c hc => hcur c (List.mem_reverse.mp hc)⟩
        · exact ih [] (by simp) t ht
    · simp only [hx, if_false] at ht
      apply ih (x :: cur) _ t ht
      intro c hc
      rcases List.mem_cons.mp hc with rfl | hc
      · simpa using hx
      · exact hcur c hc

/-- Every token of `strings.Fields` is non-empty and holds no whitespace. -/
theorem Fields_tokens (s t : String) (ht : t ∈ Fields s) :
    t ≠ "" ∧ ∀ c ∈ t.data, isSpace c = false := by
  unfold Fields at ht
  obtain ⟨l, hl, rfl⟩ := List.mem_map.mp ht
  obtain ⟨hne, hsp⟩ := fieldsAux_tokens s.data [] (by simp) l hl
  refine ⟨?_, hsp⟩
  intro h
  exact hne (by simpa using congrArg String.data h)

theorem trimChars_eq_nil_iff (l : List Char) :
    trimChars l = [] ↔ ∀ c ∈ l, isSpace c = true := by
  unfold trimChars
  rw [List.reverse_eq_nil_iff, List.dropWhile_eq_nil_iff]
  constructor
  · intro h c hc
    by_contra hsp
    have hne : l.dropWhile isSpace ≠ [] := by
      intro hnil
      exact hsp ((List.dropWhile_eq_nil_iff.mp hnil) c hc)
    have hhead := List.head_dropWhile_not isSpace l hne
    have := h _ (List.mem_reverse.mpr (List.head_mem hne))
    rw [this] at hhead
    exact absurd hhead (by decide)
  · intro h c hc
    exact h c ((List.dropWhile_sublist isSpace).subset (List.mem_reverse.mp hc))

theorem TrimSpace_eq_empty_iff (s : String) :
    TrimSpace s = "" ↔ ∀ c ∈ s.data, isSpace c = true := by
  rw [← trimChars_eq_nil_iff]
  unfold TrimSpace
  constructor
  · intro h
    have := congrArg String.data h
    simpa using this
  · intro h
    rw [h]

theorem mem_Join_data (sep : String) (c : Char) :
    ∀ (l : List String) (p : String), p ∈ l → c ∈ p.data → c ∈ (Join l sep).data := by
  intro l
  induction l with
  | nil => intro p hp; cases hp
  | cons a t ih =>
    intro p hp hc
    cases t with
    | nil =>
      have : p = a := by simpa using hp
      simpa [Join, this] using hc
    | cons b t' =>
      simp only [Join, String.data_append, List.mem_append]
      rcases List.mem_cons.mp hp with rfl | hp
      · exact Or.inl (Or.inl hc)
      · exact Or.inr (ih p hp hc)

theorem sep_mem_Join_data (sep : String) (c : Char) (hc : c ∈ sep.data) (a b : String)
    (l : List String) : c ∈ (Join (a :: b :: l) sep).data := by
  simp only [Join, String.data_append, List.mem_append]
  exact Or.inl (Or.inr hc)

theorem isSpace_comma : isSpace ',' = false := by decide

/-! ## Lemmas: the handlers -/

theorem i18n_Get_cases (lang : String) :
    i18n.Get lang = messagesUz ∨ i18n.Get lang = messagesRu ∨ i18n.Get lang = messagesEn := by
  unfold i18n.Get
  by_cases h1 : lang = "uz"
  · simp [h1]
  · by_cases h2 : lang = "ru"
    · simp [h2]
    · by_cases h3 : lang = "en" <;> simp [h1, h2, h3]

theorem handleLocation_of_split (env : Env) (w : World) (msg : Message) (user : User)
    (text seg0 seg1 seg2 : String) (rest : List String)
    (hsplit : Split text ',' = seg0 :: seg1 :: seg2 :: rest) :
    Handler.handleLocation env w msg user text =
      if TrimSpace seg0 = "" ∨ TrimSpace seg1 = "" ∨ TrimSpace (Join (seg2 :: rest) ",") = "" then
        Handler.sendMessageHTML w msg.ChatID (i18n.Get user.LanguageCode).InvalidLocation
      else
        match UserService.UpdateLocation w.users (env.dbErr 0) (env.clock 0) user.TelegramID
            (TrimSpace seg0) (TrimSpace seg1) (TrimSpace (Join (seg2 :: rest) ",")) with
        | (some _, users1) =>
          Handler.sendMessage { w with users := users1 } msg.ChatID
            (i18n.Get user.LanguageCode).Error
        | (none, users1) =>
          match UserService.UpdateUserState users1 (env.dbErr 1) (env.clock 1) user.TelegramID
              StateWaitGrade with
          | (some _, users2) => { w with users := users2 }
          | (none, users2) =>
            Handler.sendMessageHTML { w with users := users2 } msg.ChatID
              (i18n.Get user.LanguageCode).AskGrade := by
  have hlen : ¬ (rest.length + 1 + 1 + 1 < 3) := by omega
  simp only [Handler.handleLocation, hsplit, List.length_cons, hlen, dite_false,
    List.get_eq_getElem, List.getElem_cons_zero, List.getElem_cons_succ, List.drop_succ_cons,
    List.drop_zero]

theorem handleLocation_of_short (env : Env) (w : World) (msg : Message) (user : User)
    (text : String) (hlen : (Split text ',').length < 3) :
    Handler.handleLocation env w msg user text =
      Handler.sendMessageHTML w msg.ChatID (i18n.Get user.LanguageCode).InvalidLocation := by
  simp [Handler.handleLocation, hlen]

/-! ## Lemmas: phone numbers -/

/-- The regular expression `^998[0-9]{9}$`: the runes `998` followed by nine digits. -/
theorem phoneRegex_iff (s : String) :
    phoneRegex.MatchString s = true ↔
      ∃ rest : List Char, s.data = '9' :: '9' :: '8' :: rest ∧ rest.length = 9 ∧
        ∀ c ∈ rest, c.isDigit = true := by
  unfold phoneRegex.MatchString
  split
  · rename_i rest h
    simp [h]
  · rename_i h
    simp only [Bool.false_eq_true, false_iff, not_exists, not_and]
    intro rest hrest
    exact absurd hrest (h rest)

theorem phoneRegex_length (s : String) (h : phoneRegex.MatchString s = true) :
    s.length = 12 ∧ ∀ c ∈ s.data, c.isDigit = true := by
  obtain ⟨rest, hs, hlen, hdig⟩ := (phoneRegex_iff s).mp h
  constructor
  · simp [String.length, hs, hlen]
  · intro c hc
    rw [hs] at hc
    simp only [List.mem_cons] at hc
    rcases hc with rfl | rfl | rfl | hc
    · decide
    · decide
    · decide
    · exact hdig c hc

theorem find_updateWhere (db : UserTable) (tid tid' : Int) (f : User → User)
    (hf : ∀ u, (f u).TelegramID = u.TelegramID) :
    (db.updateWhere tid f).rows.find? (fun u => u.TelegramID == tid') =
      if tid' = tid then (db.rows.find? (fun u => u.TelegramID == tid')).map f
      else db.rows.find? (fun u => u.TelegramID == tid') := by
  unfold UserTable.updateWhere
  simp only
  induction db.rows with
  | nil => simp
  | cons a rs ih =>
    simp only [List.map_cons, List.find?_cons]
    by_cases ha : a.TelegramID = tid
    · simp only [ha, if_true, hf]
      by_cases ht : tid = tid'
      · subst ht
        simp
      · have ht' : ¬ tid' = tid := fun e => ht e.symm
        have hb : (tid == tid') = false := by simpa using ht
        simp only [hb, ht', if_false] at ih ⊢
        exact ih
    · simp only [ha, if_false]
      by_cases hat : a.TelegramID = tid'
      · have ht' : ¬ tid' = tid := fun e => ha (hat.trans e)
        simp [hat, ht']
      · have hb : (a.TelegramID == tid') = false := by simpa using hat
        simp only [hb]
        exact ih

theorem find_telegramID (rows : List User) (tid : Int) (u : User)
    (h : rows.find? (fun u => u.TelegramID == tid) = some u) : u.TelegramID = tid := by
  have := List.find?_some h
  simpa using this

theorem updateWhere_self (db : UserTable) (tid : Int) : db.updateWhere tid (fun u => u) = db := by
  unfold UserTable.updateWhere
  have : db.rows.map (fun u => if u.TelegramID = tid then u else u) = db.rows := by
    have h : (fun u : User => if u.TelegramID = tid then u else u) = id := by
      funext u; simp
    rw [h, List.map_id]
  rw [this]

theorem updateWhere_updateWhere (db : UserTable) (tid : Int) (f g : User → User)
    (hf : ∀ u, (f u).TelegramID = u.TelegramID) :
    (db.updateWhere tid f).updateWhere tid g = db.updateWhere tid (fun u => g (f u)) := by
  unfold UserTable.updateWhere
  simp only [List.map_map, UserTable.mk.injEq, and_true]
  apply List.map_congr_left
  intro u _
  by_cases hu : u.TelegramID = tid
  · simp [hu, hf]
  · simp [hu]

/-- The user table after `submitPhone`, when `UpdatePhone` succeeds: the phone is stored in
the rows of the user, and the state is set in them when the issuance and `UpdateUserState`
succeed. -/
theorem submitPhone_users (cfg : Config) (env : Env) (w : World) (msg : Message) (user : User)
    (phone : String) (h0 : env.dbErr 0 = none) :
    (Handler.submitPhone cfg env w msg user phone).users =
        w.users.updateWhere user.TelegramID
          (fun u => { u with Phone := phone, UpdatedAt := env.clock 0 }) ∨
    (Handler.submitPhone cfg env w msg user phone).users =
        w.users.updateWhere user.TelegramID
          (fun u => { u with Phone := phone, State := StateWaitOTP, UpdatedAt := env.clock 3 }) := by
  unfold Handler.submitPhone
  simp only [UserService.UpdatePhone, UserRepository.UpdatePhone, h0]
  split
  · rename_i updatedUser hget
    split
    · exact Or.inl rfl
    · exact Or.inl rfl
    · cases h3 : env.dbErr 3 with
      | some e =>
        left
        simp only [UserService.UpdateUserState, UserRepository.UpdateState, h3]
        split <;> rfl
      | none =>
        right
        simp only [UserService.UpdateUserState, UserRepository.UpdateState, h3]
        have := updateWhere_updateWhere w.users user.TelegramID
          (fun u => { u with Phone := phone, UpdatedAt := env.clock 0 })
          (fun u => { u with State := StateWaitOTP, UpdatedAt := env.clock 3 }) (fun _ => rfl)
        split <;> exact this
  · exact Or.inl rfl

theorem submitPhone_of_update_error (cfg : Config) (env : Env) (w : World) (msg : Message)
    (user : User) (phone e : String) (h0 : env.dbErr 0 = some e) :
    Handler.submitPhone cfg env w msg user phone =
      Handler.sendMessage w msg.ChatID (i18n.Get user.LanguageCode).Error := by
  simp [Handler.submitPhone, UserService.UpdatePhone, UserRepository.UpdatePhone, h0]

/-- Whatever happens in `submitPhone`, its last word is not a lone HTML message. -/
theorem submitPhone_sent_ne (cfg : Config) (env : Env) (w : World) (msg : Message) (user : User)
    (phone text : String) :
    (Handler.submitPhone cfg env w msg user phone).sent ≠
      w.sent ++ [{ NewMessage msg.ChatID text with ParseMode := ModeHTML }] := by
  unfold Handler.submitPhone
  simp only [UserService.UpdatePhone, UserRepository.UpdatePhone]
  cases h0 : env.dbErr 0 with
  | some e => simp [Handler.sendMessage, NewMessage, ModeHTML]
  | none =>
    simp only
    split
    · split
      · simp
      · simp [Handler.sendMessage, NewMessage, ModeHTML]
      · split
        · simp [NewMessage, ModeHTML]
        · simp [Handler.sendOTPMessage, NewMessage, ModeHTML]
    · simp

/-- What `submitPhone` does when the phone is stored, the user is read back and the
issuance returns an error. -/
theorem submitPhone_of_issue_error (cfg : Config) (env : Env) (w : World) (msg : Message)
    (user stored : User) (phone e : String)
    (hstored : w.users.rows.find? (fun u => u.TelegramID == user.TelegramID) = some stored)
    (h0 : env.dbErr 0 = none) (h1 : env.dbErr 1 = none)
    (hfail : (OTPService.GenerateAndSendOTP cfg (env.issue 2) w.otps stored.ID phone).result =
      Result.err e) :
    Handler.submitPhone cfg env w msg user phone =
      Handler.sendMessage
        { w with
          users := w.users.updateWhere user.TelegramID
            (fun u => { u with Phone := phone, UpdatedAt := env.clock 0 }),
          otps := (OTPService.GenerateAndSendOTP cfg (env.issue 2) w.otps stored.ID phone).db,
          sms := w.sms ++
            (OTPService.GenerateAndSendOTP cfg (env.issue 2) w.otps stored.ID phone).sms }
        msg.ChatID (i18n.Get user.LanguageCode).Error := by
  have hfind := find_updateWhere w.users user.TelegramID user.TelegramID
    (fun u => { u with Phone := phone, UpdatedAt := env.clock 0 }) (fun _ => rfl)
  rw [hstored] at hfind
  simp only [if_true, Option.map_some'] at hfind
  unfold Handler.submitPhone
  simp only [UserService.UpdatePhone, UserRepository.UpdatePhone, h0, UserService.GetUser,
    UserRepository.GetByTelegramID, h1, hfind, hfail]

theorem utf8Size_of_isDigit (c : Char) (h : c.isDigit = true) : c.utf8Size = 1 := by
  have hle : c.val ≤ 57 := by
    simp only [Char.isDigit, Bool.and_eq_true, decide_eq_true_eq] at h
    exact h.2
  have h7 : (57 : UInt32) ≤ 0x7f := by decide
  have : c.val ≤ 0x7f := UInt32.le_trans hle h7
  simp [Char.utf8Size, this]

/-- The mask of a phone of 12 one-byte runes: the first 6, four stars, the last 2. -/
theorem maskPhone_of_digits (s : String)
    (h : ∃ rest : List Char, s.data = '9' :: '9' :: '8' :: rest ∧ rest.length = 9 ∧
      ∀ c ∈ rest, c.isDigit = true) :
    maskPhone s = some (String.mk (s.data.take 6 ++ "****".data ++ s.data.drop 10)) := by
  obtain ⟨rest, hs, hlen, hdig⟩ := h
  obtain ⟨d1, d2, d3, d4, d5, d6, d7, d8, d9, rfl⟩ :
      ∃ d1 d2 d3 d4 d5 d6 d7 d8 d9, rest = [d1, d2, d3, d4, d5, d6, d7, d8, d9] := by
    match rest, hlen with
    | [d1, d2, d3, d4, d5, d6, d7, d8, d9], _ => exact ⟨_, _, _, _, _, _, _, _, _, rfl⟩
  have u1 := utf8Size_of_isDigit d1 (hdig d1 (by simp))
  have u2 := utf8Size_of_isDigit d2 (hdig d2 (by simp))
  have u3 := utf8Size_of_isDigit d3 (hdig d3 (by simp))
  have u4 := utf8Size_of_isDigit d4 (hdig d4 (by simp))
  have u5 := utf8Size_of_isDigit d5 (hdig d5 (by simp))
  have u6 := utf8Size_of_isDigit d6 (hdig d6 (by simp))
  have u7 := utf8Size_of_isDigit d7 (hdig d7 (by simp))
  have u8 := utf8Size_of_isDigit d8 (hdig d8 (by simp))
  have u9 := utf8Size_of_isDigit d9 (hdig d9 (by simp))
  have u0 : ('9' : Char).utf8Size = 1 := by decide
  have u0' : ('8' : Char).utf8Size = 1 := by decide
  have hl : len s = 12 := by
    simp [len, hs, u0, u0', u1, u2, u3, u4, u5, u6, u7, u8, u9]
  unfold maskPhone
  simp only [hl, sliceBytes, hs, sliceBytesAux, u0, u0', u1, u2, u3, u4, u5, u6, u7, u8, u9]
  simp
  rfl

/-- What `submitPhone` sends when everything up to the mask succeeds. -/
theorem submitPhone_of_issue_ok (cfg : Config) (env : Env) (w : World) (msg : Message)
    (user stored : User) (phone masked : String)
    (hstored : w.users.rows.find? (fun u => u.TelegramID == user.TelegramID) = some stored)
    (h0 : env.dbErr 0 = none) (h1 : env.dbErr 1 = none)
    (hok : (OTPService.GenerateAndSendOTP cfg (env.issue 2) w.otps stored.ID phone).result =
      Result.ok ())
    (hmask : maskPhone phone = some masked) :
    (Handler.submitPhone cfg env w msg user phone).sent =
      w.sent ++
        [{ NewMessage msg.ChatID "✅" with ReplyMarkup := ReplyMarkup.removeKeyboard true },
         { NewMessage msg.ChatID
            (Sprintf (i18n.Get user.LanguageCode).OTPSent [Arg.str masked] ++ "\n\n" ++
              (i18n.Get user.LanguageCode).AskOTP) with
            ParseMode := ModeHTML,
            ReplyMarkup := ReplyMarkup.inlineKeyboard
              [[Button.data (i18n.Get user.LanguageCode).ResendOTP CallbackResendOTP]] }] ∧
    (Handler.submitPhone cfg env w msg user phone).panicked = w.panicked := by
  have hfind := find_updateWhere w.users user.TelegramID user.TelegramID
    (fun u => { u with Phone := phone, UpdatedAt := env.clock 0 }) (fun _ => rfl)
  rw [hstored] at hfind
  simp only [if_true, Option.map_some'] at hfind
  unfold Handler.submitPhone
  simp only [UserService.UpdatePhone, UserRepository.UpdatePhone, h0, UserService.GetUser,
    UserRepository.GetByTelegramID, h1, hfind, hok, hmask, Handler.sendOTPMessage]
  simp

/-- What `resendOTP` does for a user who waits for a code, when the issuance succeeds. -/
theorem resendOTP_of_issue_ok (cfg : Config) (env : Env) (w : World) (chatID userID : Int)
    (stored : User) (masked : String)
    (hget : UserService.GetUser w.users (env.dbErr 0) userID = Except.ok (some stored))
    (hphone : stored.Phone ≠ "") (hstate : stored.State = StateWaitOTP)
    (hok : (OTPService.GenerateAndSendOTP cfg (env.issue 1) w.otps stored.ID stored.Phone).result
      = Result.ok ())
    (hmask : maskPhone stored.Phone = some masked) :
    (Handler.resendOTP cfg env w chatID userID).sent =
      w.sent ++
        [{ NewMessage chatID
            (Sprintf (i18n.Get stored.LanguageCode).OTPSent [Arg.str masked] ++ "\n\n" ++
              (i18n.Get stored.LanguageCode).AskOTP) with
            ParseMode := ModeHTML,
            ReplyMarkup := ReplyMarkup.inlineKeyboard
              [[Button.data (i18n.Get stored.LanguageCode).ResendOTP CallbackResendOTP]] }] ∧
    (Handler.resendOTP cfg env w chatID userID).panicked = w.panicked := by
  unfold Handler.resendOTP
  simp only [hget, hphone, hstate, ne_eq, not_true_eq_false, or_self, if_false, hok, hmask,
    Handler.sendOTPMessage]
  simp

/-! ## Lemmas: `/start` and the dispatch -/

/-- A subscription check either passes and changes nothing, or fails and sends one
message. -/
theorem checkSubscription_cases (env : Env) (w : World) (userID chatID : Int) (lang : String) :
    Handler.checkSubscription env w userID chatID lang = (true, w) ∨
    ∃ m : MessageConfig, Handler.checkSubscription env w userID chatID lang =
      (false, { w with sent := w.sent ++ [m] }) := by
  unfold Handler.checkSubscription
  cases hg : ChannelRepository.GetActive w.channels (env.dbErr 0) with
  | error e => exact Or.inl rfl
  | ok channels =>
    simp only
    by_cases h1 : channels.length = 0
    · simp [h1]
    · by_cases h2 : (notSubscribedFrom (env.member 0) 0 channels).length = 0
      · simp [h1, h2]
      · right
        simp only [h1, h2, if_false]
        exact ⟨_, rfl⟩

/-- A subscription check that passes has sent nothing and changed nothing. -/
theorem checkSubscription_of_true (env : Env) (w : World) (userID chatID : Int) (lang : String)
    (h : (Handler.checkSubscription env w userID chatID lang).1 = true) :
    (Handler.checkSubscription env w userID chatID lang).2 = w := by
  rcases checkSubscription_cases env w userID chatID lang with hc | ⟨m, hc⟩
  · rw [hc]
  · rw [hc] at h
    simp at h

/-- A subscription check touches nothing but the outbox. -/
theorem checkSubscription_frame (env : Env) (w : World) (userID chatID : Int) (lang : String) :
    ∃ sent, (Handler.checkSubscription env w userID chatID lang).2 = { w with sent := sent } := by
  rcases checkSubscription_cases env w userID chatID lang with hc | ⟨m, hc⟩
  · rw [hc]
    exact ⟨w.sent, rfl⟩
  · rw [hc]
    exact ⟨_, rfl⟩

/-- The user table after `/start`: as before, or with one new row without profile for a
sender who had none. -/
theorem handleStart_users (env : Env) (w : World) (msg : Message) :
    (Handler.handleStart env w msg).users = w.users ∨
    (w.users.rows.find? (fun u => u.TelegramID == msg.FromID) = none ∧
      ∃ new : User,
        (Handler.handleStart env w msg).users =
          { rows := w.users.rows ++ [new], nextID := w.users.nextID + 1 } ∧
        new.TelegramID = msg.FromID ∧ new.Phone = "" ∧
        new.State = StateWaitFullName ∧ new.IsVerified = false) := by
  unfold Handler.handleStart
  simp only
  rcases checkSubscription_cases env w msg.FromID msg.ChatID
    (if msg.FromLanguageCode = "" then "uz" else msg.FromLanguageCode) with hc | ⟨m, hc⟩
  · simp only [hc, UserService.GetOrCreateUser, UserRepository.GetByTelegramID]
    cases h1 : env.dbErr 1 with
    | some e => exact Or.inl rfl
    | none =>
      cases hf : w.users.rows.find? (fun u => u.TelegramID == msg.FromID) with
      | some u =>
        simp only
        split <;> exact Or.inl rfl
      | none =>
        simp only [UserRepository.Create]
        cases h2 : env.dbErr 2 with
        | some e => exact Or.inl rfl
        | none =>
          right
          refine ⟨trivial, ?_⟩
          simp only [Handler.sendMainMenu, Handler.sendMessageHTML]
          split <;> exact ⟨_, rfl, rfl, rfl, rfl, rfl⟩
  · simp only [hc]
    exact Or.inl trivial

/-- What `/start` does for a sender who has a record, when the gate passes and the
record is read. -/
theorem handleStart_of_existing (env : Env) (w : World) (msg : Message) (stored : User)
    (hstored : w.users.rows.find? (fun u => u.TelegramID == msg.FromID) = some stored)
    (hgate : (Handler.checkSubscription env w msg.FromID msg.ChatID
      (if msg.FromLanguageCode = "" then "uz" else msg.FromLanguageCode)).1 = true)
    (h1 : env.dbErr 1 = none) :
    Handler.handleStart env w msg =
      if stored.State = StateRegistered ∧ stored.IsVerified = true then
        Handler.sendMainMenu w msg.ChatID stored.LanguageCode
      else
        Handler.sendMessageHTML w msg.ChatID
          ((i18n.Get stored.LanguageCode).Welcome ++ "\n\n" ++
            (i18n.Get stored.LanguageCode).AskFullName) := by
  unfold Handler.handleStart
  simp only
  rcases checkSubscription_cases env w msg.FromID msg.ChatID
    (if msg.FromLanguageCode = "" then "uz" else msg.FromLanguageCode) with hc | ⟨m, hc⟩
  · simp only [hc, UserService.GetOrCreateUser, UserRepository.GetByTelegramID, h1, hstored]
  · rw [hc] at hgate
    simp at hgate

/-- The admin panel touches neither table of the registration. -/
theorem sendAdminPanel_frame (env : Env) (w : World) (chatID : Int) :
    (Handler.sendAdminPanel env w chatID).users = w.users ∧
    (Handler.sendAdminPanel env w chatID).otps = w.otps := by
  unfold Handler.sendAdminPanel
  split <;> exact ⟨rfl, rfl⟩

theorem handleAddChannel_frame (env : Env) (w : World) (msg : Message) :
    (Handler.handleAddChannel env w msg).users = w.users ∧
    (Handler.handleAddChannel env w msg).otps = w.otps := by
  unfold Handler.handleAddChannel
  simp only
  split
  · exact ⟨rfl, rfl⟩
  · constructor
    · rw [(sendAdminPanel_frame _ _ _).1]; rfl
    · rw [(sendAdminPanel_frame _ _ _).2]; rfl

theorem handleStart_otps (env : Env) (w : World) (msg : Message) :
    (Handler.handleStart env w msg).otps = w.otps := by
  unfold Handler.handleStart
  simp only
  rcases checkSubscription_cases env w msg.FromID msg.ChatID
    (if msg.FromLanguageCode = "" then "uz" else msg.FromLanguageCode) with hc | ⟨m, hc⟩
  · simp only [hc]
    split
    · rfl
    · split <;> rfl
  · simp only [hc]

/-- A sender who has a record keeps the table of users as it is on `/start`. -/
theorem handleStart_users_of_existing (env : Env) (w : World) (msg : Message) (stored : User)
    (hstored : w.users.rows.find? (fun u => u.TelegramID == msg.FromID) = some stored) :
    (Handler.handleStart env w msg).users = w.users := by
  rcases handleStart_users env w msg with h | ⟨h, _⟩
  · exact h
  · rw [hstored] at h
    exact absurd h (by simp)

theorem resendOTP_users (cfg : Config) (env : Env) (w : World) (chatID userID : Int) :
    (Handler.resendOTP cfg env w chatID userID).users = w.users := by
  unfold Handler.resendOTP
  simp only
  split
  · rfl
  · split
    · rfl
    · split
      · rfl
      · rfl
      · split <;> rfl

theorem handleProfile_users (env : Env) (w : World) (msg : Message) :
    (Handler.handleProfile env w msg).users = w.users := by
  unfold Handler.handleProfile
  split
  · split <;> rfl
  · rfl

theorem handleAdmin_users (env : Env) (w : World) (msg : Message) :
    (Handler.handleAdmin env w msg).users = w.users := by
  unfold Handler.handleAdmin
  simp only
  split
  · rfl
  · exact (sendAdminPanel_frame _ _ _).1

theorem sendChannelList_users (env : Env) (w : World) (chatID : Int) :
    (Handler.sendChannelList env w chatID).users = w.users := by
  unfold Handler.sendChannelList
  simp only
  split <;> rfl

theorem exportToExcel_users (env : Env) (w : World) (chatID : Int) :
    (Handler.exportToExcel env w chatID).users = w.users := by
  unfold Handler.exportToExcel
  split <;> rfl

/-! ## Lemmas: what one update does to the table of users -/

theorem UsersStep_refl (target : String) (user : User) (db : UserTable) :
    UsersStep target user db db :=
  ⟨fun u => u, (updateWhere_self db user.TelegramID).symm,
    fun _ => ⟨rfl, Or.inl rfl, Or.inl rfl⟩⟩

theorem handleFullName_step (env : Env) (w : World) (msg : Message) (user : User)
    (text : String) :
    UsersStep StateWaitLocation user w.users (Handler.handleFullName env w msg user text).users := by
  unfold Handler.handleFullName
  simp only
  split
  · exact UsersStep_refl _ _ _
  · simp only [UserService.UpdateFullName, UserRepository.UpdateFullName]
    cases h0 : env.dbErr 0 with
    | some e => exact UsersStep_refl _ _ _
    | none =>
      simp only [UserService.UpdateUserState, UserRepository.UpdateState]
      cases h1 : env.dbErr 1 with
      | some e => exact ⟨_, rfl, fun u => ⟨rfl, Or.inl rfl, Or.inl rfl⟩⟩
      | none =>
        exact ⟨_, updateWhere_updateWhere _ _ _ _ (fun _ => rfl),
          fun u => ⟨rfl, Or.inr rfl, Or.inl rfl⟩⟩

theorem handleLocation_step (env : Env) (w : World) (msg : Message) (user : User)
    (text : String) :
    UsersStep StateWaitGrade user w.users (Handler.handleLocation env w msg user text).users := by
  unfold Handler.handleLocation
  simp only
  split
  · exact UsersStep_refl _ _ _
  · split
    · exact UsersStep_refl _ _ _
    · simp only [UserService.UpdateLocation, UserRepository.UpdateLocation]
      cases h0 : env.dbErr 0 with
      | some e => exact UsersStep_refl _ _ _
      | none =>
        simp only [UserService.UpdateUserState, UserRepository.UpdateState]
        cases h1 : env.dbErr 1 with
        | some e => exact ⟨_, rfl, fun u => ⟨rfl, Or.inl rfl, Or.inl rfl⟩⟩
        | none =>
          exact ⟨_, updateWhere_updateWhere _ _ _ _ (fun _ => rfl),
            fun u => ⟨rfl, Or.inr rfl, Or.inl rfl⟩⟩

theorem handleGrade_step (env : Env) (w : World) (msg : Message) (user : User)
    (text : String) :
    UsersStep StateWaitPhone user w.users (Handler.handleGrade env w msg user text).users := by
  unfold Handler.handleGrade
  split
  · exact UsersStep_refl _ _ _
  · split
    · exact UsersStep_refl _ _ _
    · simp only [UserService.UpdateGrade, UserRepository.UpdateGrade]
      cases h0 : env.dbErr 0 with
      | some e => exact UsersStep_refl _ _ _
      | none =>
        simp only [UserService.UpdateUserState, UserRepository.UpdateState]
        cases h1 : env.dbErr 1 with
        | some e => exact ⟨_, rfl, fun u => ⟨rfl, Or.inl rfl, Or.inl rfl⟩⟩
        | none =>
          exact ⟨_, updateWhere_updateWhere _ _ _ _ (fun _ => rfl),
            fun u => ⟨rfl, Or.inr rfl, Or.inl rfl⟩⟩

theorem submitPhone_step (cfg : Config) (env : Env) (w : World) (msg : Message) (user : User)
    (phone : String) (hvalid : phoneRegex.MatchString phone = true) :
    UsersStep StateWaitOTP user w.users (Handler.submitPhone cfg env w msg user phone).users := by
  cases h0 : env.dbErr 0 with
  | some e =>
    rw [submitPhone_of_update_error cfg env w msg user phone e h0]
    exact UsersStep_refl _ _ _
  | none =>
    rcases submitPhone_users cfg env w msg user phone h0 with h | h
    · rw [h]
      exact ⟨_, rfl, fun u => ⟨rfl, Or.inl rfl, Or.inr (Or.inl hvalid)⟩⟩
    · rw [h]
      exact ⟨_, rfl, fun u => ⟨rfl, Or.inr rfl, Or.inr (Or.inl hvalid)⟩⟩

theorem handlePhone_step (cfg : Config) (env : Env) (w : World) (msg : Message) (user : User)
    (text : String) :
    UsersStep StateWaitOTP user w.users (Handler.handlePhone cfg env w msg user text).users := by
  unfold Handler.handlePhone
  simp only
  cases hv : phoneRegex.MatchString (phoneReplacer text) with
  | false => exact UsersStep_refl _ _ _
  | true => exact submitPhone_step cfg env w msg user _ hv

theorem handleContact_step (cfg : Config) (env : Env) (w : World) (msg : Message)
    (user : User) :
    UsersStep StateWaitOTP user w.users (Handler.handleContact cfg env w msg user).users := by
  unfold Handler.handleContact
  split
  · exact UsersStep_refl _ _ _
  · rename_i phoneNumber _
    simp only
    cases hv : phoneRegex.MatchString
        (if (!HasPrefix (phoneReplacer phoneNumber) "998" &&
          len (phoneReplacer phoneNumber) == 9) = true
        then "998" ++ phoneReplacer phoneNumber else phoneReplacer phoneNumber) with
    | false => exact UsersStep_refl _ _ _
    | true => exact submitPhone_step cfg env w msg user _ hv

theorem handleOTPInput_step (env : Env) (w : World) (message : Message) (user : User)
    (text : String)
    (hfind : w.users.rows.find? (fun u => u.TelegramID == user.TelegramID) = some user) :
    UsersStep StateRegistered user w.users
      (Handler.handleOTPInput env w message user text).users := by
  have hver : ∀ e3 e4 : Option String, ∀ now : Time,
      UsersStep StateRegistered user w.users
        (UserService.VerifyUser w.users e3 e4 now user.TelegramID).2 := by
    intro e3 e4 now
    unfold UserService.VerifyUser UserRepository.GetByTelegramID
    cases e3 with
    | some e => exact UsersStep_refl _ _ _
    | none =>
      simp only [hfind, UserRepository.Update]
      cases e4 with
      | some e => exact UsersStep_refl _ _ _
      | none => exact ⟨_, rfl, fun u => ⟨rfl, Or.inr rfl, Or.inr (Or.inr rfl)⟩⟩
  unfold Handler.handleOTPInput
  simp only
  split
  · exact UsersStep_refl _ _ _
  · split
    · exact UsersStep_refl _ _ _
    · split
      · exact UsersStep_refl _ _ _
      · split
        · exact hver _ _ _
        · exact hver _ _ _

/-- What a message without command does to the table of users: nothing, or the row of a
new sender is added, or the rows of the sender take one step from the state of the
record of the sender. -/
theorem handleMessage_users (cfg : Config) (env : Env) (w : World) (msg : Message) :
    (Handler.handleMessage cfg env w msg).users = w.users ∨
    (w.users.rows.find? (fun u => u.TelegramID == msg.FromID) = none ∧
      ∃ new : User,
        (Handler.handleMessage cfg env w msg).users =
          { rows := w.users.rows ++ [new], nextID := w.users.nextID + 1 } ∧
        new.TelegramID = msg.FromID ∧ new.Phone = "" ∧
        new.State = StateWaitFullName ∧ new.IsVerified = false) ∨
    (∃ (user : User) (target : String),
      w.users.rows.find? (fun u => u.TelegramID == user.TelegramID) = some user ∧
      ((user.State = StateWaitFullName ∧ target = StateWaitLocation) ∨
       (user.State = StateWaitLocation ∧ target = StateWaitGrade) ∨
       (user.State = StateWaitGrade ∧ target = StateWaitPhone) ∨
       (user.State = StateWaitPhone ∧ target = StateWaitOTP) ∨
       (user.State = StateWaitOTP ∧ target = StateRegistered)) ∧
      UsersStep target user w.users (Handler.handleMessage cfg env w msg).users) := by
  unfold Handler.handleMessage
  by_cases hadm : adminStateOf w.adminStates msg.FromID = AdminStateWaitChannel
  · simp only [hadm, if_true]
    exact Or.inl (handleAddChannel_frame env w msg).1
  · simp only [hadm, if_false, UserService.GetUser, UserRepository.GetByTelegramID]
    cases h0 : env.dbErr 0 with
    | some e =>
      simp only
      rcases handleStart_users (env.shift 1) w msg with h | h
      · exact Or.inl h
      · exact Or.inr (Or.inl h)
    | none =>
      cases hf : w.users.rows.find? (fun u => u.TelegramID == msg.FromID) with
      | none =>
        simp only
        rcases handleStart_users (env.shift 1) w msg with h | h
        · exact Or.inl h
        · exact Or.inr (Or.inl ⟨trivial, h.2⟩)
      | some user =>
        have htid : user.TelegramID = msg.FromID := find_telegramID _ _ _ hf
        have hfind : w.users.rows.find? (fun u => u.TelegramID == user.TelegramID) =
            some user := by rw [htid]; exact hf
        simp only
        by_cases hc : msg.Contact.isSome = true ∧ user.State = StateWaitPhone
        · simp only [hc, and_self, if_true]
          exact Or.inr (Or.inr ⟨user, StateWaitOTP, hfind, by simp [hc.2],
            handleContact_step cfg _ w msg user⟩)
        · rw [if_neg hc]
          by_cases ht : TrimSpace msg.Text = ""
          · rw [if_pos ht]
            exact Or.inl rfl
          · rw [if_neg ht]
            by_cases h1 : user.State = StateWaitFullName
            · rw [if_pos h1]
              exact Or.inr (Or.inr ⟨user, StateWaitLocation, hfind, by simp [h1],
                handleFullName_step _ w msg user _⟩)
            · rw [if_neg h1]
              by_cases h2 : user.State = StateWaitLocation
              · rw [if_pos h2]
                exact Or.inr (Or.inr ⟨user, StateWaitGrade, hfind, by simp [h2],
                  handleLocation_step _ w msg user _⟩)
              · rw [if_neg h2]
                by_cases h3 : user.State = StateWaitGrade
                · rw [if_pos h3]
                  exact Or.inr (Or.inr ⟨user, StateWaitPhone, hfind, by simp [h3],
                    handleGrade_step _ w msg user _⟩)
                · rw [if_neg h3]
                  by_cases h4 : user.State = StateWaitPhone
                  · rw [if_pos h4]
                    exact Or.inr (Or.inr ⟨user, StateWaitOTP, hfind, by simp [h4],
                      handlePhone_step cfg _ w msg user _⟩)
                  · rw [if_neg h4]
                    by_cases h5 : user.State = StateWaitOTP
                    · rw [if_pos h5]
                      exact Or.inr (Or.inr ⟨user, StateRegistered, hfind, by simp [h5],
                        handleOTPInput_step _ w msg user _ hfind⟩)
                    · rw [if_neg h5]
                      left
                      split <;> rfl

/-- What a command does to the table of users: nothing, or it adds the row of a new
sender. -/
theorem handleCommand_users (cfg : Config) (env : Env) (w : World) (msg : Message)
    (command : String) :
    (Handler.handleCommand cfg env w msg command).users = w.users ∨
    (w.users.rows.find? (fun u => u.TelegramID == msg.FromID) = none ∧
      ∃ new : User,
        (Handler.handleCommand cfg env w msg command).users =
          { rows := w.users.rows ++ [new], nextID := w.users.nextID + 1 } ∧
        new.TelegramID = msg.FromID ∧ new.Phone = "" ∧
        new.State = StateWaitFullName ∧ new.IsVerified = false) := by
  unfold Handler.handleCommand
  split
  · exact handleStart_users env w msg
  · split
    · exact Or.inl (resendOTP_users cfg env w _ _)
    · split
      · exact Or.inl (handleProfile_users env w msg)
      · split
        · exact Or.inl (handleAdmin_users env w msg)
        · exact Or.inl rfl

/-- What a callback query does to the table of users: nothing, or it adds the row of a
new sender. -/
theorem handleCallback_users (cfg : Config) (env : Env) (w : World) (callback : CallbackQuery) :
    (Handler.handleCallback cfg env w callback).users = w.users ∨
    (w.users.rows.find? (fun u => u.TelegramID == callback.FromID) = none ∧
      ∃ new : User,
        (Handler.handleCallback cfg env w callback).users =
          { rows := w.users.rows ++ [new], nextID := w.users.nextID + 1 } ∧
        new.TelegramID = callback.FromID ∧ new.Phone = "" ∧
        new.State = StateWaitFullName ∧ new.IsVerified = false) := by
  unfold Handler.handleCallback
  simp only
  split
  · generalize hl : (match UserService.GetUser w.users (env.dbErr 0) callback.FromID with
      | Except.ok (some user) => user.LanguageCode
      | _ => "uz") = lang
    rcases checkSubscription_cases (env.shift 1)
      { w with answered := w.answered ++ [callback.ID] } callback.FromID callback.ChatID lang
      with hc | ⟨m, hc⟩
    · simp only [hc, Handler.handleStartFromCallback]
      exact handleStart_users _ _ _
    · simp only [hc]
      exact Or.inl trivial
  · split
    · exact Or.inl (resendOTP_users cfg env _ _ _)
    · split
      · exact Or.inl (sendAdminPanel_frame _ _ _).1
      · split
        · exact Or.inl rfl
        · split
          · exact Or.inl (sendChannelList_users _ _ _)
          · split
            · exact Or.inl (exportToExcel_users _ _ _)
            · split
              · exact Or.inl (sendAdminPanel_frame _ _ _).1
              · split
                · exact Or.inl (sendAdminPanel_frame _ _ _).1
                · exact Or.inl rfl

/-- What one update does to the table of users: nothing, or the row of a new sender is
added, or the rows of the sender take one step from the state of the record of the
sender. -/
theorem HandleUpdate_users (cfg : Config) (env : Env) (w : World) (update : Update) :
    (Handler.HandleUpdate cfg env w update).users = w.users ∨
    (∃ (tid : Int) (new : User),
      w.users.rows.find? (fun u => u.TelegramID == tid) = none ∧
      (Handler.HandleUpdate cfg env w update).users =
        { rows := w.users.rows ++ [new], nextID := w.users.nextID + 1 } ∧
      new.TelegramID = tid ∧ new.Phone = "" ∧
      new.State = StateWaitFullName ∧ new.IsVerified = false) ∨
    (∃ (user : User) (target : String),
      w.users.rows.find? (fun u => u.TelegramID == user.TelegramID) = some user ∧
      ((user.State = StateWaitFullName ∧ target = StateWaitLocation) ∨
       (user.State = StateWaitLocation ∧ target = StateWaitGrade) ∨
       (user.State = StateWaitGrade ∧ target = StateWaitPhone) ∨
       (user.State = StateWaitPhone ∧ target = StateWaitOTP) ∨
       (user.State = StateWaitOTP ∧ target = StateRegistered)) ∧
      UsersStep target user w.users (Handler.HandleUpdate cfg env w update).users) := by
  cases update with
  | message msg =>
    simp only [Handler.HandleUpdate]
    cases hcmd : msg.Command with
    | some command =>
      simp only
      rcases handleCommand_users cfg env w msg command with h | ⟨hn, new, h⟩
      · exact Or.inl h
      · exact Or.inr (Or.inl ⟨msg.FromID, new, hn, h⟩)
    | none =>
      simp only
      rcases handleMessage_users cfg env w msg with h | ⟨hn, new, h⟩ | h
      · exact Or.inl h
      · exact Or.inr (Or.inl ⟨msg.FromID, new, hn, h⟩)
      · exact Or.inr (Or.inr h)
  | callback query =>
    simp only [Handler.HandleUpdate]
    rcases handleCallback_users cfg env w query with h | ⟨hn, new, h⟩
    · exact Or.inl h
    · exact Or.inr (Or.inl ⟨query.FromID, new, hn, h⟩)
  | other => exact Or.inl rfl

/-- A step keeps every record in place, with the state it had or, for the rows of the
user of the step, with the target state. -/
theorem UsersStep_find (target : String) (user : User) (db db1 : UserTable)
    (h : UsersStep target user db db1) (tid : Int) (u0 : User)
    (h0 : db.rows.find? (fun u => u.TelegramID == tid) = some u0) :
    ∃ u1, db1.rows.find? (fun u => u.TelegramID == tid) = some u1 ∧
      (u1.State = u0.State ∨ (tid = user.TelegramID ∧ u1.State = target)) := by
  obtain ⟨f, hdb, hf⟩ := h
  have := find_updateWhere db user.TelegramID tid f (fun u => (hf u).1)
  rw [h0] at this
  rw [hdb, this]
  by_cases ht : tid = user.TelegramID
  · rw [if_pos ht]
    refine ⟨f u0, rfl, ?_⟩
    rcases (hf u0).2.1 with h | h
    · exact Or.inl h
    · exact Or.inr ⟨ht, h⟩
  · rw [if_neg ht]
    exact ⟨u0, rfl, Or.inl rfl⟩

/-- A step from a table whose phones are empty or match `phoneRegex` leads to such a
table. -/
theorem UsersStep_phones (target : String) (user : User) (db db1 : UserTable)
    (h : UsersStep target user db db1)
    (huser : db.rows.find? (fun u => u.TelegramID == user.TelegramID) = some user)
    (hgood : ∀ r ∈ db.rows, r.Phone = "" ∨ phoneRegex.MatchString r.Phone = true) :
    ∀ r ∈ db1.rows, r.Phone = "" ∨ phoneRegex.MatchString r.Phone = true := by
  obtain ⟨f, hdb, hf⟩ := h
  have hmem : user ∈ db.rows := List.mem_of_find?_eq_some huser
  intro r hr
  rw [hdb] at hr
  simp only [UserTable.updateWhere, List.mem_map] at hr
  obtain ⟨u, hu, rfl⟩ := hr
  by_cases ht : u.TelegramID = user.TelegramID
  · rw [if_pos ht]
    rcases (hf u).2.2 with h | h | h
    · rw [h]; exact hgood u hu
    · exact Or.inr h
    · rw [h]; exact hgood user hmem
  · rw [if_neg ht]
    exact hgood u hu

/-- One update keeps the phones of the table empty or matching `phoneRegex`. -/
theorem HandleUpdate_phones (cfg : Config) (env : Env) (w : World) (update : Update)
    (hgood : ∀ r ∈ w.users.rows, r.Phone = "" ∨ phoneRegex.MatchString r.Phone = true) :
    ∀ r ∈ (Handler.HandleUpdate cfg env w update).users.rows,
      r.Phone = "" ∨ phoneRegex.MatchString r.Phone = true := by
  rcases HandleUpdate_users cfg env w update with h | ⟨tid, new, _, h, _, hp, _⟩ |
    ⟨user, target, huser, _, h⟩
  · rw [h]; exact hgood
  · rw [h]
    intro r hr
    simp only [List.mem_append, List.mem_singleton] at hr
    rcases hr with hr | rfl
    · exact hgood r hr
    · exact Or.inl hp
  · exact UsersStep_phones target user _ _ h huser hgood

theorem runUpdates_phones (cfg : Config) (events : List (Env × Update)) :
    ∀ w : World,
      (∀ r ∈ w.users.rows, r.Phone = "" ∨ phoneRegex.MatchString r.Phone = true) →
      ∀ r ∈ (runUpdates cfg events w).users.rows,
        r.Phone = "" ∨ phoneRegex.MatchString r.Phone = true := by
  induction events with
  | nil => intro w h; exact h
  | cons ev rest ih =>
    intro w h
    obtain ⟨env, update⟩ := ev
    exact ih _ (HandleUpdate_phones cfg env w update h)

/-- An issuance adds at most a row of the phone it is called with, and sends to no other
phone. -/
theorem GenerateAndSendOTP_writes (cfg : Config) (env : IssueEnv) (db : OTPTable)
    (userID : Int) (phone : String) :
    (∀ o ∈ (OTPService.GenerateAndSendOTP cfg env db userID phone).db.rows,
      o ∈ db.rows ∨ o.Phone = phone) ∧
    (∀ s ∈ (OTPService.GenerateAndSendOTP cfg env db userID phone).sms, s.1 = phone) := by
  unfold OTPService.GenerateAndSendOTP
  split
  · exact ⟨fun o ho => Or.inl ho, fun s hs => by simp at hs⟩
  · exact ⟨fun o ho => Or.inl ho, fun s hs => by simp at hs⟩
  · simp only
    split
    · exact ⟨fun o ho => Or.inl ho, fun s hs => by simp at hs; rw [hs]⟩
    · simp only [OTPRepository.Create]
      cases env.dbErr with
      | some e => exact ⟨fun o ho => Or.inl ho, fun s hs => by simp at hs; rw [hs]⟩
      | none =>
        refine ⟨fun o ho => ?_, fun s hs => by simp at hs; rw [hs]⟩
        simp only [List.mem_append, List.mem_singleton] at ho
        rcases ho with ho | rfl
        · exact Or.inl ho
        · exact Or.inr rfl

/-- The tail of the two phone handlers writes no phone but the one it is called with. -/
theorem submitPhone_writes (cfg : Config) (env : Env) (w : World) (msg : Message) (user : User)
    (phone : String) :
    (∀ r ∈ (Handler.submitPhone cfg env w msg user phone).users.rows,
      r ∈ w.users.rows ∨ r.Phone = phone) ∧
    (∀ o ∈ (Handler.submitPhone cfg env w msg user phone).otps.rows,
      o ∈ w.otps.rows ∨ o.Phone = phone) ∧
    (∀ s ∈ (Handler.submitPhone cfg env w msg user phone).sms,
      s ∈ w.sms ∨ s.1 = phone) := by
  have hrows : ∀ f : User → User, (∀ u, (f u).Phone = phone) →
      ∀ r ∈ (w.users.updateWhere user.TelegramID f).rows, r ∈ w.users.rows ∨ r.Phone = phone := by
    intro f hf r hr
    simp only [UserTable.updateWhere, List.mem_map] at hr
    obtain ⟨u, hu, rfl⟩ := hr
    by_cases ht : u.TelegramID = user.TelegramID
    · rw [if_pos ht]; exact Or.inr (hf u)
    · rw [if_neg ht]; exact Or.inl hu
  refine ⟨?_, ?_⟩
  · cases h0 : env.dbErr 0 with
    | some e =>
      rw [submitPhone_of_update_error cfg env w msg user phone e h0]
      exact fun r hr => Or.inl hr
    | none =>
      rcases submitPhone_users cfg env w msg user phone h0 with h | h
      · rw [h]; exact hrows _ (fun _ => rfl)
      · rw [h]; exact hrows _ (fun _ => rfl)
  · unfold Handler.submitPhone
    split
    · exact ⟨fun o ho => Or.inl ho, fun s hs => Or.inl hs⟩
    · simp only
      split
      · rename_i updatedUser _
        have hw := GenerateAndSendOTP_writes cfg (env.issue 2) w.otps updatedUser.ID phone
        have hsms : ∀ s ∈ w.sms ++
            (OTPService.GenerateAndSendOTP cfg (env.issue 2) w.otps updatedUser.ID phone).sms,
            s ∈ w.sms ∨ s.1 = phone := by
          intro s hs
          rcases List.mem_append.mp hs with hs | hs
          · exact Or.inl hs
          · exact Or.inr (hw.2 s hs)
        split
        · exact ⟨hw.1, hsms⟩
        · exact ⟨hw.1, hsms⟩
        · split
          · exact ⟨hw.1, hsms⟩
          · exact ⟨hw.1, hsms⟩
      · exact ⟨fun o ho => Or.inl ho, fun s hs => Or.inl hs⟩

/-! ## Lemmas: the subscription gate -/

/-- The counts of `GetStats` do not depend on the state or the profile of a user. -/
theorem GetStats_map (users : UserTable) (channels : ChannelTable)
    (dbErr : Nat → Option String) (today : Time) (g : User → User)
    (hg : ∀ u, (g u).IsVerified = u.IsVerified ∧ (g u).CreatedAt = u.CreatedAt) :
    UserService.GetStats { users with rows := users.rows.map g } channels dbErr today =
      UserService.GetStats users channels dbErr today := by
  have h1 : ((users.rows.map g).filter (fun u => u.IsVerified)).length =
      (users.rows.filter (fun u => u.IsVerified)).length := by
    rw [List.filter_map, List.length_map]
    congr 1
    apply List.filter_congr
    intro u _
    simp [(hg u).1]
  have h2 : ((users.rows.map g).filter (fun u => decide (today ≤ u.CreatedAt))).length =
      (users.rows.filter (fun u => decide (today ≤ u.CreatedAt))).length := by
    rw [List.filter_map, List.length_map]
    congr 1
    apply List.filter_congr
    intro u _
    simp [(hg u).2]
  unfold UserService.GetStats UserRepository.GetStats
  simp only [h1, h2, List.length_map]

theorem sendAdminPanel_map (env : Env) (w : World) (chatID : Int) (g : User → User)
    (hg : ∀ u, (g u).IsVerified = u.IsVerified ∧ (g u).CreatedAt = u.CreatedAt) :
    Handler.sendAdminPanel env { w with users := { w.users with rows := w.users.rows.map g } }
        chatID =
      { Handler.sendAdminPanel env w chatID with
        users := { w.users with rows := w.users.rows.map g } } := by
  unfold Handler.sendAdminPanel
  simp only [GetStats_map w.users w.channels env.dbErr env.today g hg]
  split <;> rfl

theorem lookup_filter_ne (states : List (Int × String)) (id other : Int) (h : other ≠ id) :
    (states.filter (fun p => p.1 != id)).lookup other = states.lookup other := by
  induction states with
  | nil => rfl
  | cons p rest ih =>
    obtain ⟨k, v⟩ := p
    by_cases hk : k = id
    · subst hk
      have hne : (other == k) = false := by simpa using h
      simp [List.filter_cons, List.lookup_cons, hne, ih]
    · have hk1 : (k != id) = true := by simpa using hk
      simp only [List.filter_cons, hk1, if_true, List.lookup_cons, ih]

theorem lookup_filter_self (states : List (Int × String)) (id : Int) :
    (states.filter (fun p => p.1 != id)).lookup id = none := by
  induction states with
  | nil => rfl
  | cons p rest ih =>
    obtain ⟨k, v⟩ := p
    by_cases hk : k = id
    · subst hk
      simp [List.filter_cons, ih]
    · have hk1 : (k != id) = true := by simpa using hk
      have hne : (id == k) = false := by simpa using fun e : id = k => hk e.symm
      simp only [List.filter_cons, hk1, if_true, List.lookup_cons, hne, ih]

/-- The tags after `handleAddChannel`: those before without the one of the sender. -/
theorem handleAddChannel_adminStates (env : Env) (w : World) (msg : Message) :
    (Handler.handleAddChannel env w msg).adminStates =
      w.adminStates.filter (fun p => p.1 != msg.FromID) := by
  unfold Handler.handleAddChannel Handler.sendAdminPanel
  simp only
  split
  · rfl
  · split <;> rfl

/-- An `UPDATE` that leaves the state column alone leaves the states of the table as
they are. -/
theorem updateWhere_states (db : UserTable) (tid : Int) (f : User → User)
    (hf : ∀ u, (f u).State = u.State) :
    (db.updateWhere tid f).rows.map (fun u => u.State) = db.rows.map (fun u => u.State) := by
  unfold UserTable.updateWhere
  simp only [List.map_map]
  apply List.map_congr_left
  intro u _
  by_cases h : u.TelegramID = tid
  · simp [h, hf]
  · simp [h]

/-! ## Lemmas: what one update does to the verified flag -/

/-- A code that the loop of `generateOTPCode` returns is the bytes it started with and
then one digit for each iteration. -/
theorem generateOTPCodeLoop_digits (rand : Nat → Except String (Fin 10)) :
    ∀ (todo i : Nat) (acc : List Char) (code : String),
      generateOTPCodeLoop rand todo i acc = Result.ok code →
      ∃ suffix : List Char, code.data = acc ++ suffix ∧ suffix.length = todo ∧
        ∀ c ∈ suffix, isSpace c = false := by
  intro todo
  induction todo with
  | zero =>
    intro i acc code h
    simp only [generateOTPCodeLoop, Result.ok.injEq] at h
    exact ⟨[], by simp [← h], rfl, by simp⟩
  | succ k ih =>
    intro i acc code h
    simp only [generateOTPCodeLoop] at h
    cases hr : rand i with
    | error e => simp [hr] at h
    | ok n =>
      simp only [hr] at h
      obtain ⟨suffix, hdata, hlen, hsp⟩ := ih (i + 1) (acc ++ [digitAt n]) code h
      refine ⟨digitAt n :: suffix, by simp [hdata], by simp [hlen], ?_⟩
      intro c hc
      simp only [List.mem_cons] at hc
      rcases hc with rfl | hc
      · have hd : ∀ m : Fin 10, isSpace (digitAt m) = false := by decide
        exact hd n
      · exact hsp c hc

theorem trimChars_of_no_space (l : List Char) (h : ∀ c ∈ l, isSpace c = false) :
    trimChars l = l := by
  have hdrop : ∀ m : List Char, (∀ c ∈ m, isSpace c = false) → m.dropWhile isSpace = m := by
    intro m hm
    cases m with
    | nil => rfl
    | cons a rest => simp [List.dropWhile_cons, hm a (List.mem_cons_self _ _)]
  unfold trimChars
  rw [hdrop l h, hdrop l.reverse (fun c hc => h c (List.mem_reverse.mp hc)), List.reverse_reverse]

/-- A code of positive length that `generateOTPCode` returns is not empty and has no
space to trim. -/
theorem generateOTPCode_trim (length : Int) (rand : Nat → Except String (Fin 10))
    (code : String) (hlen : 0 < length) (hgen : generateOTPCode length rand = Result.ok code) :
    TrimSpace code = code ∧ code ≠ "" := by
  unfold generateOTPCode at hgen
  have hnot : ¬ length < 0 := by omega
  simp only [hnot, if_false] at hgen
  obtain ⟨suffix, hdata, hl, hsp⟩ := generateOTPCodeLoop_digits rand _ 0 [] code hgen
  simp only [List.nil_append] at hdata
  constructor
  · unfold TrimSpace
    rw [hdata, trimChars_of_no_space suffix hsp, ← hdata]
  · intro he
    rw [he] at hdata
    have : suffix.length = 0 := by rw [← hdata]; rfl
    omega

/-- An issuance in which the code is generated, the gateway answers 200 and the
`INSERT` succeeds returns no error and adds the row of the code. -/
theorem GenerateAndSendOTP_success (cfg : Config) (env : IssueEnv) (db : OTPTable)
    (userID : Int) (phone code queryState : String)
    (hgen : generateOTPCode cfg.OTPLength env.rand = Result.ok code)
    (hhttp : env.http = HTTPOutcome.response 200 queryState) (hdb : env.dbErr = none) :
    OTPService.GenerateAndSendOTP cfg env db userID phone =
      { result := Result.ok (),
        db := { rows := db.rows ++
                  [{ ID := db.nextID, UserID := userID, Phone := phone, Code := code,
                     MessageID := Sprintf "OTP_%d" [Arg.int env.smsClock], IsUsed := false,
                     ExpiresAt := env.clock + expiryWindow cfg, CreatedAt := env.dbClock }],
                nextID := db.nextID + 1 },
        sms := [(phone, Sprintf "Sizning tasdiqlash kodingiz: %s\nKod %d daqiqa ichida amal qiladi."
          [Arg.str code, Arg.int cfg.OTPExpiresMins])] } := by
  unfold OTPService.GenerateAndSendOTP
  simp [hgen, SMSService.SendSMS, hhttp, OTPRepository.Create, hdb]

/-- The first `/start` of a sender without record, when no channel is active and the
store works. -/
theorem HandleUpdate_first_start (cfg : Config) (e1 : Env) (w0 : World) (start : Message)
    (lang : String)
    (hstart : start.Command = some "start")
    (hlang : (if start.FromLanguageCode = "uz" ∨ start.FromLanguageCode = "ru" ∨
      start.FromLanguageCode = "en" then start.FromLanguageCode else "uz") = lang)
    (hnew : w0.users.rows = [])
    (hchannels : w0.channels.rows.filter (fun c => c.IsActive) = [])
    (h1 : ∀ k, e1.dbErr k = none) :
    Handler.HandleUpdate cfg e1 w0 (Update.message start) =
      { w0 with
        users :=
          { rows := [{ ID := w0.users.nextID, TelegramID := start.FromID,
                       Username := start.FromUserName, LanguageCode := lang,
                       FirstName := "", LastName := "", Region := "", District := "",
                       School := "", Grade := 0, Phone := "", IsVerified := false,
                       State := StateWaitFullName, CreatedAt := e1.clock 2,
                       UpdatedAt := e1.clock 2 }],
            nextID := w0.users.nextID + 1 },
        sent := w0.sent ++ [{ NewMessage start.ChatID
          ((i18n.Get lang).Welcome ++ "\n\n" ++ (i18n.Get lang).AskFullName) with
          ParseMode := ModeHTML }] } := by
  have hgate : ∀ l, Handler.checkSubscription e1 w0 start.FromID start.ChatID l =
      (true, w0) := by
    intro l
    unfold Handler.checkSubscription
    simp [ChannelRepository.GetActive, h1, hchannels]
  have hl : (if (if start.FromLanguageCode = "" then "uz" else start.FromLanguageCode) = "" ∨
      ((if start.FromLanguageCode = "" then "uz" else start.FromLanguageCode) ≠ "uz" ∧
       (if start.FromLanguageCode = "" then "uz" else start.FromLanguageCode) ≠ "ru" ∧
       (if start.FromLanguageCode = "" then "uz" else start.FromLanguageCode) ≠ "en")
      then "uz" else (if start.FromLanguageCode = "" then "uz" else start.FromLanguageCode)) =
      lang := by
    rw [← hlang]
    by_cases a : start.FromLanguageCode = "uz"
    · rw [a]; decide
    · by_cases b : start.FromLanguageCode = "ru"
      · rw [b]; decide
      · by_cases c : start.FromLanguageCode = "en"
        · rw [c]; decide
        · by_cases d : start.FromLanguageCode = ""
          · rw [d]; decide
          · simp [a, b, c, d]
  simp only [Handler.HandleUpdate, hstart, Handler.handleCommand, if_true, Handler.handleStart,
    hgate, UserService.GetOrCreateUser, UserRepository.GetByTelegramID, h1, hnew,
    List.find?_nil, UserRepository.Create, hl, List.nil_append,
    Handler.sendMessageHTML]
  simp [StateWaitFullName, StateRegistered]

/-- Where `handleMessage` sends a text of a sender who has no tag and whose record is
read. -/
theorem handleMessage_of_record (cfg : Config) (env : Env) (w : World) (msg : Message)
    (user : User)
    (htag : adminStateOf w.adminStates msg.FromID ≠ AdminStateWaitChannel)
    (h0 : env.dbErr 0 = none)
    (hfind : w.users.rows.find? (fun u => u.TelegramID == msg.FromID) = some user)
    (hcontact : msg.Contact = none) (htext : TrimSpace msg.Text ≠ "") :
    Handler.handleMessage cfg env w msg =
      if user.State = StateWaitFullName then
        Handler.handleFullName (env.shift 1) w msg user (TrimSpace msg.Text)
      else if user.State = StateWaitLocation then
        Handler.handleLocation (env.shift 1) w msg user (TrimSpace msg.Text)
      else if user.State = StateWaitGrade then
        Handler.handleGrade (env.shift 1) w msg user (TrimSpace msg.Text)
      else if user.State = StateWaitPhone then
        Handler.handlePhone cfg (env.shift 1) w msg user (TrimSpace msg.Text)
      else if user.State = StateWaitOTP then
        Handler.handleOTPInput (env.shift 1) w msg user (TrimSpace msg.Text)
      else if user.State = StateRegistered then
        Handler.sendMainMenu w msg.ChatID user.LanguageCode
      else w := by
  unfold Handler.handleMessage
  simp only [htag, if_false, UserService.GetUser, UserRepository.GetByTelegramID, h0, hfind,
    hcontact, Option.isSome_none, Bool.false_eq_true, false_and, htext]

/-- The step of the full name for the text `Anvar Karimov`, when the record of the sender
is the only row and the store works. -/
theorem HandleUpdate_full_name (cfg : Config) (env : Env) (w : World) (r : User)
    (hrows : w.users.rows = [r]) (hid : r.TelegramID = 42)
    (hstate : r.State = StateWaitFullName)
    (htag : adminStateOf w.adminStates 42 ≠ AdminStateWaitChannel)
    (hdb : ∀ k, env.dbErr k = none) :
    Handler.HandleUpdate cfg env w (textUpdate "Anvar Karimov") =
      { w with
        users := { w.users with rows :=
          [{ r with FirstName := "Anvar", LastName := "Karimov", State := StateWaitLocation,
                    UpdatedAt := env.clock 2 }] },
        sent := w.sent ++ [{ NewMessage 42 (i18n.Get r.LanguageCode).AskLocation with
          ParseMode := ModeHTML }] } := by
  have hfind : w.users.rows.find? (fun u => u.TelegramID == (42 : Int)) = some r := by
    rw [hrows]; simp [hid]
  have ht : TrimSpace "Anvar Karimov" = "Anvar Karimov" := by decide
  have hF : Fields "Anvar Karimov" = ["Anvar", "Karimov"] := by decide
  have hm := handleMessage_of_record cfg env w { exampleMessage with Text := "Anvar Karimov" } r
    htag (hdb 0) hfind rfl (by rw [ht]; decide)
  simp only [Handler.HandleUpdate, textUpdate, hm, hstate, if_true, ht]
  unfold Handler.handleFullName
  simp [hF, UserService.UpdateFullName, UserRepository.UpdateFullName, Env.shift, hdb,
    UserService.UpdateUserState, UserRepository.UpdateState, UserTable.updateWhere, hrows, hid,
    Handler.sendMessageHTML, Join, exampleMessage]

/-- The step of the location for the text `Tashkent, Yunusabad, School 56`, when the
record of the sender is the only row and the store works. -/
theorem HandleUpdate_location (cfg : Config) (env : Env) (w : World) (r : User)
    (hrows : w.users.rows = [r]) (hid : r.TelegramID = 42)
    (hstate : r.State = StateWaitLocation)
    (htag : adminStateOf w.adminStates 42 ≠ AdminStateWaitChannel)
    (hdb : ∀ k, env.dbErr k = none) :
    Handler.HandleUpdate cfg env w (textUpdate "Tashkent, Yunusabad, School 56") =
      { w with
        users := { w.users with rows :=
          [{ r with Region := "Tashkent", District := "Yunusabad", School := "School 56",
                    State := StateWaitGrade, UpdatedAt := env.clock 2 }] },
        sent := w.sent ++ [{ NewMessage 42 (i18n.Get r.LanguageCode).AskGrade with
          ParseMode := ModeHTML }] } := by
  have hfind : w.users.rows.find? (fun u => u.TelegramID == (42 : Int)) = some r := by
    rw [hrows]; simp [hid]
  have ht : TrimSpace "Tashkent, Yunusabad, School 56" = "Tashkent, Yunusabad, School 56" := by
    decide
  have hS : Split "Tashkent, Yunusabad, School 56" ',' =
      ["Tashkent", " Yunusabad", " School 56"] := by decide
  have t0 : TrimSpace "Tashkent" = "Tashkent" := by decide
  have t1 : TrimSpace " Yunusabad" = "Yunusabad" := by decide
  have t2 : TrimSpace (Join [" School 56"] ",") = "School 56" := by decide
  have hm := handleMessage_of_record cfg env w
    { exampleMessage with Text := "Tashkent, Yunusabad, School 56" } r
    htag (hdb 0) hfind rfl (by rw [ht]; decide)
  have hne1 : ¬ StateWaitLocation = StateWaitFullName := by decide
  simp only [Handler.HandleUpdate, textUpdate, hm, hstate, hne1, if_false, if_true, ht]
  rw [handleLocation_of_split _ _ _ _ _ _ _ _ [] hS]
  simp [t0, t1, t2, UserService.UpdateLocation, UserRepository.UpdateLocation, Env.shift, hdb,
    UserService.UpdateUserState, UserRepository.UpdateState, UserTable.updateWhere, hrows, hid,
    Handler.sendMessageHTML, exampleMessage]

/-- The step of the grade for the text `9`, when the record of the sender is the only row
and the store works. -/
theorem HandleUpdate_grade (cfg : Config) (env : Env) (w : World) (r : User)
    (hrows : w.users.rows = [r]) (hid : r.TelegramID = 42)
    (hstate : r.State = StateWaitGrade)
    (htag : adminStateOf w.adminStates 42 ≠ AdminStateWaitChannel)
    (hdb : ∀ k, env.dbErr k = none) :
    Handler.HandleUpdate cfg env w (textUpdate "9") =
      { w with
        users := { w.users with rows :=
          [{ r with Grade := 9, State := StateWaitPhone, UpdatedAt := env.clock 2 }] },
        sent := w.sent ++ [{ NewMessage 42 (i18n.Get r.LanguageCode).AskPhone with
          ParseMode := ModeHTML,
          ReplyMarkup := ReplyMarkup.replyKeyboard
            [[{ Text := "📱 Telefon raqamni ulashish", RequestContact := true }]] true true }] } := by
  have hfind : w.users.rows.find? (fun u => u.TelegramID == (42 : Int)) = some r := by
    rw [hrows]; simp [hid]
  have ht : TrimSpace "9" = "9" := by decide
  have hA : Atoi "9" = Except.ok 9 := rfl
  have hm := handleMessage_of_record cfg env w { exampleMessage with Text := "9" } r
    htag (hdb 0) hfind rfl (by rw [ht]; decide)
  have hne1 : ¬ StateWaitGrade = StateWaitFullName := by decide
  have hne2 : ¬ StateWaitGrade = StateWaitLocation := by decide
  simp only [Handler.HandleUpdate, textUpdate, hm, hstate, hne1, hne2, if_false, if_true, ht]
  unfold Handler.handleGrade
  simp [hA, UserService.UpdateGrade, UserRepository.UpdateGrade, Env.shift, hdb,
    UserService.UpdateUserState, UserRepository.UpdateState, UserTable.updateWhere, hrows, hid,
    Handler.sendPhoneRequest, exampleMessage]

/-- The step of the phone for the text `998901234567`, when the record of the sender is
the only row, the store works, the code is generated and the gateway answers 200. -/
theorem HandleUpdate_phone (cfg : Config) (env : Env) (w : World) (r : User)
    (code queryState : String)
    (hrows : w.users.rows = [r]) (hid : r.TelegramID = 42)
    (hstate : r.State = StateWaitPhone)
    (htag : adminStateOf w.adminStates 42 ≠ AdminStateWaitChannel)
    (hdb : ∀ k, env.dbErr k = none)
    (hgen : generateOTPCode cfg.OTPLength env.rand = Result.ok code)
    (hhttp : env.http = HTTPOutcome.response 200 queryState) :
    Handler.HandleUpdate cfg env w (textUpdate "998901234567") =
      { w with
        users := { w.users with rows :=
          [{ r with Phone := "998901234567", State := StateWaitOTP, UpdatedAt := env.clock 4 }] },
        otps :=
          { rows := w.otps.rows ++
              [{ ID := w.otps.nextID, UserID := r.ID, Phone := "998901234567", Code := code,
                 MessageID := Sprintf "OTP_%d" [Arg.int env.smsClock], IsUsed := false,
                 ExpiresAt := env.otpClock + expiryWindow cfg, CreatedAt := env.clock 3 }],
            nextID := w.otps.nextID + 1 },
        sms := w.sms ++
          [("998901234567",
            Sprintf "Sizning tasdiqlash kodingiz: %s\nKod %d daqiqa ichida amal qiladi."
              [Arg.str code, Arg.int cfg.OTPExpiresMins])],
        sent := w.sent ++
          [{ NewMessage 42 "✅" with ReplyMarkup := ReplyMarkup.removeKeyboard true },
           { NewMessage 42
              (Sprintf (i18n.Get r.LanguageCode).OTPSent [Arg.str "998901****67"] ++ "\n\n" ++
                (i18n.Get r.LanguageCode).AskOTP) with
              ParseMode := ModeHTML,
              ReplyMarkup := ReplyMarkup.inlineKeyboard
                [[Button.data (i18n.Get r.LanguageCode).ResendOTP CallbackResendOTP]] }] } := by
  have hfind : w.users.rows.find? (fun u => u.TelegramID == (42 : Int)) = some r := by
    rw [hrows]; simp [hid]
  have ht : TrimSpace "998901234567" = "998901234567" := by decide
  have hp : phoneReplacer "998901234567" = "998901234567" := by decide
  have hv : phoneRegex.MatchString "998901234567" = true := by decide
  have hmask : maskPhone "998901234567" = some "998901****67" := by decide
  have hm := handleMessage_of_record cfg env w { exampleMessage with Text := "998901234567" } r
    htag (hdb 0) hfind rfl (by rw [ht]; decide)
  have hne1 : ¬ StateWaitPhone = StateWaitFullName := by decide
  have hne2 : ¬ StateWaitPhone = StateWaitLocation := by decide
  have hne3 : ¬ StateWaitPhone = StateWaitGrade := by decide
  have hissue := GenerateAndSendOTP_success cfg
    { rand := env.rand, smsClock := env.smsClock, http := env.http, clock := env.otpClock,
      dbErr := none, dbClock := env.clock 3 }
    w.otps r.ID "998901234567" code queryState hgen hhttp rfl
  simp only [Handler.HandleUpdate, textUpdate, hm, hstate, hne1, hne2, hne3, if_false, if_true,
    ht]
  unfold Handler.handlePhone Handler.submitPhone
  simp [hp, hv, hmask, hissue, UserService.UpdatePhone, UserRepository.UpdatePhone, Env.shift,
    Env.issue, hdb, UserService.GetUser, UserRepository.GetByTelegramID,
    UserService.UpdateUserState, UserRepository.UpdateState, UserTable.updateWhere, hrows, hid,
    Handler.sendOTPMessage, exampleMessage]

/-- The step of the code, when the record of the sender is the only row, the store works
and the text is a code of the phone of the record that is unused and not expired. -/
theorem HandleUpdate_code (cfg : Config) (env : Env) (w : World) (r : User) (code : String)
    (hrows : w.users.rows = [r]) (hid : r.TelegramID = 42)
    (hstate : r.State = StateWaitOTP) (hphone : r.Phone ≠ "")
    (htag : adminStateOf w.adminStates 42 ≠ AdminStateWaitChannel)
    (hdb : ∀ k, env.dbErr k = none)
    (htrim : TrimSpace code = code) (hcode : code ≠ "")
    (hrow : ∃ o ∈ w.otps.rows, o.Phone = r.Phone ∧ o.Code = code ∧ o.IsUsed = false ∧
      env.clock 2 < o.ExpiresAt) :
    (Handler.HandleUpdate cfg env w (textUpdate code)).users =
      { w.users with rows :=
          [{ r with IsVerified := true, State := StateRegistered, UpdatedAt := env.clock 5 }] } ∧
    (Handler.HandleUpdate cfg env w (textUpdate code)).sent =
      w.sent ++
        [{ NewMessage 42
            (Sprintf (i18n.Get r.LanguageCode).RegistrationDone
              [Arg.str r.FirstName, Arg.str r.LastName, Arg.str r.Region, Arg.str r.District,
               Arg.str r.School, Arg.int r.Grade, Arg.str r.Phone]) with
            ParseMode := ModeHTML },
         { NewMessage 42 (i18n.Get r.LanguageCode).MainMenu with
            ParseMode := ModeHTML,
            ReplyMarkup := ReplyMarkup.inlineKeyboard
              [[Button.url (i18n.Get r.LanguageCode).BtnLogin "https://khiso.uz/login"],
               [Button.url (i18n.Get r.LanguageCode).BtnRegister "https://khiso.uz/register"]],
            DisableWebPagePreview := true }] ∧
    (Handler.HandleUpdate cfg env w (textUpdate code)).panicked = w.panicked := by
  have hfind : w.users.rows.find? (fun u => u.TelegramID == (42 : Int)) = some r := by
    rw [hrows]; simp [hid]
  have hm := handleMessage_of_record cfg env w { exampleMessage with Text := code } r
    htag (hdb 0) hfind rfl (by show TrimSpace code ≠ ""; rw [htrim]; exact hcode)
  have hne1 : ¬ StateWaitOTP = StateWaitFullName := by decide
  have hne2 : ¬ StateWaitOTP = StateWaitLocation := by decide
  have hne3 : ¬ StateWaitOTP = StateWaitGrade := by decide
  have hne4 : ¬ StateWaitOTP = StateWaitPhone := by decide
  have hvalid : (OTPService.VerifyOTP { getErr := none, dbNow := env.clock 2, markErr := none }
      w.otps r.Phone code).valid = true :=
    (VerifyOTP_valid_iff _ w.otps r.Phone code rfl rfl).mpr hrow
  simp only [Handler.HandleUpdate, textUpdate, hm, hstate, hne1, hne2, hne3, hne4, if_false,
    if_true, htrim]
  unfold Handler.handleOTPInput
  simp [UserService.GetUser, UserRepository.GetByTelegramID, Env.shift, hdb, hrows, hid, hphone,
    htrim, hvalid, UserService.VerifyUser, UserRepository.Update, UserTable.updateWhere,
    Handler.sendMainMenu, Handler.sendMessageHTML, exampleMessage]

theorem intercalate_go_eq_Join (sep : String) :
    ∀ (rest : List String) (a pre : String),
      String.intercalate.go (pre ++ a) sep rest = pre ++ Join (a :: rest) sep := by
  intro rest
  induction rest with
  | nil => intro a pre; simp [String.intercalate.go, Join]
  | cons b bs ih =>
    intro a pre
    have h := ih b (pre ++ a ++ sep)
    simp only [String.intercalate.go, Join]
    rw [h]
    simp [String.append_assoc]

/-- `Join` puts the separator between the elements, as `String.intercalate` does. -/
theorem Join_eq_intercalate (l : List String) (sep : String) :
    Join l sep = sep.intercalate l := by
  cases l with
  | nil => rfl
  | cons a rest =>
    have h := intercalate_go_eq_Join sep rest a ""
    simp only [String.empty_append] at h
    simp only [String.intercalate]
    exact h.symm

/-- Runes before the first `%` of a format are printed as they are. -/
theorem sprintfAux_plain (pre : List Char) (hpre : ∀ c ∈ pre, c ≠ '%') (rest : List Char)
    (args : List Arg) :
    sprintfAux (pre ++ rest) args = pre ++ sprintfAux rest args := by
  induction pre with
  | nil => rfl
  | cons c cs ih =>
    have hc : c ≠ '%' := hpre c (List.mem_cons_self _ _)
    have hcs : ∀ d ∈ cs, d ≠ '%' := fun d hd => hpre d (List.mem_cons_of_mem _ hd)
    rw [List.cons_append, sprintfAux]
    · rw [ih hcs, List.cons_append]
    all_goals
      intros
      simp_all

/-- A format with one verb `%s` and no other `%`, given one string: the text before the
verb, the string, the text after the verb. -/
theorem Sprintf_one_string (pre post : String) (m : String)
    (hpre : ∀ c ∈ pre.data, c ≠ '%') (hpost : ∀ c ∈ post.data, c ≠ '%') :
    Sprintf (pre ++ "%s" ++ post) [Arg.str m] = pre ++ m ++ post := by
  unfold Sprintf
  have h1 := sprintfAux_plain pre.data hpre ('%' :: 's' :: post.data) [Arg.str m]
  have h2 := sprintfAux_plain post.data hpost [] []
  simp only [List.append_nil] at h2
  have h3 : sprintfAux [] [] = [] := rfl
  rw [h3, List.append_nil] at h2
  have hdata : (pre ++ "%s" ++ post).data = pre.data ++ '%' :: 's' :: post.data := by
    simp [String.data_append]
  rw [hdata, h1, sprintfAux, h2]
  apply String.ext
  simp [String.data_append]

/-- When the subscription check fails, `handleStart` is what the check has left: the
world before with one `MustSubscribe` message added. -/
theorem handleStart_of_failed_gate (env : Env) (w : World) (msg : Message)
    (hgate : (Handler.checkSubscription env w msg.FromID msg.ChatID
      (if msg.FromLanguageCode = "" then "uz" else msg.FromLanguageCode)).1 = false) :
    ∃ rows : List (List Button),
      Handler.handleStart env w msg =
        { w with sent := w.sent ++
          [{ NewMessage msg.ChatID
              (i18n.Get (if msg.FromLanguageCode = "" then "uz"
                else msg.FromLanguageCode)).MustSubscribe with
              ParseMode := ModeHTML, ReplyMarkup := ReplyMarkup.inlineKeyboard rows }] } := by
  unfold Handler.handleStart
  simp only
  unfold Handler.checkSubscription at hgate ⊢
  cases hg : ChannelRepository.GetActive w.channels (env.dbErr 0) with
  | error e => simp [hg] at hgate
  | ok channels =>
    simp only [hg] at hgate ⊢
    by_cases h1 : channels.length = 0
    · simp [h1] at hgate
    · by_cases h2 : (notSubscribedFrom (env.member 0) 0 channels).length = 0
      · simp [h1, h2] at hgate
      · simp only [h1, h2, if_false]
        exact ⟨_, rfl⟩

/-- The channels after `handleAddChannel` when the `INSERT` succeeds: one new active row
named by the text without a leading `@` and without outer spaces. -/
theorem handleAddChannel_channels (env : Env) (w : World) (msg : Message)
    (h0 : env.dbErr 0 = none) :
    (Handler.handleAddChannel env w msg).channels =
      { rows := w.channels.rows ++
          [{ ID := w.channels.nextID, ChannelID := 0,
             ChannelUsername := TrimSpace (TrimPrefix msg.Text "@"),
             Title := TrimSpace (TrimPrefix msg.Text "@"), IsActive := true,
             CreatedAt := env.clock 0 }],
        nextID := w.channels.nextID + 1 } := by
  unfold Handler.handleAddChannel Handler.sendAdminPanel
  simp only [ChannelRepository.Create, h0]
  split <;> rfl

/-! ## Lemmas: goroutines -/

/-- C1 fails as stated: after two successful issuances for one phone, at time 1000, with
codes `111111` and then `222222` and a window of 5 minutes, `VerifyOTP(phone, "111111")` at
time 2000 returns true, not false, be it tried first or after `VerifyOTP(phone, "222222")`. -/
theorem C1_counterexample :
    (OTPService.GenerateAndSendOTP exampleConfig (exampleIssueEnv 1) emptyOTPTable 7
      "998901234567").result = Result.ok () ∧
    generateOTPCode exampleConfig.OTPLength (exampleIssueEnv 1).rand = Result.ok "111111" ∧
    (OTPService.GenerateAndSendOTP exampleConfig (exampleIssueEnv 2)
      (OTPService.GenerateAndSendOTP exampleConfig (exampleIssueEnv 1) emptyOTPTable 7
        "998901234567").db 7 "998901234567").result = Result.ok () ∧
    generateOTPCode exampleConfig.OTPLength (exampleIssueEnv 2).rand = Result.ok "222222" ∧
    (OTPService.VerifyOTP (exampleVerifyEnv 2000)
      (OTPService.GenerateAndSendOTP exampleConfig (exampleIssueEnv 2)
        (OTPService.GenerateAndSendOTP exampleConfig (exampleIssueEnv 1) emptyOTPTable 7
          "998901234567").db 7 "998901234567").db
      "998901234567" "111111").valid = true ∧
    (OTPService.VerifyOTP (exampleVerifyEnv 2000)
      (OTPService.VerifyOTP (exampleVerifyEnv 2000)
        (OTPService.GenerateAndSendOTP exampleConfig (exampleIssueEnv 2)
          (OTPService.GenerateAndSendOTP exampleConfig (exampleIssueEnv 1) emptyOTPTable 7
            "998901234567").db 7 "998901234567").db
        "998901234567" "222222").db
      "998901234567" "111111").valid = true := by
  decide

/-- C1 (as amended). After `GenerateAndSendOTP` has succeeded twice for one phone, with codes
`c1` and then `c2`, `c1 ≠ c2`, and while both rows are unexpired, `VerifyOTP(phone, c2)`
returns true and `VerifyOTP(phone, c1)` returns true as well, before and after the
verification of `c2`: the second issuance does not supersede the first code.  (`hkey`: the
ids in the table are below the next id the table hands out.) -/
theorem C1_earlier_code_still_verifies (cfg : Config) (env1 env2 : IssueEnv)
    (db db1 db2 : OTPTable) (userID : Int) (phone c1 c2 : String) (v v' : VerifyEnv)
    (hkey : ∀ r ∈ db.rows, r.ID < db.nextID)
    (hgen1 : generateOTPCode cfg.OTPLength env1.rand = Result.ok c1)
    (hok1 : (OTPService.GenerateAndSendOTP cfg env1 db userID phone).result = Result.ok ())
    (hdb1 : (OTPService.GenerateAndSendOTP cfg env1 db userID phone).db = db1)
    (hgen2 : generateOTPCode cfg.OTPLength env2.rand = Result.ok c2)
    (hok2 : (OTPService.GenerateAndSendOTP cfg env2 db1 userID phone).result = Result.ok ())
    (hdb2 : (OTPService.GenerateAndSendOTP cfg env2 db1 userID phone).db = db2)
    (hne : c1 ≠ c2)
    (hv : v.getErr = none ∧ v.markErr = none) (hv' : v'.getErr = none ∧ v'.markErr = none)
    (hexp1 : v.dbNow < env1.clock + expiryWindow cfg)
    (hexp2 : v.dbNow < env2.clock + expiryWindow cfg)
    (hexp1' : v'.dbNow < env1.clock + expiryWindow cfg) :
    (OTPService.VerifyOTP v db2 phone c2).valid = true ∧
    (OTPService.VerifyOTP v db2 phone c1).valid = true ∧
    (OTPService.VerifyOTP v' (OTPService.VerifyOTP v db2 phone c2).db phone c1).valid = true := by
  obtain ⟨m1, h1⟩ := GenerateAndSendOTP_of_ok cfg env1 db userID phone c1 hgen1 hok1
  rw [hdb1] at h1
  obtain ⟨m2, h2⟩ := GenerateAndSendOTP_of_ok cfg env2 db1 userID phone c2 hgen2 hok2
  rw [hdb2] at h2
  obtain ⟨row1, hrow1⟩ : ∃ row : OTPCode, row =
      { ID := db.nextID, UserID := userID, Phone := phone, Code := c1, MessageID := m1,
        IsUsed := false, ExpiresAt := env1.clock + expiryWindow cfg,
        CreatedAt := env1.dbClock } := ⟨_, rfl⟩
  obtain ⟨row2, hrow2⟩ : ∃ row : OTPCode, row =
      { ID := db1.nextID, UserID := userID, Phone := phone, Code := c2, MessageID := m2,
        IsUsed := false, ExpiresAt := env2.clock + expiryWindow cfg,
        CreatedAt := env2.dbClock } := ⟨_, rfl⟩
  rw [← hrow1] at h1
  rw [← hrow2] at h2
  have hrows2 : db2.rows = db.rows ++ [row1] ++ [row2] := by rw [h2, h1]
  have hm1 : row1.Phone = phone ∧ row1.Code = c1 ∧ row1.IsUsed = false ∧
      row1.ExpiresAt = env1.clock + expiryWindow cfg ∧ row1.ID = db.nextID := by
    rw [hrow1]; exact ⟨rfl, rfl, rfl, rfl, rfl⟩
  have hm2 : row2.Phone = phone ∧ row2.Code = c2 ∧ row2.IsUsed = false ∧
      row2.ExpiresAt = env2.clock + expiryWindow cfg ∧ row2.ID = db.nextID + 1 := by
    rw [hrow2, h1]; exact ⟨rfl, rfl, rfl, rfl, rfl⟩
  have hin1 : row1 ∈ db2.rows := by rw [hrows2]; simp
  have hin2 : row2 ∈ db2.rows := by rw [hrows2]; simp
  have hvalid2 : (OTPService.VerifyOTP v db2 phone c2).valid = true :=
    (VerifyOTP_valid_iff v db2 phone c2 hv.1 hv.2).mpr
      ⟨row2, hin2, hm2.1, hm2.2.1, hm2.2.2.1, by rw [hm2.2.2.2.1]; exact hexp2⟩
  refine ⟨hvalid2, ?_, ?_⟩
  · exact (VerifyOTP_valid_iff v db2 phone c1 hv.1 hv.2).mpr
      ⟨row1, hin1, hm1.1, hm1.2.1, hm1.2.2.1, by rw [hm1.2.2.2.1]; exact hexp1⟩
  · obtain ⟨r, hr, hmatch, hrows⟩ := VerifyOTP_exists_of_valid v db2 phone c2 hvalid2
    have hid : row1.ID ≠ r.ID := by
      rw [hrows2] at hr
      simp only [List.append_assoc, List.mem_append, List.mem_cons, List.mem_singleton,
        List.not_mem_nil, or_false] at hr
      rw [hm1.2.2.2.2]
      rcases hr with hr | hr | hr
      · exact (ne_of_lt (hkey r hr)).symm
      · exfalso
        apply hne
        rw [← hmatch.2.1, hr, hm1.2.1]
      · rw [hr, hm2.2.2.2.2]
        omega
    refine (VerifyOTP_valid_iff v' _ phone c1 hv'.1 hv'.2).mpr
      ⟨row1, ?_, hm1.1, hm1.2.1, hm1.2.2.1, by rw [hm1.2.2.2.1]; exact hexp1'⟩
    rw [hrows]
    exact List.mem_map.mpr ⟨row1, hin1, by simp [hid]⟩

/-- The amended C1 at the input of `C1_counterexample`. -/
theorem C1_earlier_code_still_verifies_witness :
    (OTPService.VerifyOTP (exampleVerifyEnv 2000)
      (OTPService.GenerateAndSendOTP exampleConfig (exampleIssueEnv 2)
        (OTPService.GenerateAndSendOTP exampleConfig (exampleIssueEnv 1) emptyOTPTable 7
          "998901234567").db 7 "998901234567").db
      "998901234567" "222222").valid = true ∧
    (OTPService.VerifyOTP (exampleVerifyEnv 2000)
      (OTPService.GenerateAndSendOTP exampleConfig (exampleIssueEnv 2)
        (OTPService.GenerateAndSendOTP exampleConfig (exampleIssueEnv 1) emptyOTPTable 7
          "998901234567").db 7 "998901234567").db
      "998901234567" "111111").valid = true ∧
    (OTPService.VerifyOTP (exampleVerifyEnv 3000)
      (OTPService.VerifyOTP (exampleVerifyEnv 2000)
        (OTPService.GenerateAndSendOTP exampleConfig (exampleIssueEnv 2)
          (OTPService.GenerateAndSendOTP exampleConfig (exampleIssueEnv 1) emptyOTPTable 7
            "998901234567").db 7 "998901234567").db
        "998901234567" "222222").db
      "998901234567" "111111").valid = true :=
  C1_earlier_code_still_verifies exampleConfig (exampleIssueEnv 1) (exampleIssueEnv 2)
    emptyOTPTable _ _ 7 "998901234567" "111111" "222222" (exampleVerifyEnv 2000)
    (exampleVerifyEnv 3000) (by intro r hr; cases hr) (by decide) (by decide) rfl (by decide)
    (by decide) rfl (by decide) ⟨rfl, rfl⟩ ⟨rfl, rfl⟩ (by decide) (by decide) (by decide)

/-- C2 fails as stated for a prior content that holds an unused, unexpired row of the same
phone and the same code: the issuance succeeds with code `000000`, the verification that
follows returns true, and the second verification returns true again, on the older row. -/
theorem C2_counterexample :
    (OTPService.GenerateAndSendOTP exampleConfig (exampleIssueEnv 0) tableWithSameCode 7
      "998901234567").result = Result.ok () ∧
    generateOTPCode exampleConfig.OTPLength (exampleIssueEnv 0).rand = Result.ok "000000" ∧
    0 < expiryWindow exampleConfig ∧
    (OTPService.VerifyOTP (exampleVerifyEnv 1000)
      (OTPService.GenerateAndSendOTP exampleConfig (exampleIssueEnv 0) tableWithSameCode 7
        "998901234567").db
      "998901234567" "000000").valid = true ∧
    (OTPService.VerifyOTP (exampleVerifyEnv 1000)
      (OTPService.VerifyOTP (exampleVerifyEnv 1000)
        (OTPService.GenerateAndSendOTP exampleConfig (exampleIssueEnv 0) tableWithSameCode 7
          "998901234567").db
        "998901234567" "000000").db
      "998901234567" "000000").valid = true := by
  decide

/-- C2 (as amended). If `GenerateAndSendOTP(userID, phone)` succeeds with generated code `c`,
then a `VerifyOTP(phone, c)` whose store operations succeed and that runs before the code
expires (with a positive window: immediately) returns true, and a `VerifyOTP(phone, c)`
after it returns false, provided that the table held, before the issuance, no unused row of
that phone and code that was unexpired at the first verification. -/
theorem C2_issued_code_verifies_once (cfg : Config) (env : IssueEnv) (db db1 : OTPTable)
    (userID : Int) (phone c : String) (v1 v2 : VerifyEnv)
    (hgen : generateOTPCode cfg.OTPLength env.rand = Result.ok c)
    (hok : (OTPService.GenerateAndSendOTP cfg env db userID phone).result = Result.ok ())
    (hdb1 : (OTPService.GenerateAndSendOTP cfg env db userID phone).db = db1)
    (hv1 : v1.getErr = none ∧ v1.markErr = none)
    (hnow : v1.dbNow < env.clock + expiryWindow cfg)
    (hmono : v1.dbNow ≤ v2.dbNow)
    (hprior : ∀ r ∈ db.rows,
      ¬ (r.Phone = phone ∧ r.Code = c ∧ r.IsUsed = false ∧ v1.dbNow < r.ExpiresAt)) :
    (OTPService.VerifyOTP v1 db1 phone c).valid = true ∧
    (OTPService.VerifyOTP v2 (OTPService.VerifyOTP v1 db1 phone c).db phone c).valid = false := by
  obtain ⟨m1, h1⟩ := GenerateAndSendOTP_of_ok cfg env db userID phone c hgen hok
  rw [hdb1] at h1
  obtain ⟨row, hrow⟩ : ∃ row : OTPCode, row =
      { ID := db.nextID, UserID := userID, Phone := phone, Code := c, MessageID := m1,
        IsUsed := false, ExpiresAt := env.clock + expiryWindow cfg,
        CreatedAt := env.dbClock } := ⟨_, rfl⟩
  rw [← hrow] at h1
  have hrows1 : db1.rows = db.rows ++ [row] := by rw [h1]
  have hm : row.Phone = phone ∧ row.Code = c ∧ row.IsUsed = false ∧
      row.ExpiresAt = env.clock + expiryWindow cfg := by
    rw [hrow]; exact ⟨rfl, rfl, rfl, rfl⟩
  have hvalid : (OTPService.VerifyOTP v1 db1 phone c).valid = true :=
    (VerifyOTP_valid_iff v1 db1 phone c hv1.1 hv1.2).mpr
      ⟨row, by rw [hrows1]; simp, hm.1, hm.2.1, hm.2.2.1, by rw [hm.2.2.2]; exact hnow⟩
  refine ⟨hvalid, ?_⟩
  obtain ⟨r, hr, hmatch, hrows⟩ := VerifyOTP_exists_of_valid v1 db1 phone c hvalid
  have hr_eq : r = row := by
    rw [hrows1] at hr
    rcases List.mem_append.mp hr with hr | hr
    · exact absurd hmatch (hprior r hr)
    · simpa using hr
  rw [hr_eq] at hrows
  cases hsecond : (OTPService.VerifyOTP v2 (OTPService.VerifyOTP v1 db1 phone c).db phone c).valid with
  | false => rfl
  | true =>
    exfalso
    obtain ⟨x', hx', hmatch', _⟩ := VerifyOTP_exists_of_valid v2 _ phone c hsecond
    rw [hrows] at hx'
    obtain ⟨x, hx, hxx'⟩ := List.mem_map.mp hx'
    by_cases hid : x.ID = row.ID
    · rw [if_pos hid] at hxx'
      rw [← hxx'] at hmatch'
      simp at hmatch'
    · rw [if_neg hid] at hxx'
      subst hxx'
      rw [hrows1] at hx
      rcases List.mem_append.mp hx with hx | hx
      · exact hprior x hx ⟨hmatch'.1, hmatch'.2.1, hmatch'.2.2.1,
          lt_of_le_of_lt hmono hmatch'.2.2.2⟩
      · have : x = row := by simpa using hx
        exact hid (by rw [this])

/-- The amended C2 on `exampleTable`, which holds no row of code `333333`. -/
theorem C2_issued_code_verifies_once_witness :
    (OTPService.VerifyOTP (exampleVerifyEnv 1000)
      (OTPService.GenerateAndSendOTP exampleConfig (exampleIssueEnv 3) exampleTable 7
        "998901234567").db
      "998901234567" "333333").valid = true ∧
    (OTPService.VerifyOTP (exampleVerifyEnv 1000)
      (OTPService.VerifyOTP (exampleVerifyEnv 1000)
        (OTPService.GenerateAndSendOTP exampleConfig (exampleIssueEnv 3) exampleTable 7
          "998901234567").db
        "998901234567" "333333").db
      "998901234567" "333333").valid = false :=
  C2_issued_code_verifies_once exampleConfig (exampleIssueEnv 3) exampleTable _ 7
    "998901234567" "333333" (exampleVerifyEnv 1000) (exampleVerifyEnv 1000) (by decide)
    (by decide) rfl ⟨rfl, rfl⟩ (by decide) (by decide) (by decide)

/-- C3. `VerifyOTP(phone, code)`, when the two store operations do not fail and `id` is a key
of the table, returns true if and only if the table holds a row with that phone and code that
is unused and expires strictly after the database time.  When it returns true there is a row
index `i` such that row `i` is such a matching row, no matching row was created later than it,
and the table afterwards is the old one with `is_used` set in row `i` alone: every other row is
unchanged.  When it returns false the table is unchanged. -/
theorem C3_verifyOTP_consumes_latest_match (env : VerifyEnv) (db : OTPTable)
    (phone code : String) (hget : env.getErr = none) (hmark : env.markErr = none)
    (hkey : (db.rows.map (fun r => r.ID)).Nodup) :
    ((OTPService.VerifyOTP env db phone code).valid = true ↔
      ∃ r ∈ db.rows, r.Phone = phone ∧ r.Code = code ∧ r.IsUsed = false ∧
        env.dbNow < r.ExpiresAt) ∧
    ((OTPService.VerifyOTP env db phone code).valid = true →
      ∃ (i : Nat) (h : i < db.rows.length),
        (db.rows.get ⟨i, h⟩).Phone = phone ∧ (db.rows.get ⟨i, h⟩).Code = code ∧
        (db.rows.get ⟨i, h⟩).IsUsed = false ∧ env.dbNow < (db.rows.get ⟨i, h⟩).ExpiresAt ∧
        (∀ x ∈ db.rows, x.Phone = phone → x.Code = code → x.IsUsed = false →
          env.dbNow < x.ExpiresAt → x.CreatedAt ≤ (db.rows.get ⟨i, h⟩).CreatedAt) ∧
        (OTPService.VerifyOTP env db phone code).db.rows =
          db.rows.set i { db.rows.get ⟨i, h⟩ with IsUsed := true } ∧
        (OTPService.VerifyOTP env db phone code).db.nextID = db.nextID) ∧
    ((OTPService.VerifyOTP env db phone code).valid = false →
      (OTPService.VerifyOTP env db phone code).db = db) := by
  refine ⟨VerifyOTP_valid_iff env db phone code hget hmark, ?_,
    VerifyOTP_db_of_not_valid env db phone code⟩
  intro hvalid
  cases hl : latestCreated (db.rows.filter (matchesPhoneAndCode env.dbNow phone code)) with
  | none =>
    rw [VerifyOTP_of_none env db phone code hget hl] at hvalid
    simp at hvalid
  | some r =>
    obtain ⟨hmem, hmax⟩ := latestCreated_some _ _ hl
    obtain ⟨hr, hm⟩ := List.mem_filter.mp hmem
    obtain ⟨hp, hc, hu, he⟩ := (matchesPhoneAndCode_iff _ _ _ _).mp hm
    obtain ⟨i, hi, hget_i⟩ := List.getElem_of_mem hr
    have hgi : db.rows.get ⟨i, hi⟩ = r := by simpa using hget_i
    refine ⟨i, hi, ?_⟩
    rw [hgi, VerifyOTP_of_some env db phone code r hget hmark hl]
    refine ⟨hp, hc, hu, he, ?_, ?_, rfl⟩
    · intro x hx h1 h2 h3 h4
      exact hmax x (List.mem_filter.mpr ⟨hx, (matchesPhoneAndCode_iff _ _ _ _).mpr ⟨h1, h2, h3, h4⟩⟩)
    · have := map_mark_eq_set db.rows hkey i hi
      rw [hgi] at this
      exact this

/-- C3 on `exampleTable` at database time 100, for the code that two rows carry. -/
theorem C3_verifyOTP_consumes_latest_match_witness :
    ((OTPService.VerifyOTP (exampleVerifyEnv 100) exampleTable "998901234567" "111111").valid
        = true ↔
      ∃ r ∈ exampleTable.rows, r.Phone = "998901234567" ∧ r.Code = "111111" ∧
        r.IsUsed = false ∧ (exampleVerifyEnv 100).dbNow < r.ExpiresAt) ∧
    ((OTPService.VerifyOTP (exampleVerifyEnv 100) exampleTable "998901234567" "111111").valid
        = true →
      ∃ (i : Nat) (h : i < exampleTable.rows.length),
        (exampleTable.rows.get ⟨i, h⟩).Phone = "998901234567" ∧
        (exampleTable.rows.get ⟨i, h⟩).Code = "111111" ∧
        (exampleTable.rows.get ⟨i, h⟩).IsUsed = false ∧
        (exampleVerifyEnv 100).dbNow < (exampleTable.rows.get ⟨i, h⟩).ExpiresAt ∧
        (∀ x ∈ exampleTable.rows, x.Phone = "998901234567" → x.Code = "111111" →
          x.IsUsed = false → (exampleVerifyEnv 100).dbNow < x.ExpiresAt →
          x.CreatedAt ≤ (exampleTable.rows.get ⟨i, h⟩).CreatedAt) ∧
        (OTPService.VerifyOTP (exampleVerifyEnv 100) exampleTable "998901234567"
            "111111").db.rows =
          exampleTable.rows.set i { exampleTable.rows.get ⟨i, h⟩ with IsUsed := true } ∧
        (OTPService.VerifyOTP (exampleVerifyEnv 100) exampleTable "998901234567"
            "111111").db.nextID = exampleTable.nextID) ∧
    ((OTPService.VerifyOTP (exampleVerifyEnv 100) exampleTable "998901234567" "111111").valid
        = false →
      (OTPService.VerifyOTP (exampleVerifyEnv 100) exampleTable "998901234567" "111111").db
        = exampleTable) :=
  C3_verifyOTP_consumes_latest_match (exampleVerifyEnv 100) exampleTable "998901234567"
    "111111" rfl rfl (by decide)

/-- C4. A code issued by `GenerateAndSendOTP` at time `t = env.clock` with a window of
`m = cfg.OTPExpiresMins` minutes (`m` minutes being a `time.Duration`, that is within the
64-bit count of nanoseconds) is stored with `expires_at = t + m` minutes, unused; and at
every database time `t' ≥ t + m` minutes `VerifyOTP(phone, code)` returns false and leaves
the table as it was, when no other row of that phone and code is unexpired at `t'`. -/
theorem C4_expired_code_is_rejected (cfg : Config) (env : IssueEnv) (db db1 : OTPTable)
    (userID : Int) (phone c : String) (v : VerifyEnv)
    (hrep : -2 ^ 63 ≤ cfg.OTPExpiresMins * Minute ∧ cfg.OTPExpiresMins * Minute < 2 ^ 63)
    (hgen : generateOTPCode cfg.OTPLength env.rand = Result.ok c)
    (hok : (OTPService.GenerateAndSendOTP cfg env db userID phone).result = Result.ok ())
    (hdb1 : (OTPService.GenerateAndSendOTP cfg env db userID phone).db = db1)
    (hlate : env.clock + cfg.OTPExpiresMins * Minute ≤ v.dbNow)
    (hother : ∀ r ∈ db.rows, ¬ (r.Phone = phone ∧ r.Code = c ∧ v.dbNow < r.ExpiresAt)) :
    (∃ row : OTPCode, db1.rows = db.rows ++ [row] ∧ row.UserID = userID ∧ row.Phone = phone ∧
      row.Code = c ∧ row.IsUsed = false ∧
      row.ExpiresAt = env.clock + cfg.OTPExpiresMins * Minute) ∧
    (OTPService.VerifyOTP v db1 phone c).valid = false ∧
    (OTPService.VerifyOTP v db1 phone c).db = db1 := by
  obtain ⟨m1, h1⟩ := GenerateAndSendOTP_of_ok cfg env db userID phone c hgen hok
  rw [hdb1] at h1
  have hwin : expiryWindow cfg = cfg.OTPExpiresMins * Minute := wrapInt64_of_range _ hrep
  rw [hwin] at h1
  obtain ⟨row, hrow⟩ : ∃ row : OTPCode, row =
      { ID := db.nextID, UserID := userID, Phone := phone, Code := c, MessageID := m1,
        IsUsed := false, ExpiresAt := env.clock + cfg.OTPExpiresMins * Minute,
        CreatedAt := env.dbClock } := ⟨_, rfl⟩
  rw [← hrow] at h1
  have hrows1 : db1.rows = db.rows ++ [row] := by rw [h1]
  have hexp : row.ExpiresAt = env.clock + cfg.OTPExpiresMins * Minute := by rw [hrow]
  have hinvalid : (OTPService.VerifyOTP v db1 phone c).valid = false := by
    cases hval : (OTPService.VerifyOTP v db1 phone c).valid with
    | false => rfl
    | true =>
      exfalso
      obtain ⟨x, hx, hmatch, _⟩ := VerifyOTP_exists_of_valid v db1 phone c hval
      rw [hrows1] at hx
      rcases List.mem_append.mp hx with hx | hx
      · exact hother x hx ⟨hmatch.1, hmatch.2.1, hmatch.2.2.2⟩
      · have hxr : x = row := by simpa using hx
        have := hmatch.2.2.2
        rw [hxr, hexp] at this
        exact absurd this (not_lt.mpr hlate)
  refine ⟨⟨row, hrows1, ?_, ?_, ?_, ?_, hexp⟩, hinvalid,
    VerifyOTP_db_of_not_valid v db1 phone c hinvalid⟩ <;> rw [hrow]

/-- C4 for a code issued at time 1000 with a window of 5 minutes and verified at the
instant it expires. -/
theorem C4_expired_code_is_rejected_witness :
    (∃ row : OTPCode,
      (OTPService.GenerateAndSendOTP exampleConfig (exampleIssueEnv 3) exampleTable 7
        "998901234567").db.rows = exampleTable.rows ++ [row] ∧
      row.UserID = 7 ∧ row.Phone = "998901234567" ∧ row.Code = "333333" ∧ row.IsUsed = false ∧
      row.ExpiresAt = (exampleIssueEnv 3).clock + exampleConfig.OTPExpiresMins * Minute) ∧
    (OTPService.VerifyOTP (exampleVerifyEnv 300000001000)
      (OTPService.GenerateAndSendOTP exampleConfig (exampleIssueEnv 3) exampleTable 7
        "998901234567").db "998901234567" "333333").valid = false ∧
    (OTPService.VerifyOTP (exampleVerifyEnv 300000001000)
      (OTPService.GenerateAndSendOTP exampleConfig (exampleIssueEnv 3) exampleTable 7
        "998901234567").db "998901234567" "333333").db =
      (OTPService.GenerateAndSendOTP exampleConfig (exampleIssueEnv 3) exampleTable 7
        "998901234567").db :=
  C4_expired_code_is_rejected exampleConfig (exampleIssueEnv 3) exampleTable _ 7
    "998901234567" "333333" (exampleVerifyEnv 300000001000) (by decide) (by decide)
    (by decide) rfl (by decide) (by decide)

/-- C5. Let the stored record of the user be in state `wait_otp`, unverified, with a non-empty
phone, and let the (trimmed) submitted text match no unused, unexpired row of that phone.
Then `handleOTPInput`, whatever the outcomes of the store operations of the verification,
changes nothing but the outbox: the OTP table is unchanged (so every later verification
answers as it would have before), the user table is unchanged (the state is still `wait_otp`
and the user unverified), and the one message sent is `InvalidOTP` with the resend button. -/
theorem C5_wrong_code_consumes_nothing (env : Env) (w : World) (message : Message)
    (user stored : User) (text : String)
    (hget : UserService.GetUser w.users (env.dbErr 0) user.TelegramID = Except.ok (some stored))
    (hstate : stored.State = StateWaitOTP) (hunverified : stored.IsVerified = false)
    (hphone : stored.Phone ≠ "")
    (hnomatch : ∀ r ∈ w.otps.rows, ¬ (r.Phone = stored.Phone ∧ r.Code = TrimSpace text ∧
      r.IsUsed = false ∧ env.clock 1 < r.ExpiresAt)) :
    Handler.handleOTPInput env w message user text =
      { w with sent := w.sent ++
          [{ NewMessage message.ChatID (i18n.Get user.LanguageCode).InvalidOTP with
              ParseMode := ModeHTML,
              ReplyMarkup := ReplyMarkup.inlineKeyboard
                [[Button.data (i18n.Get user.LanguageCode).ResendOTP CallbackResendOTP]] }] } ∧
    (Handler.handleOTPInput env w message user text).otps = w.otps ∧
    (∀ (v : VerifyEnv) (phone code : String),
      OTPService.VerifyOTP v (Handler.handleOTPInput env w message user text).otps phone code =
        OTPService.VerifyOTP v w.otps phone code) ∧
    (∃ after : User,
      UserService.GetUser (Handler.handleOTPInput env w message user text).users (env.dbErr 0)
        user.TelegramID = Except.ok (some after) ∧
      after.State = StateWaitOTP ∧ after.IsVerified = false) := by
  have hinvalid : (OTPService.VerifyOTP
      { getErr := env.dbErr 1, dbNow := env.clock 1, markErr := env.dbErr 2 }
      w.otps stored.Phone (TrimSpace text)).valid = false := by
    cases hval : (OTPService.VerifyOTP
      { getErr := env.dbErr 1, dbNow := env.clock 1, markErr := env.dbErr 2 }
      w.otps stored.Phone (TrimSpace text)).valid with
    | false => rfl
    | true =>
      obtain ⟨r, hr, hmatch, _⟩ := VerifyOTP_exists_of_valid _ _ _ _ hval
      exact absurd hmatch (hnomatch r hr)
  have hdb := VerifyOTP_db_of_not_valid _ _ _ _ hinvalid
  have hmain : Handler.handleOTPInput env w message user text =
      { w with sent := w.sent ++
          [{ NewMessage message.ChatID (i18n.Get user.LanguageCode).InvalidOTP with
              ParseMode := ModeHTML,
              ReplyMarkup := ReplyMarkup.inlineKeyboard
                [[Button.data (i18n.Get user.LanguageCode).ResendOTP CallbackResendOTP]] }] } := by
    unfold Handler.handleOTPInput
    simp only [hget, hphone, if_false, hinvalid, hdb, Bool.not_false, if_true]
  rw [hmain]
  exact ⟨rfl, rfl, fun _ _ _ => rfl, stored, hget, hstate, hunverified⟩

/-- C5 for `waitingUser`, whose outstanding codes are `111111` and `222222`, on the
submission of `999999`. -/
theorem C5_wrong_code_consumes_nothing_witness :
    Handler.handleOTPInput exampleEnv waitingWorld exampleMessage waitingUser "999999" =
      { waitingWorld with sent := waitingWorld.sent ++
          [{ NewMessage exampleMessage.ChatID (i18n.Get waitingUser.LanguageCode).InvalidOTP with
              ParseMode := ModeHTML,
              ReplyMarkup := ReplyMarkup.inlineKeyboard
                [[Button.data (i18n.Get waitingUser.LanguageCode).ResendOTP
                  CallbackResendOTP]] }] } :=
  (C5_wrong_code_consumes_nothing exampleEnv waitingWorld exampleMessage waitingUser waitingUser
    "999999" rfl rfl rfl (by decide) (by decide)).1

/-- C6. If `GenerateAndSendOTP` reaches the gateway (it hands `text` for `phone` to `SendSMS`)
and `SendSMS` fails with error `e`, then `GenerateAndSendOTP` returns the error
`send sms: e` and the table is exactly as before: no row is created. -/
theorem C6_failed_delivery_creates_no_row (cfg : Config) (env : IssueEnv) (db : OTPTable)
    (userID : Int) (phone text e : String)
    (hsent : (OTPService.GenerateAndSendOTP cfg env db userID phone).sms = [(phone, text)])
    (hfail : SMSService.SendSMS env.smsClock env.http phone text = Except.error e) :
    (OTPService.GenerateAndSendOTP cfg env db userID phone).result =
      Result.err ("send sms: " ++ e) ∧
    (OTPService.GenerateAndSendOTP cfg env db userID phone).db = db := by
  unfold OTPService.GenerateAndSendOTP at hsent ⊢
  cases hg : generateOTPCode cfg.OTPLength env.rand with
  | panic p => simp [hg] at hsent
  | err p => simp [hg] at hsent
  | ok code =>
    simp only [hg] at hsent ⊢
    have htext : text = Sprintf "Sizning tasdiqlash kodingiz: %s\nKod %d daqiqa ichida amal qiladi."
        [Arg.str code, Arg.int cfg.OTPExpiresMins] := by
      cases hs : SMSService.SendSMS env.smsClock env.http phone
          (Sprintf "Sizning tasdiqlash kodingiz: %s\nKod %d daqiqa ichida amal qiladi."
            [Arg.str code, Arg.int cfg.OTPExpiresMins]) with
      | error e' => simpa [hs] using hsent.symm
      | ok mid =>
        cases hd : env.dbErr with
        | some d => simpa [hs, hd, OTPRepository.Create] using hsent.symm
        | none => simpa [hs, hd, OTPRepository.Create] using hsent.symm
    rw [← htext, hfail]
    exact ⟨rfl, rfl⟩

/-- C6 for a gateway that answers with query code 503. -/
theorem C6_failed_delivery_creates_no_row_witness :
    (OTPService.GenerateAndSendOTP exampleConfig failingIssueEnv exampleTable 7
      "998901234567").result = Result.err ("send sms: " ++ "sms service error: busy") ∧
    (OTPService.GenerateAndSendOTP exampleConfig failingIssueEnv exampleTable 7
      "998901234567").db = exampleTable :=
  C6_failed_delivery_creates_no_row exampleConfig failingIssueEnv exampleTable 7 "998901234567"
    "Sizning tasdiqlash kodingiz: 333333\nKod 5 daqiqa ichida amal qiladi."
    "sms service error: busy" (by decide) rfl

/-- C7. For every length `n ≥ 0` and every run in which the first `n` draws of the random
source succeed, with values `draw 0, draw 1, ...` below 10, `generateOTPCode(n)` returns a
string of exactly `n` characters; its `i`-th character is the decimal digit of `draw i`, one
of `'0'..'9'`; and the mapping of drawn values to digits is one-to-one. -/
theorem C7_generateOTPCode_digits (length : Int) (rand : Nat → Except String (Fin 10))
    (draw : Nat → Fin 10) (hlen : 0 ≤ length)
    (hrand : ∀ i, i < length.toNat → rand i = Except.ok (draw i)) :
    ∃ code : String, generateOTPCode length rand = Result.ok code ∧
      code.length = length.toNat ∧
      (∀ (i : Nat) (h : i < code.data.length),
        code.data.get ⟨i, h⟩ = Nat.digitChar (draw i).val ∧
        (code.data.get ⟨i, h⟩).isDigit = true) ∧
      (∀ a b : Fin 10, Nat.digitChar a.val = Nat.digitChar b.val → a = b) := by
  refine ⟨String.mk ((List.range' 0 length.toNat).map (fun j => digitAt (draw j))), ?_, ?_, ?_, ?_⟩
  · have h := generateOTPCodeLoop_ok rand draw length.toNat 0 []
      (fun j _ h2 => hrand j (by omega))
    simp only [generateOTPCode, not_lt.mpr hlen, if_false, h, List.nil_append]
  · simp [String.length]
  · intro i h
    simp only [List.length_map, List.length_range'] at h
    simp only [List.get_eq_getElem, List.getElem_map, List.getElem_range', Nat.zero_add,
      Nat.one_mul]
    exact ⟨digitAt_eq_digitChar _, digitAt_isDigit _⟩
  · intro a b hab
    rw [← digitAt_eq_digitChar, ← digitAt_eq_digitChar] at hab
    exact digitAt_injective hab

/-- C7 for three draws 4, 7, 7. -/
theorem C7_generateOTPCode_digits_witness :
    ∃ code : String,
      generateOTPCode 3 (fun i => if i = 0 then Except.ok 4 else Except.ok 7) = Result.ok code ∧
      code.length = (3 : Int).toNat ∧
      (∀ (i : Nat) (h : i < code.data.length),
        code.data.get ⟨i, h⟩ = Nat.digitChar ((fun i => if i = 0 then (4 : Fin 10) else 7) i).val ∧
        (code.data.get ⟨i, h⟩).isDigit = true) ∧
      (∀ a b : Fin 10, Nat.digitChar a.val = Nat.digitChar b.val → a = b) :=
  C7_generateOTPCode_digits 3 (fun i => if i = 0 then Except.ok 4 else Except.ok 7)
    (fun i => if i = 0 then 4 else 7) (by decide) (by intro i _; by_cases h : i = 0 <;> simp [h])

/-- C8. `handleFullName` answers with the `InvalidFullName` hint if and only if the text has
fewer than 2 whitespace-separated tokens (`strings.Fields`; every token is non-empty and free
of whitespace), and then it changes nothing else: nothing is stored and the state stays as it
was.  When the text has at least 2 tokens and the two store writes succeed, every row of the
user gets the first token as first name, the remaining tokens joined by single spaces
(`String.intercalate` with one space) as last name and the state `wait_location`, no other row
changes, and `AskLocation` is sent. -/
theorem C8_handleFullName_splits_name (env : Env) (w : World) (msg : Message) (user : User)
    (text : String) :
    ((Handler.handleFullName env w msg user text).sent =
        w.sent ++ [{ NewMessage msg.ChatID (i18n.Get user.LanguageCode).InvalidFullName with
          ParseMode := ModeHTML }] ↔ (Fields text).length < 2) ∧
    (∀ t ∈ Fields text, t ≠ "" ∧ ∀ c ∈ t.data, isSpace c = false) ∧
    ((Fields text).length < 2 →
      (Handler.handleFullName env w msg user text).users = w.users ∧
      (Handler.handleFullName env w msg user text).otps = w.otps) ∧
    (∀ (first : String) (rest : List String), Fields text = first :: rest → rest ≠ [] →
      env.dbErr 0 = none → env.dbErr 1 = none →
      (Handler.handleFullName env w msg user text).users.rows =
        w.users.rows.map (fun u =>
          if u.TelegramID = user.TelegramID then
            { u with FirstName := first, LastName := " ".intercalate rest,
                     State := StateWaitLocation, UpdatedAt := env.clock 1 }
          else u) ∧
      (Handler.handleFullName env w msg user text).sent =
        w.sent ++ [{ NewMessage msg.ChatID (i18n.Get user.LanguageCode).AskLocation with
          ParseMode := ModeHTML }] ∧
      (Handler.handleFullName env w msg user text).otps = w.otps) := by
  refine ⟨?_, fun t ht => Fields_tokens text t ht, ?_, ?_⟩
  · constructor
    · intro hsent
      by_contra hlen
      unfold Handler.handleFullName at hsent
      simp only [hlen, dite_false, UserService.UpdateFullName, UserRepository.UpdateFullName,
        UserService.UpdateUserState, UserRepository.UpdateState] at hsent
      cases h0 : env.dbErr 0 with
      | some e =>
        simp [h0, Handler.sendMessage, NewMessage, ModeHTML] at hsent
      | none =>
        cases h1 : env.dbErr 1 with
        | some e => simp [h0, h1] at hsent
        | none =>
          simp only [h0, h1, Handler.sendMessageHTML, NewMessage, List.append_cancel_left_eq,
            List.cons.injEq, MessageConfig.mk.injEq, and_true, true_and] at hsent
          rcases i18n_Get_cases user.LanguageCode with h | h | h <;> rw [h] at hsent <;>
            revert hsent <;> decide
    · intro hlen
      simp [Handler.handleFullName, hlen, Handler.sendMessageHTML]
  · intro hlen
    simp [Handler.handleFullName, hlen, Handler.sendMessageHTML]
  · intro first rest hf hrest h0 h1
    rw [← Join_eq_intercalate]
    obtain ⟨second, rest', rfl⟩ : ∃ a l, rest = a :: l := by
      cases rest with
      | nil => exact absurd rfl hrest
      | cons a l => exact ⟨a, l, rfl⟩
    have hlen : ¬ (rest'.length + 1 + 1 < 2) := by omega
    simp only [Handler.handleFullName, hf, h0, h1, UserService.UpdateFullName,
      UserRepository.UpdateFullName, UserService.UpdateUserState, UserRepository.UpdateState,
      UserTable.updateWhere, Handler.sendMessageHTML, List.length_cons, hlen, dite_false,
      List.map_map, List.get_eq_getElem, List.getElem_cons_zero, List.drop_succ_cons,
      List.drop_zero, and_true]
    apply List.map_congr_left
    intro u _
    by_cases hu : u.TelegramID = user.TelegramID <;> simp [hu]

/-- The accepting case of C8 on the text `Anvar  Karimov Jr`, written with two spaces after
the first token: the last name stored is `Karimov Jr`. -/
theorem C8_handleFullName_splits_name_witness :
    (Handler.handleFullName exampleEnv exampleWorld exampleMessage exampleUser
        "Anvar  Karimov Jr").users.rows =
      exampleWorld.users.rows.map (fun u =>
        if u.TelegramID = exampleUser.TelegramID then
          { u with FirstName := "Anvar", LastName := "Karimov Jr",
                   State := StateWaitLocation, UpdatedAt := exampleEnv.clock 1 }
        else u) ∧
    (Handler.handleFullName exampleEnv exampleWorld exampleMessage exampleUser
        "Anvar  Karimov Jr").sent =
      exampleWorld.sent ++
        [{ NewMessage exampleMessage.ChatID (i18n.Get exampleUser.LanguageCode).AskLocation with
          ParseMode := ModeHTML }] ∧
    (Handler.handleFullName exampleEnv exampleWorld exampleMessage exampleUser
        "Anvar  Karimov Jr").otps = exampleWorld.otps :=
  (C8_handleFullName_splits_name exampleEnv exampleWorld exampleMessage exampleUser
    "Anvar  Karimov Jr").2.2.2 "Anvar" ["Karimov", "Jr"] (by decide) (by decide) rfl rfl

/-- C9 fails as stated: `a,b, c , d` has 4 segments, all non-empty after trimming, and
the school that is stored is `c , d`, which is neither the remaining segments rejoined with
commas (` c , d`) nor the trimmed remaining segments rejoined with commas (`c,d`). -/
theorem C9_counterexample :
    (Split "a,b, c , d" ',').length ≥ 3 ∧
    (∀ p ∈ Split "a,b, c , d" ',', TrimSpace p ≠ "") ∧
    exampleEnv.dbErr 0 = none ∧ exampleEnv.dbErr 1 = none ∧
    (Handler.handleLocation exampleEnv exampleWorld exampleMessage exampleUser
        "a,b, c , d").users.rows.map (fun u => u.School) = ["c , d"] ∧
    Join ((Split "a,b, c , d" ',').drop 2) "," = " c , d" ∧
    Join (((Split "a,b, c , d" ',').drop 2).map TrimSpace) "," = "c,d" := by
  decide

/-- C9 (as amended). For every text that splits on commas into at least 3 segments which are
all non-empty after trimming, when the two store writes succeed, `handleLocation` stores in
every row of the user region = the trimmed first segment, district = the trimmed second
segment and school = the remaining segments rejoined with commas and then trimmed as a whole,
sets the state to `wait_grade`, changes no other row, and sends `AskGrade`. -/
theorem C9_handleLocation_stores_location (env : Env) (w : World) (msg : Message) (user : User)
    (text seg0 seg1 : String) (rest : List String)
    (hsplit : Split text ',' = seg0 :: seg1 :: rest) (hrest : rest ≠ [])
    (hsegs : ∀ p ∈ Split text ',', TrimSpace p ≠ "")
    (h0 : env.dbErr 0 = none) (h1 : env.dbErr 1 = none) :
    (Handler.handleLocation env w msg user text).users.rows =
      w.users.rows.map (fun u =>
        if u.TelegramID = user.TelegramID then
          { u with Region := TrimSpace seg0, District := TrimSpace seg1,
                   School := TrimSpace (Join rest ","), State := StateWaitGrade,
                   UpdatedAt := env.clock 1 }
        else u) ∧
    (Handler.handleLocation env w msg user text).sent =
      w.sent ++ [{ NewMessage msg.ChatID (i18n.Get user.LanguageCode).AskGrade with
        ParseMode := ModeHTML }] ∧
    (Handler.handleLocation env w msg user text).otps = w.otps := by
  obtain ⟨seg2, rest', rfl⟩ : ∃ a l, rest = a :: l := by
    cases rest with
    | nil => exact absurd rfl hrest
    | cons a l => exact ⟨a, l, rfl⟩
  rw [hsplit] at hsegs
  have hr : TrimSpace seg0 ≠ "" := hsegs seg0 (by simp)
  have hd : TrimSpace seg1 ≠ "" := hsegs seg1 (by simp)
  have hs : TrimSpace (Join (seg2 :: rest') ",") ≠ "" := by
    have h2 : TrimSpace seg2 ≠ "" := hsegs seg2 (by simp)
    rw [Ne, TrimSpace_eq_empty_iff] at h2 ⊢
    intro hall
    apply h2
    intro c hc
    exact hall c (mem_Join_data "," c (seg2 :: rest') seg2 (by simp) hc)
  rw [handleLocation_of_split env w msg user text seg0 seg1 seg2 rest' hsplit]
  simp only [hr, hd, hs, or_self, if_false, h0, h1, UserService.UpdateLocation,
    UserRepository.UpdateLocation, UserService.UpdateUserState, UserRepository.UpdateState,
    UserTable.updateWhere, Handler.sendMessageHTML, List.map_map, and_true]
  apply List.map_congr_left
  intro u _
  by_cases hu : u.TelegramID = user.TelegramID <;> simp [hu]

/-- The amended C9 on the text `Tashkent, Yunusabad, School 56`. -/
theorem C9_handleLocation_stores_location_witness :
    (Handler.handleLocation exampleEnv exampleWorld exampleMessage exampleUser
        "Tashkent, Yunusabad, School 56").users.rows =
      exampleWorld.users.rows.map (fun u =>
        if u.TelegramID = exampleUser.TelegramID then
          { u with Region := TrimSpace "Tashkent", District := TrimSpace " Yunusabad",
                   School := TrimSpace (Join [" School 56"] ","), State := StateWaitGrade,
                   UpdatedAt := exampleEnv.clock 1 }
        else u) ∧
    (Handler.handleLocation exampleEnv exampleWorld exampleMessage exampleUser
        "Tashkent, Yunusabad, School 56").sent =
      exampleWorld.sent ++
        [{ NewMessage exampleMessage.ChatID (i18n.Get exampleUser.LanguageCode).AskGrade with
          ParseMode := ModeHTML }] ∧
    (Handler.handleLocation exampleEnv exampleWorld exampleMessage exampleUser
        "Tashkent, Yunusabad, School 56").otps = exampleWorld.otps :=
  C9_handleLocation_stores_location exampleEnv exampleWorld exampleMessage exampleUser
    "Tashkent, Yunusabad, School 56" "Tashkent" " Yunusabad" [" School 56"] (by decide)
    (by decide) (by decide) rfl rfl

/-- C10 fails as stated: the third segment of `a,b,,c` is empty, and `handleLocation`
accepts the text: it sends `AskGrade`, stores school `,c` and moves the state on. -/
theorem C10_counterexample :
    (∃ p ∈ Split "a,b,,c" ',', TrimSpace p = "") ∧
    (Handler.handleLocation exampleEnv exampleWorld exampleMessage exampleUser "a,b,,c").sent =
      [{ NewMessage exampleMessage.ChatID (i18n.Get exampleUser.LanguageCode).AskGrade with
        ParseMode := ModeHTML }] ∧
    (Handler.handleLocation exampleEnv exampleWorld exampleMessage exampleUser
      "a,b,,c").users.rows.map (fun u => (u.Region, u.District, u.School, u.State)) =
      [("a", "b", ",c", StateWaitGrade)] := by
  decide

/-- C10 (as amended). `handleLocation` answers with the `InvalidLocation` re-prompt if and only
if the text has fewer than 3 comma-separated segments, or its first segment is empty after
trimming, or its second is, or it has exactly 3 segments and the third is empty after trimming;
and then nothing is stored and the state stays as it was.  (An empty segment after the second
comma does not reject a text of 4 or more segments.) -/
theorem C10_handleLocation_rejects (env : Env) (w : World) (msg : Message) (user : User)
    (text : String) :
    ((Handler.handleLocation env w msg user text).sent =
        w.sent ++ [{ NewMessage msg.ChatID (i18n.Get user.LanguageCode).InvalidLocation with
          ParseMode := ModeHTML }] ↔
      ((Split text ',').length < 3 ∨ TrimSpace ((Split text ',').getD 0 "") = "" ∨
        TrimSpace ((Split text ',').getD 1 "") = "" ∨
        ((Split text ',').length = 3 ∧ TrimSpace ((Split text ',').getD 2 "") = ""))) ∧
    (((Split text ',').length < 3 ∨ TrimSpace ((Split text ',').getD 0 "") = "" ∨
        TrimSpace ((Split text ',').getD 1 "") = "" ∨
        ((Split text ',').length = 3 ∧ TrimSpace ((Split text ',').getD 2 "") = "")) →
      (Handler.handleLocation env w msg user text).users = w.users ∧
      (Handler.handleLocation env w msg user text).otps = w.otps) := by
  by_cases hlen : (Split text ',').length < 3
  · rw [handleLocation_of_short env w msg user text hlen]
    simp [hlen, Handler.sendMessageHTML]
  · obtain ⟨seg0, seg1, seg2, rest, hsplit⟩ :
        ∃ a b c l, Split text ',' = a :: b :: c :: l := by
      rcases hs : Split text ',' with _ | ⟨a, _ | ⟨b, _ | ⟨c, l⟩⟩⟩
      · simp [hs] at hlen
      · simp [hs] at hlen
      · simp [hs] at hlen
      · exact ⟨a, b, c, l, rfl⟩
    rw [handleLocation_of_split env w msg user text seg0 seg1 seg2 rest hsplit, hsplit]
    have hschool : TrimSpace (Join (seg2 :: rest) ",") = "" ↔
        (rest = [] ∧ TrimSpace seg2 = "") := by
      cases rest with
      | nil => simp [Join]
      | cons a l =>
        simp only [reduceCtorEq, false_and, iff_false]
        rw [TrimSpace_eq_empty_iff]
        intro hall
        have := hall ',' (sep_mem_Join_data "," ',' (by decide) seg2 a l)
        rw [isSpace_comma] at this
        exact absurd this (by decide)
    have hcond : (TrimSpace seg0 = "" ∨ TrimSpace seg1 = "" ∨
          TrimSpace (Join (seg2 :: rest) ",") = "") ↔
        ((seg0 :: seg1 :: seg2 :: rest).length < 3 ∨
          TrimSpace ((seg0 :: seg1 :: seg2 :: rest).getD 0 "") = "" ∨
          TrimSpace ((seg0 :: seg1 :: seg2 :: rest).getD 1 "") = "" ∨
          ((seg0 :: seg1 :: seg2 :: rest).length = 3 ∧
            TrimSpace ((seg0 :: seg1 :: seg2 :: rest).getD 2 "") = "")) := by
      rw [hschool]
      simp
    rw [← hcond]
    by_cases hc : TrimSpace seg0 = "" ∨ TrimSpace seg1 = "" ∨
        TrimSpace (Join (seg2 :: rest) ",") = ""
    · simp [hc, Handler.sendMessageHTML]
    · simp only [hc, if_false, iff_false, false_implies, and_true,
        UserService.UpdateLocation, UserRepository.UpdateLocation,
        UserService.UpdateUserState, UserRepository.UpdateState]
      intro hsent
      cases h0 : env.dbErr 0 with
      | some e => simp [h0, Handler.sendMessage, NewMessage, ModeHTML] at hsent
      | none =>
        cases h1 : env.dbErr 1 with
        | some e => simp [h0, h1] at hsent
        | none =>
          simp only [h0, h1, Handler.sendMessageHTML, NewMessage, List.append_cancel_left_eq,
            List.cons.injEq, MessageConfig.mk.injEq, and_true, true_and] at hsent
          rcases i18n_Get_cases user.LanguageCode with h | h | h <;> rw [h] at hsent <;>
            revert hsent <;> decide

/-- The rejecting case of the amended C10 on a text whose second segment is blank. -/
theorem C10_handleLocation_rejects_witness :
    (Handler.handleLocation exampleEnv exampleWorld exampleMessage exampleUser
      "Tashkent, ,School 56").users = exampleWorld.users ∧
    (Handler.handleLocation exampleEnv exampleWorld exampleMessage exampleUser
      "Tashkent, ,School 56").otps = exampleWorld.otps :=
  (C10_handleLocation_rejects exampleEnv exampleWorld exampleMessage exampleUser
    "Tashkent, ,School 56").2 (Or.inr (Or.inr (Or.inl (by decide))))

/-- C11. `handleGrade` answers with `InvalidGrade` if and only if the text does not parse
(`strconv.Atoi`) as an integer `g` with `1 ≤ g ≤ 11`, and then nothing is stored and the state
stays as it was.  When it parses as such a `g` and the two store writes succeed, every row
of the user gets grade `g` and the state `wait_phone`, no other row changes, and the phone
request is sent.  The decimal numerals of 1 to 11 parse as themselves, those of 0, 12 and -1
as numbers out of range, and `abc` does not parse. -/
theorem C11_handleGrade_accepts_1_to_11 (env : Env) (w : World) (msg : Message) (user : User)
    (text : String) :
    ((Handler.handleGrade env w msg user text).sent =
        w.sent ++ [{ NewMessage msg.ChatID (i18n.Get user.LanguageCode).InvalidGrade with
          ParseMode := ModeHTML }] ↔
      ¬ ∃ g : Int, Atoi text = Except.ok g ∧ 1 ≤ g ∧ g ≤ 11) ∧
    ((¬ ∃ g : Int, Atoi text = Except.ok g ∧ 1 ≤ g ∧ g ≤ 11) →
      (Handler.handleGrade env w msg user text).users = w.users ∧
      (Handler.handleGrade env w msg user text).otps = w.otps) ∧
    (∀ g : Int, Atoi text = Except.ok g → 1 ≤ g → g ≤ 11 →
      env.dbErr 0 = none → env.dbErr 1 = none →
      (Handler.handleGrade env w msg user text).users.rows =
        w.users.rows.map (fun u =>
          if u.TelegramID = user.TelegramID then
            { u with Grade := g, State := StateWaitPhone, UpdatedAt := env.clock 1 }
          else u) ∧
      (Handler.handleGrade env w msg user text).sent =
        w.sent ++ [{ NewMessage msg.ChatID (i18n.Get user.LanguageCode).AskPhone with
          ParseMode := ModeHTML,
          ReplyMarkup := ReplyMarkup.replyKeyboard
            [[{ Text := "📱 Telefon raqamni ulashish", RequestContact := true }]] true true }] ∧
      (Handler.handleGrade env w msg user text).otps = w.otps) ∧
    ((∀ n : Fin 11, ParseInt (toString (n.val + 1)) = ((n.val + 1 : Int), none)) ∧
      ParseInt "0" = (0, none) ∧ ParseInt "12" = (12, none) ∧ ParseInt "-1" = (-1, none) ∧
      (ParseInt "abc").2 ≠ none) := by
  refine ⟨?_, ?_, ?_, by decide⟩
  · cases ha : Atoi text with
    | error e =>
      simp [Handler.handleGrade, ha, Handler.sendMessageHTML]
    | ok g =>
      by_cases hr : g < 1 ∨ g > 11
      · have hno : ¬ (1 ≤ g ∧ g ≤ 11) := by omega
        simp [Handler.handleGrade, ha, hr, hno, Handler.sendMessageHTML]
      · have hyes : 1 ≤ g ∧ g ≤ 11 := by omega
        simp only [Handler.handleGrade, ha, hr, if_false, Except.ok.injEq, exists_eq_left', hyes,
          and_self, not_true_eq_false, iff_false, UserService.UpdateGrade,
          UserRepository.UpdateGrade, UserService.UpdateUserState, UserRepository.UpdateState]
        intro hsent
        cases h0 : env.dbErr 0 with
        | some e => simp [h0, Handler.sendMessage, NewMessage, ModeHTML] at hsent
        | none =>
          cases h1 : env.dbErr 1 with
          | some e => simp [h0, h1] at hsent
          | none => simp [h0, h1, Handler.sendPhoneRequest, NewMessage] at hsent
  · intro hno
    cases ha : Atoi text with
    | error e => simp [Handler.handleGrade, ha, Handler.sendMessageHTML]
    | ok g =>
      have hr : g < 1 ∨ g > 11 := by
        by_contra hc
        exact hno ⟨g, ha, by omega, by omega⟩
      simp [Handler.handleGrade, ha, hr, Handler.sendMessageHTML]
  · intro g ha h1 h11 hd0 hd1
    have hr : ¬ (g < 1 ∨ g > 11) := by omega
    simp only [Handler.handleGrade, ha, hr, if_false, hd0, hd1, UserService.UpdateGrade,
      UserRepository.UpdateGrade, UserService.UpdateUserState, UserRepository.UpdateState,
      UserTable.updateWhere, Handler.sendPhoneRequest, List.map_map, and_true]
    apply List.map_congr_left
    intro u _
    by_cases hu : u.TelegramID = user.TelegramID <;> simp [hu]

/-- The accepting case of C11 on the text `9`. -/
theorem C11_handleGrade_accepts_1_to_11_witness :
    (Handler.handleGrade exampleEnv (worldAt StateWaitGrade) exampleMessage
        (userAt StateWaitGrade) "9").users.rows =
      (worldAt StateWaitGrade).users.rows.map (fun u =>
        if u.TelegramID = (userAt StateWaitGrade).TelegramID then
          { u with Grade := 9, State := StateWaitPhone, UpdatedAt := exampleEnv.clock 1 }
        else u) ∧
    (Handler.handleGrade exampleEnv (worldAt StateWaitGrade) exampleMessage
        (userAt StateWaitGrade) "9").sent =
      (worldAt StateWaitGrade).sent ++
        [{ NewMessage exampleMessage.ChatID
            (i18n.Get (userAt StateWaitGrade).LanguageCode).AskPhone with
          ParseMode := ModeHTML,
          ReplyMarkup := ReplyMarkup.replyKeyboard
            [[{ Text := "📱 Telefon raqamni ulashish", RequestContact := true }]] true true }] ∧
    (Handler.handleGrade exampleEnv (worldAt StateWaitGrade) exampleMessage
        (userAt StateWaitGrade) "9").otps = (worldAt StateWaitGrade).otps :=
  (C11_handleGrade_accepts_1_to_11 exampleEnv (worldAt StateWaitGrade) exampleMessage
    (userAt StateWaitGrade) "9").2.2.1 9 rfl (by decide) (by decide) rfl rfl

/-- C12 does not hold of the code.  The free text `90 123-45-67` is, once spaces and
hyphens are removed, the 9 digits `901234567`, which do not start with `998`; `handlePhone`
prepends nothing, answers with `InvalidPhone`, stores no phone, issues no code and leaves
the state at `wait_phone`.  The same number shared as a contact is accepted by
`handleContact`, which does prepend `998`. -/
theorem C12_handlePhone_rejects_nine_digits :
    phoneReplacer "90 123-45-67" = "901234567" ∧
    len "901234567" = 9 ∧ HasPrefix "901234567" "998" = false ∧
    Handler.handlePhone exampleConfig exampleEnv (worldAt StateWaitPhone) exampleMessage
        (userAt StateWaitPhone) "90 123-45-67" =
      { worldAt StateWaitPhone with sent :=
          [{ NewMessage exampleMessage.ChatID (i18n.Get "en").InvalidPhone with
            ParseMode := ModeHTML }] } ∧
    (Handler.handleContact exampleConfig exampleEnv (worldAt StateWaitPhone)
        { exampleMessage with Contact := some "90 123-45-67" }
        (userAt StateWaitPhone)).users.rows.map (fun u => (u.Phone, u.State)) =
      [("998901234567", StateWaitOTP)] := by
  decide

/-- C13. `handleContact` removes spaces, `+`, `-`, `(` and `)` from the phone of the contact
and prepends `998` exactly when the result has length 9 and does not start with `998`.  It
answers with `InvalidPhone` if and only if the value so normalized is not `998` followed by 9
digits, and then stores nothing and issues no code.  When the normalized value is accepted
and `UpdatePhone` succeeds, the phone of every row of the user is the normalized value, and
no other phone changes. -/
theorem C13_handleContact_normalizes (cfg : Config) (env : Env) (w : World) (msg : Message)
    (user : User) (phoneNumber stripped normalized : String)
    (hcontact : msg.Contact = some phoneNumber)
    (hstrip : stripped.data = phoneNumber.data.filter
      (fun c => !(c == ' ' || c == '+' || c == '-' || c == '(' || c == ')')))
    (hnorm : normalized =
      if HasPrefix stripped "998" = false ∧ len stripped = 9 then "998" ++ stripped
      else stripped) :
    ((Handler.handleContact cfg env w msg user).sent =
        w.sent ++ [{ NewMessage msg.ChatID (i18n.Get user.LanguageCode).InvalidPhone with
          ParseMode := ModeHTML }] ↔
      ¬ ∃ rest : List Char, normalized.data = '9' :: '9' :: '8' :: rest ∧ rest.length = 9 ∧
        ∀ c ∈ rest, c.isDigit = true) ∧
    ((¬ ∃ rest : List Char, normalized.data = '9' :: '9' :: '8' :: rest ∧ rest.length = 9 ∧
        ∀ c ∈ rest, c.isDigit = true) →
      (Handler.handleContact cfg env w msg user).users = w.users ∧
      (Handler.handleContact cfg env w msg user).otps = w.otps ∧
      (Handler.handleContact cfg env w msg user).sms = w.sms) ∧
    ((∃ rest : List Char, normalized.data = '9' :: '9' :: '8' :: rest ∧ rest.length = 9 ∧
        ∀ c ∈ rest, c.isDigit = true) → env.dbErr 0 = none →
      (Handler.handleContact cfg env w msg user).users.rows.map
          (fun u => (u.TelegramID, u.Phone)) =
        w.users.rows.map (fun u =>
          (u.TelegramID, if u.TelegramID = user.TelegramID then normalized else u.Phone))) := by
  have hs : phoneReplacer phoneNumber = stripped := by
    unfold phoneReplacer
    rw [← hstrip]
  have hn : (if (!HasPrefix stripped "998" && len stripped == 9) = true then "998" ++ stripped
      else stripped) = normalized := by
    rw [hnorm]
    by_cases hp : HasPrefix stripped "998" = true <;> by_cases hl : len stripped = 9 <;>
      simp [hp, hl]
  have hmain : Handler.handleContact cfg env w msg user =
      if (!phoneRegex.MatchString normalized) = true then
        Handler.sendMessageHTML w msg.ChatID (i18n.Get user.LanguageCode).InvalidPhone
      else Handler.submitPhone cfg env w msg user normalized := by
    unfold Handler.handleContact
    simp only [hcontact, hs, hn]
  rw [hmain, ← phoneRegex_iff]
  by_cases hre : phoneRegex.MatchString normalized = true
  · simp only [hre, Bool.not_true, Bool.false_eq_true, if_false, not_true_eq_false, iff_false,
      false_implies, true_implies, true_and]
    refine ⟨submitPhone_sent_ne cfg env w msg user normalized _, ?_⟩
    intro h0
    rcases submitPhone_users cfg env w msg user normalized h0 with h | h <;>
    · rw [h]
      unfold UserTable.updateWhere
      simp only [List.map_map]
      apply List.map_congr_left
      intro u _
      by_cases hu : u.TelegramID = user.TelegramID <;> simp [hu]
  · simp [hre, Handler.sendMessageHTML]

/-- C13 on the contact `+998 (90) 123-45-67`. -/
theorem C13_handleContact_normalizes_witness :
    (Handler.handleContact exampleConfig exampleEnv (worldAt StateWaitPhone)
        { exampleMessage with Contact := some "+998 (90) 123-45-67" }
        (userAt StateWaitPhone)).users.rows.map (fun u => (u.TelegramID, u.Phone)) =
      (worldAt StateWaitPhone).users.rows.map (fun u =>
        (u.TelegramID,
          if u.TelegramID = (userAt StateWaitPhone).TelegramID then "998901234567"
          else u.Phone)) :=
  (C13_handleContact_normalizes exampleConfig exampleEnv (worldAt StateWaitPhone)
    { exampleMessage with Contact := some "+998 (90) 123-45-67" } (userAt StateWaitPhone)
    "+998 (90) 123-45-67" "998901234567" "998901234567" rfl (by decide) (by decide)).2.2
    ⟨['9', '0', '1', '2', '3', '4', '5', '6', '7'], by decide, by decide, by decide⟩ rfl

/-- C14. On the contact path and on the free-text path, with `phone` the normalized
input the handler tests: when `phone` does not match `phoneRegex` the handler sends
`InvalidPhone` and does nothing else (no phone stored, no code issued, the record as it
was); in every case each row of the table of users afterwards is a row from before or has
the phone `phone` which matches, each row of the table of codes is a row from before or
is for `phone` which matches, and each SMS is one from before or goes to `phone` which
matches.  A string that matches has 12 characters, `998` and then 9 decimal digits, so a
string of another length or with a non-digit does not match.  Over any run of updates from
a table of users without phones, every stored phone is empty or matches. -/
theorem C14_only_valid_phones_are_stored (cfg : Config) :
    (∀ (env : Env) (w : World) (msg : Message) (user : User) (contact phone : String),
      msg.Contact = some contact →
      (if (!HasPrefix (phoneReplacer contact) "998" && len (phoneReplacer contact) == 9) = true
        then "998" ++ phoneReplacer contact else phoneReplacer contact) = phone →
      (phoneRegex.MatchString phone = false →
        Handler.handleContact cfg env w msg user =
          Handler.sendMessageHTML w msg.ChatID (i18n.Get user.LanguageCode).InvalidPhone) ∧
      (∀ r ∈ (Handler.handleContact cfg env w msg user).users.rows,
        r ∈ w.users.rows ∨ (r.Phone = phone ∧ phoneRegex.MatchString phone = true)) ∧
      (∀ o ∈ (Handler.handleContact cfg env w msg user).otps.rows,
        o ∈ w.otps.rows ∨ (o.Phone = phone ∧ phoneRegex.MatchString phone = true)) ∧
      (∀ s ∈ (Handler.handleContact cfg env w msg user).sms,
        s ∈ w.sms ∨ (s.1 = phone ∧ phoneRegex.MatchString phone = true))) ∧
    (∀ (env : Env) (w : World) (msg : Message) (user : User) (text phone : String),
      phoneReplacer text = phone →
      (phoneRegex.MatchString phone = false →
        Handler.handlePhone cfg env w msg user text =
          Handler.sendMessageHTML w msg.ChatID (i18n.Get user.LanguageCode).InvalidPhone) ∧
      (∀ r ∈ (Handler.handlePhone cfg env w msg user text).users.rows,
        r ∈ w.users.rows ∨ (r.Phone = phone ∧ phoneRegex.MatchString phone = true)) ∧
      (∀ o ∈ (Handler.handlePhone cfg env w msg user text).otps.rows,
        o ∈ w.otps.rows ∨ (o.Phone = phone ∧ phoneRegex.MatchString phone = true)) ∧
      (∀ s ∈ (Handler.handlePhone cfg env w msg user text).sms,
        s ∈ w.sms ∨ (s.1 = phone ∧ phoneRegex.MatchString phone = true))) ∧
    (∀ phone : String, phoneRegex.MatchString phone = true →
      phone.length = 12 ∧ (∀ c ∈ phone.data, c.isDigit = true) ∧
      ∃ rest : List Char, phone.data = '9' :: '9' :: '8' :: rest ∧ rest.length = 9) ∧
    (∀ (events : List (Env × Update)) (w : World),
      (∀ r ∈ w.users.rows, r.Phone = "") →
      ∀ r ∈ (runUpdates cfg events w).users.rows,
        r.Phone = "" ∨ phoneRegex.MatchString r.Phone = true) := by
  have hsub : ∀ (env : Env) (w : World) (msg : Message) (user : User) (phone : String)
      (h : World), (phoneRegex.MatchString phone = false →
        h = Handler.sendMessageHTML w msg.ChatID (i18n.Get user.LanguageCode).InvalidPhone) →
      (phoneRegex.MatchString phone = true → h = Handler.submitPhone cfg env w msg user phone) →
      (phoneRegex.MatchString phone = false →
        h = Handler.sendMessageHTML w msg.ChatID (i18n.Get user.LanguageCode).InvalidPhone) ∧
      (∀ r ∈ h.users.rows,
        r ∈ w.users.rows ∨ (r.Phone = phone ∧ phoneRegex.MatchString phone = true)) ∧
      (∀ o ∈ h.otps.rows,
        o ∈ w.otps.rows ∨ (o.Phone = phone ∧ phoneRegex.MatchString phone = true)) ∧
      (∀ s ∈ h.sms, s ∈ w.sms ∨ (s.1 = phone ∧ phoneRegex.MatchString phone = true)) := by
    intro env w msg user phone h hrej hacc
    refine ⟨hrej, ?_⟩
    cases hv : phoneRegex.MatchString phone with
    | false =>
      rw [hrej hv]
      exact ⟨fun r hr => Or.inl hr, fun o ho => Or.inl ho, fun s hs => Or.inl hs⟩
    | true =>
      rw [hacc hv]
      have hw := submitPhone_writes cfg env w msg user phone
      exact ⟨fun r hr => (hw.1 r hr).imp id (fun e => ⟨e, rfl⟩),
        fun o ho => (hw.2.1 o ho).imp id (fun e => ⟨e, rfl⟩),
        fun s hs => (hw.2.2 s hs).imp id (fun e => ⟨e, rfl⟩)⟩
  refine ⟨?_, ?_, ?_, ?_⟩
  · intro env w msg user contact phone hcontact hnorm
    apply hsub env w msg user phone
    · intro hv
      unfold Handler.handleContact
      simp only [hcontact, hnorm, hv, Bool.not_false, if_true]
    · intro hv
      unfold Handler.handleContact
      simp only [hcontact, hnorm, hv, Bool.not_true, Bool.false_eq_true, if_false]
  · intro env w msg user text phone hnorm
    apply hsub env w msg user phone
    · intro hv
      unfold Handler.handlePhone
      simp only [hnorm, hv, Bool.not_false, if_true]
    · intro hv
      unfold Handler.handlePhone
      simp only [hnorm, hv, Bool.not_true, Bool.false_eq_true, if_false]
  · intro phone hv
    obtain ⟨rest, hs, hlen, _⟩ := (phoneRegex_iff phone).mp hv
    exact ⟨(phoneRegex_length phone hv).1, (phoneRegex_length phone hv).2, rest, hs, hlen⟩
  · intro events w hw
    exact runUpdates_phones cfg events w (fun r hr => Or.inl (hw r hr))

set_option maxRecDepth 100000 in
/-- C14 for a run of two updates from a table without phones: the sender, in state
`wait_phone`, sends `12345`, which is rejected, and then `+998 90 123-45-67`, which is
stored as `998901234567`. -/
theorem C14_only_valid_phones_are_stored_witness :
    (∀ r ∈ (runUpdates exampleConfig
        [(exampleEnv, Update.message { exampleMessage with Text := "12345" }),
         (exampleEnv, Update.message { exampleMessage with Text := "+998 90 123-45-67" })]
        (worldAt StateWaitPhone)).users.rows,
      r.Phone = "" ∨ phoneRegex.MatchString r.Phone = true) ∧
    (runUpdates exampleConfig
        [(exampleEnv, Update.message { exampleMessage with Text := "12345" })]
        (worldAt StateWaitPhone)).users.rows.map (fun r => (r.Phone, r.State)) =
      [("", StateWaitPhone)] ∧
    (runUpdates exampleConfig
        [(exampleEnv, Update.message { exampleMessage with Text := "12345" }),
         (exampleEnv, Update.message { exampleMessage with Text := "+998 90 123-45-67" })]
        (worldAt StateWaitPhone)).users.rows.map (fun r => (r.Phone, r.State)) =
      [("998901234567", StateWaitOTP)] :=
  ⟨(C14_only_valid_phones_are_stored exampleConfig).2.2.2
      [(exampleEnv, Update.message { exampleMessage with Text := "12345" }),
       (exampleEnv, Update.message { exampleMessage with Text := "+998 90 123-45-67" })]
      (worldAt StateWaitPhone) (by decide),
    by decide, by decide⟩

/-- C15. Let a user in state `wait_phone` submit a valid phone (`998` and 9 digits), as free
text or as a contact, let the phone be stored and the user be read back, and let
`GenerateAndSendOTP` return an error.  Then the one message sent is the generic `Error`
(no prompt for the code), the rows of the user have got the phone and nothing else, and
the state of the user is still `wait_phone`. -/
theorem C15_failed_issuance_keeps_wait_phone (cfg : Config) (env : Env) (w : World)
    (msg : Message) (user stored : User) (phone e : String)
    (hvalid : phoneRegex.MatchString phone = true)
    (hstored : w.users.rows.find? (fun u => u.TelegramID == user.TelegramID) = some stored)
    (hstate : stored.State = StateWaitPhone)
    (h0 : env.dbErr 0 = none) (h1 : env.dbErr 1 = none)
    (hfail : (OTPService.GenerateAndSendOTP cfg (env.issue 2) w.otps stored.ID phone).result =
      Result.err e) :
    (∀ text : String, phoneReplacer text = phone →
      (Handler.handlePhone cfg env w msg user text).sent =
        w.sent ++ [NewMessage msg.ChatID (i18n.Get user.LanguageCode).Error] ∧
      (Handler.handlePhone cfg env w msg user text).users =
        w.users.updateWhere user.TelegramID
          (fun u => { u with Phone := phone, UpdatedAt := env.clock 0 }) ∧
      (Handler.handlePhone cfg env w msg user text).users.rows.find?
          (fun u => u.TelegramID == user.TelegramID) =
        some { stored with Phone := phone, UpdatedAt := env.clock 0 } ∧
      ({ stored with Phone := phone, UpdatedAt := env.clock 0 } : User).State = StateWaitPhone) ∧
    (∀ contact : String, msg.Contact = some contact →
      (if HasPrefix (phoneReplacer contact) "998" = false ∧ len (phoneReplacer contact) = 9 then
        "998" ++ phoneReplacer contact else phoneReplacer contact) = phone →
      (Handler.handleContact cfg env w msg user).sent =
        w.sent ++ [NewMessage msg.ChatID (i18n.Get user.LanguageCode).Error] ∧
      (Handler.handleContact cfg env w msg user).users =
        w.users.updateWhere user.TelegramID
          (fun u => { u with Phone := phone, UpdatedAt := env.clock 0 }) ∧
      (Handler.handleContact cfg env w msg user).users.rows.find?
          (fun u => u.TelegramID == user.TelegramID) =
        some { stored with Phone := phone, UpdatedAt := env.clock 0 } ∧
      ({ stored with Phone := phone, UpdatedAt := env.clock 0 } : User).State = StateWaitPhone) := by
  have hsub := submitPhone_of_issue_error cfg env w msg user stored phone e hstored h0 h1 hfail
  have hfind := find_updateWhere w.users user.TelegramID user.TelegramID
    (fun u => { u with Phone := phone, UpdatedAt := env.clock 0 }) (fun _ => rfl)
  rw [hstored] at hfind
  simp only [if_true, Option.map_some'] at hfind
  constructor
  · intro text htext
    have : Handler.handlePhone cfg env w msg user text =
        Handler.submitPhone cfg env w msg user phone := by
      simp [Handler.handlePhone, htext, hvalid]
    rw [this, hsub]
    exact ⟨rfl, rfl, hfind, hstate⟩
  · intro contact hcontact hnorm
    have hn : (if (!HasPrefix (phoneReplacer contact) "998" &&
        len (phoneReplacer contact) == 9) = true then "998" ++ phoneReplacer contact
        else phoneReplacer contact) = phone := by
      rw [← hnorm]
      by_cases hp : HasPrefix (phoneReplacer contact) "998" = true <;>
        by_cases hl : len (phoneReplacer contact) = 9 <;> simp [hp, hl]
    have : Handler.handleContact cfg env w msg user =
        Handler.submitPhone cfg env w msg user phone := by
      unfold Handler.handleContact
      simp only [hcontact, hn, hvalid, Bool.not_true, Bool.false_eq_true, if_false]
    rw [this, hsub]
    exact ⟨rfl, rfl, hfind, hstate⟩

/-- C15 for the free text `998901234567` while the gateway is down. -/
theorem C15_failed_issuance_keeps_wait_phone_witness :
    (Handler.handlePhone exampleConfig smsDownEnv (worldAt StateWaitPhone) exampleMessage
        (userAt StateWaitPhone) "998901234567").sent =
      (worldAt StateWaitPhone).sent ++
        [NewMessage exampleMessage.ChatID (i18n.Get (userAt StateWaitPhone).LanguageCode).Error] ∧
    (Handler.handlePhone exampleConfig smsDownEnv (worldAt StateWaitPhone) exampleMessage
        (userAt StateWaitPhone) "998901234567").users =
      (worldAt StateWaitPhone).users.updateWhere (userAt StateWaitPhone).TelegramID
        (fun u => { u with Phone := "998901234567", UpdatedAt := smsDownEnv.clock 0 }) ∧
    (Handler.handlePhone exampleConfig smsDownEnv (worldAt StateWaitPhone) exampleMessage
        (userAt StateWaitPhone) "998901234567").users.rows.find?
        (fun u => u.TelegramID == (userAt StateWaitPhone).TelegramID) =
      some { userAt StateWaitPhone with
        Phone := "998901234567", UpdatedAt := smsDownEnv.clock 0 } ∧
    ({ userAt StateWaitPhone with
        Phone := "998901234567", UpdatedAt := smsDownEnv.clock 0 } : User).State =
      StateWaitPhone :=
  (C15_failed_issuance_keeps_wait_phone exampleConfig smsDownEnv (worldAt StateWaitPhone)
    exampleMessage (userAt StateWaitPhone) (userAt StateWaitPhone) "998901234567"
    "send sms: sms service error: busy" (by decide) (by decide) rfl rfl rfl (by decide)).1
    "998901234567" (by decide)

/-- C16. Let the stored record of the user be read and have a non-empty phone (the
dispatcher calls the handler for a user in state `wait_otp`), let the trimmed text verify
against that phone, and let the store operations of `VerifyUser` and the last read succeed.  Then `handleOTPInput` writes the
record back to the rows of the user with `is_verified` true, the state `registered` and a
new `updated_at`, every profile field being the one that was read; the record of the user
is afterwards the one that was read with these three fields changed, and no row of another
user changes.  It sends the `RegistrationDone` template of the language of the user filled
with first name, last name, region, district, school, grade and phone, in this order, as
stored, and then the main menu. -/
theorem C16_handleOTPInput_registers (env : Env) (w : World) (message : Message)
    (user stored : User) (text : String)
    (hget : UserService.GetUser w.users (env.dbErr 0) user.TelegramID = Except.ok (some stored))
    (hphone : stored.Phone ≠ "")
    (hvalid : (OTPService.VerifyOTP
      { getErr := env.dbErr 1, dbNow := env.clock 1, markErr := env.dbErr 2 }
      w.otps stored.Phone (TrimSpace text)).valid = true)
    (h3 : env.dbErr 3 = none) (h4 : env.dbErr 4 = none) (h5 : env.dbErr 5 = none) :
    (Handler.handleOTPInput env w message user text).users =
      w.users.updateWhere user.TelegramID (fun u =>
        { u with Username := stored.Username, LanguageCode := stored.LanguageCode,
                 FirstName := stored.FirstName, LastName := stored.LastName,
                 Region := stored.Region, District := stored.District,
                 School := stored.School, Grade := stored.Grade, Phone := stored.Phone,
                 IsVerified := true, State := StateRegistered, UpdatedAt := env.clock 4 }) ∧
    (Handler.handleOTPInput env w message user text).users.rows.find?
        (fun u => u.TelegramID == user.TelegramID) =
      some { stored with IsVerified := true, State := StateRegistered,
                         UpdatedAt := env.clock 4 } ∧
    (∀ tid : Int, tid ≠ user.TelegramID →
      (Handler.handleOTPInput env w message user text).users.rows.find?
          (fun u => u.TelegramID == tid) =
        w.users.rows.find? (fun u => u.TelegramID == tid)) ∧
    (Handler.handleOTPInput env w message user text).sent =
      w.sent ++
        [{ NewMessage message.ChatID
            (Sprintf (i18n.Get user.LanguageCode).RegistrationDone
              [Arg.str stored.FirstName, Arg.str stored.LastName, Arg.str stored.Region,
               Arg.str stored.District, Arg.str stored.School, Arg.int stored.Grade,
               Arg.str stored.Phone]) with ParseMode := ModeHTML },
         { NewMessage message.ChatID (i18n.Get user.LanguageCode).MainMenu with
            ParseMode := ModeHTML,
            ReplyMarkup := ReplyMarkup.inlineKeyboard
              [[Button.url (i18n.Get user.LanguageCode).BtnLogin "https://khiso.uz/login"],
               [Button.url (i18n.Get user.LanguageCode).BtnRegister
                 "https://khiso.uz/register"]],
            DisableWebPagePreview := true }] ∧
    (Handler.handleOTPInput env w message user text).panicked = w.panicked := by
  have h0 : env.dbErr 0 = none := by
    cases h : env.dbErr 0 with
    | none => rfl
    | some e => simp [UserService.GetUser, UserRepository.GetByTelegramID, h] at hget
  have hfind : w.users.rows.find? (fun u => u.TelegramID == user.TelegramID) = some stored := by
    simpa [UserService.GetUser, UserRepository.GetByTelegramID, h0] using hget
  have htid : stored.TelegramID = user.TelegramID := find_telegramID _ _ _ hfind
  obtain ⟨f, hf⟩ : ∃ f : User → User, f = fun u =>
        { u with Username := stored.Username, LanguageCode := stored.LanguageCode,
                 FirstName := stored.FirstName, LastName := stored.LastName,
                 Region := stored.Region, District := stored.District,
                 School := stored.School, Grade := stored.Grade, Phone := stored.Phone,
                 IsVerified := true, State := StateRegistered, UpdatedAt := env.clock 4 } :=
    ⟨_, rfl⟩
  have hftid : ∀ u, (f u).TelegramID = u.TelegramID := by
    intro u; rw [hf]
  have hafter : (w.users.updateWhere user.TelegramID f).rows.find?
      (fun u => u.TelegramID == user.TelegramID) = some (f stored) := by
    rw [find_updateWhere w.users user.TelegramID user.TelegramID f hftid, hfind]
    simp
  have hother : ∀ tid : Int, tid ≠ user.TelegramID →
      (w.users.updateWhere user.TelegramID f).rows.find? (fun u => u.TelegramID == tid) =
        w.users.rows.find? (fun u => u.TelegramID == tid) := by
    intro tid hne
    rw [find_updateWhere w.users user.TelegramID tid f hftid]
    simp [hne]
  have husers : (UserService.VerifyUser w.users (env.dbErr 3) (env.dbErr 4) (env.clock 4)
      user.TelegramID).2 = w.users.updateWhere user.TelegramID f := by
    simp only [UserService.VerifyUser, UserRepository.GetByTelegramID, h3, hfind,
      UserRepository.Update, h4, htid, hf]
  have hmain : Handler.handleOTPInput env w message user text =
      Handler.sendMainMenu (Handler.sendMessageHTML
        { w with
          otps := (OTPService.VerifyOTP
            { getErr := env.dbErr 1, dbNow := env.clock 1, markErr := env.dbErr 2 }
            w.otps stored.Phone (TrimSpace text)).db,
          users := w.users.updateWhere user.TelegramID f }
        message.ChatID
        (Sprintf (i18n.Get user.LanguageCode).RegistrationDone
          [Arg.str (f stored).FirstName, Arg.str (f stored).LastName,
           Arg.str (f stored).Region, Arg.str (f stored).District, Arg.str (f stored).School,
           Arg.int (f stored).Grade, Arg.str (f stored).Phone]))
        message.ChatID user.LanguageCode := by
    have hget5 : UserService.GetUser (w.users.updateWhere user.TelegramID f) (env.dbErr 5)
        user.TelegramID = Except.ok (some (f stored)) := by
      simp only [UserService.GetUser, UserRepository.GetByTelegramID, h5, hafter]
    unfold Handler.handleOTPInput
    simp only [hget, hphone, if_false, hvalid, Bool.not_true, Bool.false_eq_true, husers,
      hget5]
  rw [hmain]
  subst hf
  refine ⟨rfl, hafter, hother, ?_, rfl⟩
  simp [Handler.sendMainMenu, Handler.sendMessageHTML]

set_option maxRecDepth 100000 in
/-- C16 for `waitingUser` on the submission of the outstanding code `111111`: the record
and the text of the confirmation. -/
theorem C16_handleOTPInput_registers_witness :
    (Handler.handleOTPInput exampleEnv waitingWorld exampleMessage waitingUser
        "111111").users.rows.find? (fun u => u.TelegramID == waitingUser.TelegramID) =
      some { waitingUser with IsVerified := true, State := StateRegistered,
                              UpdatedAt := exampleEnv.clock 4 } ∧
    ((Handler.handleOTPInput exampleEnv waitingWorld exampleMessage waitingUser
        "111111").sent.map (fun m => m.Text)).head? =
      some "🎉 Congratulations! You have successfully registered.\n\n👤 First Name: <b>Anvar</b>\n👤 Last Name: <b>Karimov</b>\n🏙 Region: <b>Tashkent</b>\n🏘 District: <b>Yunusabad</b>\n🏫 School: <b>School 56</b>\n🎓 Grade: <b>9</b>\n📱 Phone: <b>998901234567</b>" :=
  ⟨(C16_handleOTPInput_registers exampleEnv waitingWorld exampleMessage waitingUser waitingUser
      "111111" rfl (by decide) (by decide) rfl rfl rfl).2.1,
    by
      rw [(C16_handleOTPInput_registers exampleEnv waitingWorld exampleMessage waitingUser
        waitingUser "111111" rfl (by decide) (by decide) rfl rfl rfl).2.2.2.1]
      rfl⟩

set_option maxRecDepth 100000 in
/-- C17, counterexample: `registeredUser` is registered and verified.  With one active
channel that the sender has left, `/start` sends the request to subscribe and no main
menu; with a pending request for a channel name, the text `hello` is taken for one and
no main menu is sent. -/
theorem C17_counterexample :
    registeredUser.State = StateRegistered ∧ registeredUser.IsVerified = true ∧
    (Handler.HandleUpdate exampleConfig leftEnv gatedWorld (Update.message startMessage)).sent.map
        (fun m => m.Text) = [messagesUz.MustSubscribe] ∧
    Handler.HandleUpdate exampleConfig leftEnv gatedWorld (Update.message startMessage) ≠
      Handler.sendMainMenu gatedWorld 42 "en" ∧
    ((Handler.HandleUpdate exampleConfig exampleEnv taggedWorld
        (Update.message { exampleMessage with Text := "hello" })).sent.map
        (fun m => m.Text)).head? = some "✅ Kanal qo'shildi: @hello" ∧
    Handler.HandleUpdate exampleConfig exampleEnv taggedWorld
        (Update.message { exampleMessage with Text := "hello" }) ≠
      Handler.sendMainMenu taggedWorld 42 "en" := by
  refine ⟨rfl, rfl, ?_, ?_, ?_, ?_⟩
  · decide
  · decide
  · decide
  · decide

/-- C17, amended.  Let the sender have a record that is registered and verified.  A
message without command and the command `/start` leave the table of users and the table of
codes as they are.  The main menu, in the language of the record and nothing else, is the
answer to a message without command when the sender has no pending request for a channel
name, the trimmed text is not empty and the record is read; and to `/start` when the
subscription check passes and the record is read.  When the subscription check fails,
`/start` is answered with the one `MustSubscribe` message and nothing else.  A message
without command of a sender with a pending request for a channel name is what
`handleAddChannel` makes of it: when the `INSERT` succeeds, a new active channel named by
the text.  A message without command whose trimmed text is empty, of a sender without
pending request whose record is read, changes nothing.  When the record cannot be read,
the message without command of a sender without pending request is handled as `/start`. -/
theorem C17_registered_user_stays_registered (cfg : Config) (env : Env) (w : World)
    (msg : Message) (stored : User)
    (hstored : w.users.rows.find? (fun u => u.TelegramID == msg.FromID) = some stored)
    (hstate : stored.State = StateRegistered) (hver : stored.IsVerified = true)
    (hcmd : msg.Command = none ∨ msg.Command = some "start") :
    (Handler.HandleUpdate cfg env w (Update.message msg)).users = w.users ∧
    (Handler.HandleUpdate cfg env w (Update.message msg)).otps = w.otps ∧
    (msg.Command = none → adminStateOf w.adminStates msg.FromID ≠ AdminStateWaitChannel →
      TrimSpace msg.Text ≠ "" → env.dbErr 0 = none →
      Handler.HandleUpdate cfg env w (Update.message msg) =
        Handler.sendMainMenu w msg.ChatID stored.LanguageCode) ∧
    (msg.Command = some "start" →
      (Handler.checkSubscription env w msg.FromID msg.ChatID
        (if msg.FromLanguageCode = "" then "uz" else msg.FromLanguageCode)).1 = true →
      env.dbErr 1 = none →
      Handler.HandleUpdate cfg env w (Update.message msg) =
        Handler.sendMainMenu w msg.ChatID stored.LanguageCode) ∧
    (msg.Command = some "start" →
      (Handler.checkSubscription env w msg.FromID msg.ChatID
        (if msg.FromLanguageCode = "" then "uz" else msg.FromLanguageCode)).1 = false →
      ∃ rows : List (List Button),
        Handler.HandleUpdate cfg env w (Update.message msg) =
          { w with sent := w.sent ++
            [{ NewMessage msg.ChatID
                (i18n.Get (if msg.FromLanguageCode = "" then "uz"
                  else msg.FromLanguageCode)).MustSubscribe with
                ParseMode := ModeHTML, ReplyMarkup := ReplyMarkup.inlineKeyboard rows }] }) ∧
    (msg.Command = none → adminStateOf w.adminStates msg.FromID = AdminStateWaitChannel →
      Handler.HandleUpdate cfg env w (Update.message msg) = Handler.handleAddChannel env w msg ∧
      (env.dbErr 0 = none →
        (Handler.HandleUpdate cfg env w (Update.message msg)).channels =
          { rows := w.channels.rows ++
              [{ ID := w.channels.nextID, ChannelID := 0,
                 ChannelUsername := TrimSpace (TrimPrefix msg.Text "@"),
                 Title := TrimSpace (TrimPrefix msg.Text "@"), IsActive := true,
                 CreatedAt := env.clock 0 }],
            nextID := w.channels.nextID + 1 })) ∧
    (msg.Command = none → adminStateOf w.adminStates msg.FromID ≠ AdminStateWaitChannel →
      TrimSpace msg.Text = "" → env.dbErr 0 = none →
      Handler.HandleUpdate cfg env w (Update.message msg) = w) ∧
    (∀ e : String, msg.Command = none →
      adminStateOf w.adminStates msg.FromID ≠ AdminStateWaitChannel → env.dbErr 0 = some e →
      Handler.HandleUpdate cfg env w (Update.message msg) =
        Handler.handleStart (env.shift 1) w msg) := by
  have hne1 : ¬ stored.State = StateWaitFullName := by rw [hstate]; decide
  have hne2 : ¬ stored.State = StateWaitLocation := by rw [hstate]; decide
  have hne3 : ¬ stored.State = StateWaitGrade := by rw [hstate]; decide
  have hne4 : ¬ stored.State = StateWaitPhone := by rw [hstate]; decide
  have hne5 : ¬ stored.State = StateWaitOTP := by rw [hstate]; decide
  -- a message without command
  have hmsg : (Handler.handleMessage cfg env w msg).users = w.users ∧
      (Handler.handleMessage cfg env w msg).otps = w.otps ∧
      (adminStateOf w.adminStates msg.FromID ≠ AdminStateWaitChannel →
        TrimSpace msg.Text ≠ "" → env.dbErr 0 = none →
        Handler.handleMessage cfg env w msg =
          Handler.sendMainMenu w msg.ChatID stored.LanguageCode) := by
    unfold Handler.handleMessage
    by_cases hadm : adminStateOf w.adminStates msg.FromID = AdminStateWaitChannel
    · simp only [hadm, if_true]
      exact ⟨(handleAddChannel_frame env w msg).1, (handleAddChannel_frame env w msg).2,
        fun h => absurd rfl h⟩
    · simp only [hadm, if_false, UserService.GetUser, UserRepository.GetByTelegramID]
      cases h0 : env.dbErr 0 with
      | some e =>
        simp only
        exact ⟨handleStart_users_of_existing _ w msg stored hstored, handleStart_otps _ w msg,
          fun _ _ h => by simp at h⟩
      | none =>
        simp only [hstored, hne1, hne2, hne3, hne4, hne5, and_false, if_false, if_pos hstate]
        by_cases ht : TrimSpace msg.Text = ""
        · simp [ht]
        · simp [ht, Handler.sendMainMenu]
  have htagged : adminStateOf w.adminStates msg.FromID = AdminStateWaitChannel →
      Handler.handleMessage cfg env w msg = Handler.handleAddChannel env w msg := by
    intro hadm
    unfold Handler.handleMessage
    rw [if_pos hadm]
  have hempty : adminStateOf w.adminStates msg.FromID ≠ AdminStateWaitChannel →
      TrimSpace msg.Text = "" → env.dbErr 0 = none → Handler.handleMessage cfg env w msg = w := by
    intro hadm ht h0
    unfold Handler.handleMessage
    simp only [hadm, if_false, UserService.GetUser, UserRepository.GetByTelegramID, h0, hstored,
      hne4, and_false, ht, if_true]
  have hunread : ∀ e : String,
      adminStateOf w.adminStates msg.FromID ≠ AdminStateWaitChannel → env.dbErr 0 = some e →
      Handler.handleMessage cfg env w msg = Handler.handleStart (env.shift 1) w msg := by
    intro e hadm h0
    unfold Handler.handleMessage
    simp only [hadm, if_false, UserService.GetUser, UserRepository.GetByTelegramID, h0]
  rcases hcmd with hc | hc
  · simp only [Handler.HandleUpdate, hc]
    refine ⟨hmsg.1, hmsg.2.1, fun _ => hmsg.2.2, fun h => by simp at h, fun h => by simp at h,
      fun _ hadm => ⟨htagged hadm, fun h0 => ?_⟩, fun _ => hempty, fun e _ => hunread e⟩
    rw [htagged hadm]
    exact handleAddChannel_channels env w msg h0
  · simp only [Handler.HandleUpdate, hc, Handler.handleCommand, if_true]
    refine ⟨handleStart_users_of_existing env w msg stored hstored, handleStart_otps env w msg,
      fun h => by simp at h, fun _ hgate h1 => ?_,
      fun _ hgate => handleStart_of_failed_gate env w msg hgate,
      fun h => by simp at h, fun h => by simp at h, fun e h => by simp at h⟩
    rw [handleStart_of_existing env w msg stored hstored hgate h1]
    simp [hstate, hver]

set_option maxRecDepth 100000 in
/-- C17 for `registeredUser`.  With one active channel of which the sender is a member, the
text `hi` and the command `/start` are both answered with the main menu, and a text of
spaces changes nothing; when the sender has left the channel, `/start` is answered with
`MustSubscribe`; with a pending request for a channel name, the text `@hello` creates the
channel `hello`. -/
theorem C17_registered_user_stays_registered_witness :
    Handler.HandleUpdate exampleConfig exampleEnv gatedWorld
        (Update.message { exampleMessage with Text := "hi" }) =
      Handler.sendMainMenu gatedWorld 42 "en" ∧
    Handler.HandleUpdate exampleConfig exampleEnv gatedWorld (Update.message startMessage) =
      Handler.sendMainMenu gatedWorld 42 "en" ∧
    Handler.HandleUpdate exampleConfig exampleEnv gatedWorld
        (Update.message { exampleMessage with Text := "  " }) = gatedWorld ∧
    (∃ rows : List (List Button),
      Handler.HandleUpdate exampleConfig leftEnv gatedWorld (Update.message startMessage) =
        { gatedWorld with sent := gatedWorld.sent ++
          [{ NewMessage startMessage.ChatID
              (i18n.Get (if startMessage.FromLanguageCode = "" then "uz"
                else startMessage.FromLanguageCode)).MustSubscribe with
              ParseMode := ModeHTML, ReplyMarkup := ReplyMarkup.inlineKeyboard rows }] }) ∧
    (Handler.HandleUpdate exampleConfig exampleEnv taggedWorld
        (Update.message { exampleMessage with Text := "@hello" })).channels.rows.map
      (fun c => (c.ChannelUsername, c.IsActive)) = [("hello", true)] :=
  ⟨(C17_registered_user_stays_registered exampleConfig exampleEnv gatedWorld
      { exampleMessage with Text := "hi" } registeredUser rfl rfl rfl (Or.inl rfl)).2.2.1
      rfl (by decide) (by decide) rfl,
   (C17_registered_user_stays_registered exampleConfig exampleEnv gatedWorld
      startMessage registeredUser rfl rfl rfl (Or.inr rfl)).2.2.2.1 rfl (by decide) rfl,
   (C17_registered_user_stays_registered exampleConfig exampleEnv gatedWorld
      { exampleMessage with Text := "  " } registeredUser rfl rfl rfl
      (Or.inl rfl)).2.2.2.2.2.2.1 rfl (by decide) (by decide) rfl,
   (C17_registered_user_stays_registered exampleConfig leftEnv gatedWorld
      startMessage registeredUser rfl rfl rfl (Or.inr rfl)).2.2.2.2.1 rfl (by decide),
   by decide⟩

set_option maxRecDepth 100000 in
/-- C18, counterexample: the record of the sender is in state `wait_location` and the
subscription check passes (there is no channel).  The answer to `/start` is the welcome
text with the prompt for the full name, which is not the prompt for the location; the
stored state stays `wait_location`. -/
theorem C18_counterexample :
    (Handler.HandleUpdate exampleConfig exampleEnv (worldAt StateWaitLocation)
        (Update.message startMessage)).sent.map (fun m => m.Text) =
      [messagesEn.Welcome ++ "\n\n" ++ messagesEn.AskFullName] ∧
    messagesEn.Welcome ++ "\n\n" ++ messagesEn.AskFullName ≠ messagesEn.AskLocation ∧
    (Handler.HandleUpdate exampleConfig exampleEnv (worldAt StateWaitLocation)
        (Update.message startMessage)).users = (worldAt StateWaitLocation).users ∧
    (Handler.checkSubscription exampleEnv (worldAt StateWaitLocation) 42 42 "uz").1 = true := by
  refine ⟨?_, ?_, ?_, ?_⟩
  · decide
  · decide
  · decide
  · decide

/-- C18, amended.  Let the sender have a record that is not both registered and
verified, let the subscription check pass and the record be read.  Then the answer to
`/start` is one HTML message, the welcome text followed by the prompt for the full name in
the language of the record, whatever the state of the record is; nothing else changes, so
the stored state is the one before. -/
theorem C18_start_reprompts_full_name (cfg : Config) (env : Env) (w : World) (msg : Message)
    (stored : User)
    (hstored : w.users.rows.find? (fun u => u.TelegramID == msg.FromID) = some stored)
    (hnot : ¬ (stored.State = StateRegistered ∧ stored.IsVerified = true))
    (hcmd : msg.Command = some "start")
    (hgate : (Handler.checkSubscription env w msg.FromID msg.ChatID
      (if msg.FromLanguageCode = "" then "uz" else msg.FromLanguageCode)).1 = true)
    (h1 : env.dbErr 1 = none) :
    Handler.HandleUpdate cfg env w (Update.message msg) =
      { w with sent := w.sent ++
          [{ NewMessage msg.ChatID ((i18n.Get stored.LanguageCode).Welcome ++ "\n\n" ++
              (i18n.Get stored.LanguageCode).AskFullName) with ParseMode := ModeHTML }] } ∧
    (Handler.HandleUpdate cfg env w (Update.message msg)).users.rows.find?
      (fun u => u.TelegramID == msg.FromID) = some stored := by
  have h : Handler.HandleUpdate cfg env w (Update.message msg) =
      Handler.sendMessageHTML w msg.ChatID ((i18n.Get stored.LanguageCode).Welcome ++ "\n\n" ++
        (i18n.Get stored.LanguageCode).AskFullName) := by
    simp only [Handler.HandleUpdate, hcmd, Handler.handleCommand, if_true]
    rw [handleStart_of_existing env w msg stored hstored hgate h1]
    simp only [hnot, if_false]
  rw [h]
  exact ⟨rfl, hstored⟩

set_option maxRecDepth 100000 in
/-- C18 for a record in state `wait_grade`. -/
theorem C18_start_reprompts_full_name_witness :
    Handler.HandleUpdate exampleConfig exampleEnv (worldAt StateWaitGrade)
        (Update.message startMessage) =
      { worldAt StateWaitGrade with sent := (worldAt StateWaitGrade).sent ++
          [{ NewMessage startMessage.ChatID
              ((i18n.Get (userAt StateWaitGrade).LanguageCode).Welcome ++ "\n\n" ++
                (i18n.Get (userAt StateWaitGrade).LanguageCode).AskFullName) with
              ParseMode := ModeHTML }] } ∧
    (Handler.HandleUpdate exampleConfig exampleEnv (worldAt StateWaitGrade)
        (Update.message startMessage)).users.rows.find?
      (fun u => u.TelegramID == startMessage.FromID) = some (userAt StateWaitGrade) :=
  C18_start_reprompts_full_name exampleConfig exampleEnv (worldAt StateWaitGrade) startMessage
    (userAt StateWaitGrade) rfl (by decide) rfl rfl rfl

/-- C19. Whatever the update (a text, a contact, a command, a callback query or anything
else) and whatever the store and the gateway do, the record of a telegram id that had one
is still there afterwards, and its state is the one before or the next one in the order
`wait_full_name`, `wait_location`, `wait_grade`, `wait_phone`, `wait_otp`, `registered`:
no update moves a state backward, skips a step or sets it to `start`.  This holds from
every table, hence also for an input that is sent again. -/
theorem C19_state_moves_at_most_one_step (cfg : Config) (env : Env) (w : World)
    (update : Update) (tid : Int) (u0 : User)
    (h0 : w.users.rows.find? (fun u => u.TelegramID == tid) = some u0) :
    ∃ u1 : User,
      (Handler.HandleUpdate cfg env w update).users.rows.find?
        (fun u => u.TelegramID == tid) = some u1 ∧
      (u1.State = u0.State ∨
       (u0.State = StateWaitFullName ∧ u1.State = StateWaitLocation) ∨
       (u0.State = StateWaitLocation ∧ u1.State = StateWaitGrade) ∨
       (u0.State = StateWaitGrade ∧ u1.State = StateWaitPhone) ∨
       (u0.State = StateWaitPhone ∧ u1.State = StateWaitOTP) ∨
       (u0.State = StateWaitOTP ∧ u1.State = StateRegistered)) := by
  rcases HandleUpdate_users cfg env w update with h | ⟨tid1, new, _, h, _⟩ |
    ⟨user, target, huser, hsucc, h⟩
  · rw [h]
    exact ⟨u0, h0, Or.inl rfl⟩
  · rw [h]
    refine ⟨u0, ?_, Or.inl rfl⟩
    simp only [List.find?_append, h0]
    rfl
  · obtain ⟨u1, hu1, hstate⟩ := UsersStep_find target user _ _ h tid u0 h0
    refine ⟨u1, hu1, ?_⟩
    rcases hstate with hs | ⟨ht, hs⟩
    · exact Or.inl hs
    · subst ht
      rw [h0] at huser
      cases huser
      right
      rcases hsucc with ⟨a, b⟩ | ⟨a, b⟩ | ⟨a, b⟩ | ⟨a, b⟩ | ⟨a, b⟩
      · exact Or.inl ⟨a, hs.trans b⟩
      · exact Or.inr (Or.inl ⟨a, hs.trans b⟩)
      · exact Or.inr (Or.inr (Or.inl ⟨a, hs.trans b⟩))
      · exact Or.inr (Or.inr (Or.inr (Or.inl ⟨a, hs.trans b⟩)))
      · exact Or.inr (Or.inr (Or.inr (Or.inr ⟨a, hs.trans b⟩)))

set_option maxRecDepth 100000 in
/-- C19 for the full name `Anvar Karimov` of a sender in state `wait_full_name`, whose
record moves to `wait_location`; the same text sent once more is taken for a location,
is rejected and leaves the state at `wait_location`. -/
theorem C19_state_moves_at_most_one_step_witness :
    (∃ u1 : User,
      (Handler.HandleUpdate exampleConfig exampleEnv exampleWorld
          (Update.message { exampleMessage with Text := "Anvar Karimov" })).users.rows.find?
        (fun u => u.TelegramID == 42) = some u1 ∧
      (u1.State = exampleUser.State ∨
       (exampleUser.State = StateWaitFullName ∧ u1.State = StateWaitLocation) ∨
       (exampleUser.State = StateWaitLocation ∧ u1.State = StateWaitGrade) ∨
       (exampleUser.State = StateWaitGrade ∧ u1.State = StateWaitPhone) ∨
       (exampleUser.State = StateWaitPhone ∧ u1.State = StateWaitOTP) ∨
       (exampleUser.State = StateWaitOTP ∧ u1.State = StateRegistered))) ∧
    (Handler.HandleUpdate exampleConfig exampleEnv exampleWorld
        (Update.message { exampleMessage with Text := "Anvar Karimov" })).users.rows.map
      (fun u => u.State) = [StateWaitLocation] ∧
    (runUpdates exampleConfig
        [(exampleEnv, Update.message { exampleMessage with Text := "Anvar Karimov" }),
         (exampleEnv, Update.message { exampleMessage with Text := "Anvar Karimov" })]
        exampleWorld).users.rows.map (fun u => u.State) = [StateWaitLocation] :=
  ⟨C19_state_moves_at_most_one_step exampleConfig exampleEnv exampleWorld
      (Update.message { exampleMessage with Text := "Anvar Karimov" }) 42 exampleUser rfl,
    by decide, by decide⟩

/-- C20. For every phone accepted by the step `wait_phone` (`998` and 9 digits) the slices of
the mask are in range and the value shown is the first 6 characters, then `****`, then the
last 2 characters, 12 characters in all; `998901234567` is shown as `998901****67`.  This
is the value in the message of each of the four places that show a phone, none of which
panics: phone entry and contact entry (when the phone is stored, the user is read back and
the issuance succeeds), and the resend command and the resend callback (for a user who has
that phone and waits for a code, when the user is read and the issuance succeeds).  In
each of the three languages the first line of that message is the fixed text of `OTPSent`
with the masked value in bold in the place of its `%s`. -/
theorem C20_phone_is_masked (phone : String) (hvalid : phoneRegex.MatchString phone = true) :
    (maskPhone phone =
        some (String.mk (phone.data.take 6 ++ ['*', '*', '*', '*'] ++ phone.data.drop 10)) ∧
      (phone.data.take 6 ++ ['*', '*', '*', '*'] ++ phone.data.drop 10).length = 12 ∧
      phone.data.drop 10 = phone.data.drop (phone.data.length - 2)) ∧
    maskPhone "998901234567" = some "998901****67" ∧
    ((∀ lang : String,
        i18n.Get lang = messagesUz ∨ i18n.Get lang = messagesRu ∨ i18n.Get lang = messagesEn) ∧
      ∀ masked : String,
        Sprintf messagesUz.OTPSent [Arg.str masked] =
          "✅ Tasdiqlash kodi yuborildi: <b>" ++ masked ++ "</b>" ∧
        Sprintf messagesRu.OTPSent [Arg.str masked] =
          "✅ Код подтверждения отправлен: <b>" ++ masked ++ "</b>" ∧
        Sprintf messagesEn.OTPSent [Arg.str masked] =
          "✅ Verification code sent: <b>" ++ masked ++ "</b>") ∧
    (∀ (cfg : Config) (env : Env) (w : World) (msg : Message) (user stored : User),
      w.users.rows.find? (fun u => u.TelegramID == user.TelegramID) = some stored →
      env.dbErr 0 = none → env.dbErr 1 = none →
      (OTPService.GenerateAndSendOTP cfg (env.issue 2) w.otps stored.ID phone).result =
        Result.ok () →
      (∀ text : String, phoneReplacer text = phone →
        (Handler.handlePhone cfg env w msg user text).sent =
          w.sent ++
            [{ NewMessage msg.ChatID "✅" with ReplyMarkup := ReplyMarkup.removeKeyboard true },
             { NewMessage msg.ChatID
                (Sprintf (i18n.Get user.LanguageCode).OTPSent
                  [Arg.str (String.mk
                    (phone.data.take 6 ++ ['*', '*', '*', '*'] ++ phone.data.drop 10))] ++
                  "\n\n" ++ (i18n.Get user.LanguageCode).AskOTP) with
                ParseMode := ModeHTML,
                ReplyMarkup := ReplyMarkup.inlineKeyboard
                  [[Button.data (i18n.Get user.LanguageCode).ResendOTP CallbackResendOTP]] }] ∧
        (Handler.handlePhone cfg env w msg user text).panicked = w.panicked) ∧
      (∀ contact : String, msg.Contact = some contact →
        (if HasPrefix (phoneReplacer contact) "998" = false ∧ len (phoneReplacer contact) = 9
          then "998" ++ phoneReplacer contact else phoneReplacer contact) = phone →
        (Handler.handleContact cfg env w msg user).sent =
          w.sent ++
            [{ NewMessage msg.ChatID "✅" with ReplyMarkup := ReplyMarkup.removeKeyboard true },
             { NewMessage msg.ChatID
                (Sprintf (i18n.Get user.LanguageCode).OTPSent
                  [Arg.str (String.mk
                    (phone.data.take 6 ++ ['*', '*', '*', '*'] ++ phone.data.drop 10))] ++
                  "\n\n" ++ (i18n.Get user.LanguageCode).AskOTP) with
                ParseMode := ModeHTML,
                ReplyMarkup := ReplyMarkup.inlineKeyboard
                  [[Button.data (i18n.Get user.LanguageCode).ResendOTP CallbackResendOTP]] }] ∧
        (Handler.handleContact cfg env w msg user).panicked = w.panicked)) ∧
    (∀ (cfg : Config) (env : Env) (w : World) (msg : Message) (chatID userID : Int)
      (stored : User),
      stored.Phone = phone → stored.State = StateWaitOTP →
      (OTPService.GenerateAndSendOTP cfg (env.issue 1) w.otps stored.ID stored.Phone).result =
        Result.ok () →
      (UserService.GetUser w.users (env.dbErr 0) msg.FromID = Except.ok (some stored) →
        (Handler.handleResendOTP cfg env w msg).sent =
          w.sent ++
            [{ NewMessage msg.ChatID
                (Sprintf (i18n.Get stored.LanguageCode).OTPSent
                  [Arg.str (String.mk
                    (phone.data.take 6 ++ ['*', '*', '*', '*'] ++ phone.data.drop 10))] ++
                  "\n\n" ++ (i18n.Get stored.LanguageCode).AskOTP) with
                ParseMode := ModeHTML,
                ReplyMarkup := ReplyMarkup.inlineKeyboard
                  [[Button.data (i18n.Get stored.LanguageCode).ResendOTP CallbackResendOTP]] }] ∧
        (Handler.handleResendOTP cfg env w msg).panicked = w.panicked) ∧
      (UserService.GetUser w.users (env.dbErr 0) userID = Except.ok (some stored) →
        (Handler.handleResendOTPCallback cfg env w chatID userID).sent =
          w.sent ++
            [{ NewMessage chatID
                (Sprintf (i18n.Get stored.LanguageCode).OTPSent
                  [Arg.str (String.mk
                    (phone.data.take 6 ++ ['*', '*', '*', '*'] ++ phone.data.drop 10))] ++
                  "\n\n" ++ (i18n.Get stored.LanguageCode).AskOTP) with
                ParseMode := ModeHTML,
                ReplyMarkup := ReplyMarkup.inlineKeyboard
                  [[Button.data (i18n.Get stored.LanguageCode).ResendOTP CallbackResendOTP]] }] ∧
        (Handler.handleResendOTPCallback cfg env w chatID userID).panicked = w.panicked)) := by
  have hshape := (phoneRegex_iff phone).mp hvalid
  have hmask := maskPhone_of_digits phone hshape
  have hlen12 := (phoneRegex_length phone hvalid).1
  have hdl : phone.data.length = 12 := hlen12
  have hne : phone ≠ "" := by
    intro h
    rw [h] at hlen12
    simp at hlen12
  refine ⟨⟨hmask, ?_, ?_⟩, by decide, ⟨i18n_Get_cases, fun masked => ⟨?_, ?_, ?_⟩⟩, ?_, ?_⟩
  · simp [hdl]
  · rw [hdl]
  · exact Sprintf_one_string "✅ Tasdiqlash kodi yuborildi: <b>" "</b>" masked (by decide)
      (by decide)
  · exact Sprintf_one_string "✅ Код подтверждения отправлен: <b>" "</b>" masked (by decide)
      (by decide)
  · exact Sprintf_one_string "✅ Verification code sent: <b>" "</b>" masked (by decide)
      (by decide)
  · intro cfg env w msg user stored hstored h0 h1 hok
    have hsub := submitPhone_of_issue_ok cfg env w msg user stored phone _ hstored h0 h1 hok hmask
    constructor
    · intro text htext
      have : Handler.handlePhone cfg env w msg user text =
          Handler.submitPhone cfg env w msg user phone := by
        simp [Handler.handlePhone, htext, hvalid]
      rw [this]
      exact hsub
    · intro contact hcontact hnorm
      have hn : (if (!HasPrefix (phoneReplacer contact) "998" &&
          len (phoneReplacer contact) == 9) = true then "998" ++ phoneReplacer contact
          else phoneReplacer contact) = phone := by
        rw [← hnorm]
        by_cases hp : HasPrefix (phoneReplacer contact) "998" = true <;>
          by_cases hl : len (phoneReplacer contact) = 9 <;> simp [hp, hl]
      have : Handler.handleContact cfg env w msg user =
          Handler.submitPhone cfg env w msg user phone := by
        unfold Handler.handleContact
        simp only [hcontact, hn, hvalid, Bool.not_true, Bool.false_eq_true, if_false]
      rw [this]
      exact hsub
  · intro cfg env w msg chatID userID stored hphone hstate hok
    have hmask' : maskPhone stored.Phone = some (String.mk
        (phone.data.take 6 ++ ['*', '*', '*', '*'] ++ phone.data.drop 10)) := by
      rw [hphone]; exact hmask
    have hne' : stored.Phone ≠ "" := by rw [hphone]; exact hne
    constructor
    · intro hget
      exact resendOTP_of_issue_ok cfg env w msg.ChatID msg.FromID stored _ hget hne' hstate hok
        hmask'
    · intro hget
      exact resendOTP_of_issue_ok cfg env w chatID userID stored _ hget hne' hstate hok hmask'

set_option maxRecDepth 100000 in
/-- C20 for the phone `998901234567`: the mask, and the texts of the messages of the four
places as the user sees them. -/
theorem C20_phone_is_masked_witness :
    (maskPhone "998901234567" =
        some (String.mk ("998901234567".data.take 6 ++ ['*', '*', '*', '*'] ++
          "998901234567".data.drop 10)) ∧
      ("998901234567".data.take 6 ++ ['*', '*', '*', '*'] ++
        "998901234567".data.drop 10).length = 12 ∧
      "998901234567".data.drop 10 =
        "998901234567".data.drop ("998901234567".data.length - 2)) ∧
    Sprintf messagesEn.OTPSent [Arg.str "998901****67"] =
      "✅ Verification code sent: <b>" ++ "998901****67" ++ "</b>" ∧
    (Handler.handlePhone exampleConfig exampleEnv (worldAt StateWaitPhone) exampleMessage
        (userAt StateWaitPhone) "998901234567").sent.map (fun m => m.Text) =
      ["✅", "✅ Verification code sent: <b>998901****67</b>\n\n🔐 Enter the verification code sent to your phone:"] ∧
    (Handler.handleContact exampleConfig exampleEnv (worldAt StateWaitPhone)
        { exampleMessage with Contact := some "+998 90 123-45-67" }
        (userAt StateWaitPhone)).sent.map (fun m => m.Text) =
      ["✅", "✅ Verification code sent: <b>998901****67</b>\n\n🔐 Enter the verification code sent to your phone:"] ∧
    (Handler.handleResendOTP exampleConfig exampleEnv waitingWorld exampleMessage).sent.map
        (fun m => m.Text) =
      ["✅ Verification code sent: <b>998901****67</b>\n\n🔐 Enter the verification code sent to your phone:"] ∧
    (Handler.handleResendOTPCallback exampleConfig exampleEnv waitingWorld 42 42).sent.map
        (fun m => m.Text) =
      ["✅ Verification code sent: <b>998901****67</b>\n\n🔐 Enter the verification code sent to your phone:"] :=
  ⟨(C20_phone_is_masked "998901234567" (by decide)).1,
   ((C20_phone_is_masked "998901234567" (by decide)).2.2.1.2 "998901****67").2.2,
   by decide, by decide, by decide, by decide⟩

/-- C22. Let `checkSubscription` return false.  Then `handleStart`, called for `/start` or
from the callback that checks again, is over with it: what it leaves is what the check
has left, that is the world before with one `MustSubscribe` message added; the table of
users (no record created or changed) and the table of codes are as before, and neither
the welcome text nor a prompt of a step is sent. -/
theorem C22_failed_gate_stops_handleStart (cfg : Config) (env : Env) (w : World)
    (msg : Message)
    (hgate : (Handler.checkSubscription env w msg.FromID msg.ChatID
      (if msg.FromLanguageCode = "" then "uz" else msg.FromLanguageCode)).1 = false) :
    Handler.handleStart env w msg =
      (Handler.checkSubscription env w msg.FromID msg.ChatID
        (if msg.FromLanguageCode = "" then "uz" else msg.FromLanguageCode)).2 ∧
    (Handler.handleStart env w msg).users = w.users ∧
    (Handler.handleStart env w msg).otps = w.otps ∧
    (∃ m : MessageConfig, Handler.handleStart env w msg = { w with sent := w.sent ++ [m] } ∧
      m.Text = (i18n.Get (if msg.FromLanguageCode = "" then "uz"
        else msg.FromLanguageCode)).MustSubscribe) ∧
    (msg.Command = some "start" →
      Handler.HandleUpdate cfg env w (Update.message msg) = Handler.handleStart env w msg) ∧
    (∀ callback : CallbackQuery,
      msg = { ChatID := callback.ChatID, FromID := callback.FromID, Text := "",
              FromUserName := callback.FromUserName,
              FromLanguageCode := callback.FromLanguageCode } →
      Handler.handleStartFromCallback env w callback = Handler.handleStart env w msg) := by
  have hstart : Handler.handleStart env w msg =
      (Handler.checkSubscription env w msg.FromID msg.ChatID
        (if msg.FromLanguageCode = "" then "uz" else msg.FromLanguageCode)).2 := by
    unfold Handler.handleStart
    simp only
    rcases checkSubscription_cases env w msg.FromID msg.ChatID
      (if msg.FromLanguageCode = "" then "uz" else msg.FromLanguageCode) with hc | ⟨m, hc⟩
    · rw [hc] at hgate
      simp at hgate
    · simp only [hc]
  have hshape : ∃ m : MessageConfig,
      (Handler.checkSubscription env w msg.FromID msg.ChatID
        (if msg.FromLanguageCode = "" then "uz" else msg.FromLanguageCode)).2 =
          { w with sent := w.sent ++ [m] } ∧
      m.Text = (i18n.Get (if msg.FromLanguageCode = "" then "uz"
        else msg.FromLanguageCode)).MustSubscribe := by
    unfold Handler.checkSubscription at hgate ⊢
    cases hg : ChannelRepository.GetActive w.channels (env.dbErr 0) with
    | error e => simp [hg] at hgate
    | ok channels =>
      simp only [hg] at hgate ⊢
      by_cases h1 : channels.length = 0
      · simp [h1] at hgate
      · by_cases h2 : (notSubscribedFrom (env.member 0) 0 channels).length = 0
        · simp [h1, h2] at hgate
        · simp only [h1, h2, if_false]
          exact ⟨_, rfl, rfl⟩
  obtain ⟨m, hm, htext⟩ := hshape
  refine ⟨hstart, ?_, ?_, ⟨m, ?_, htext⟩, ?_, ?_⟩
  · rw [hstart, hm]
  · rw [hstart, hm]
  · rw [hstart, hm]
  · intro hcmd
    simp [Handler.HandleUpdate, hcmd, Handler.handleCommand]
  · intro callback hmsg
    rw [hmsg]
    rfl

set_option maxRecDepth 100000 in
/-- C22 for `/start` of `registeredUser` in `gatedWorld`, whose channel the sender has
left. -/
theorem C22_failed_gate_stops_handleStart_witness :
    (Handler.handleStart leftEnv gatedWorld startMessage).users = gatedWorld.users ∧
    (Handler.handleStart leftEnv gatedWorld startMessage).otps = gatedWorld.otps ∧
    (Handler.handleStart leftEnv gatedWorld startMessage).sent.map (fun m => m.Text) =
      [messagesUz.MustSubscribe] :=
  ⟨(C22_failed_gate_stops_handleStart exampleConfig leftEnv gatedWorld startMessage
      (by decide)).2.1,
   (C22_failed_gate_stops_handleStart exampleConfig leftEnv gatedWorld startMessage
      (by decide)).2.2.1,
   by decide⟩

/-- C23. Let the sender of a message without command have the tag `wait_channel`.  Then
`handleMessage` does what `handleAddChannel` does and nothing else.  Afterwards the sender
has no tag, so that the next message of the sender is not taken for a channel name, and
the tag of every other user is the one before.  The table of users and the table of codes
are unchanged, and the record of the sender is not read: with any other states and
profiles in the table of users (the verified flags and the creation times, which the
counts of the admin panel read, being the same), everything else comes out the same. -/
theorem C23_admin_tag_goes_first (cfg : Config) (env : Env) (w : World) (msg : Message)
    (htag : adminStateOf w.adminStates msg.FromID = AdminStateWaitChannel) :
    Handler.handleMessage cfg env w msg = Handler.handleAddChannel env w msg ∧
    (msg.Command = none →
      Handler.HandleUpdate cfg env w (Update.message msg) = Handler.handleAddChannel env w msg) ∧
    adminStateOf (Handler.handleMessage cfg env w msg).adminStates msg.FromID = AdminStateNone ∧
    adminStateOf (Handler.handleMessage cfg env w msg).adminStates msg.FromID ≠
      AdminStateWaitChannel ∧
    (∀ other : Int, other ≠ msg.FromID →
      adminStateOf (Handler.handleMessage cfg env w msg).adminStates other =
        adminStateOf w.adminStates other) ∧
    (Handler.handleMessage cfg env w msg).users = w.users ∧
    (Handler.handleMessage cfg env w msg).otps = w.otps ∧
    (∀ g : User → User, (∀ u, (g u).IsVerified = u.IsVerified ∧ (g u).CreatedAt = u.CreatedAt) →
      Handler.handleMessage cfg env
          { w with users := { w.users with rows := w.users.rows.map g } } msg =
        { Handler.handleMessage cfg env w msg with
          users := { w.users with rows := w.users.rows.map g } }) := by
  have hm : ∀ w0 : World, adminStateOf w0.adminStates msg.FromID = AdminStateWaitChannel →
      Handler.handleMessage cfg env w0 msg = Handler.handleAddChannel env w0 msg := by
    intro w0 h0
    unfold Handler.handleMessage
    rw [if_pos h0]
  have hself : adminStateOf (Handler.handleAddChannel env w msg).adminStates msg.FromID =
      AdminStateNone := by
    rw [handleAddChannel_adminStates]
    simp [adminStateOf, lookup_filter_self, AdminStateNone]
  refine ⟨hm w htag, ?_, ?_, ?_, ?_, ?_, ?_, ?_⟩
  · intro hcmd
    simp only [Handler.HandleUpdate, hcmd]
    exact hm w htag
  · rw [hm w htag]
    exact hself
  · rw [hm w htag, hself]
    decide
  · intro other hother
    rw [hm w htag, handleAddChannel_adminStates]
    simp [adminStateOf, lookup_filter_ne _ _ _ hother]
  · rw [hm w htag]
    exact (handleAddChannel_frame env w msg).1
  · rw [hm w htag]
    exact (handleAddChannel_frame env w msg).2
  · intro g hg
    have h2 := hm { w with users := { w.users with rows := w.users.rows.map g } } htag
    rw [hm w htag, h2]
    unfold Handler.handleAddChannel
    simp only
    split
    · rfl
    · exact sendAdminPanel_map (env.shift 1)
        (Handler.sendMessage
          { w with adminStates := w.adminStates.filter (fun p => p.1 != msg.FromID),
                   channels := _ } msg.ChatID _) msg.ChatID g hg

set_option maxRecDepth 100000 in
/-- C23 for `registeredUser` in `taggedWorld`, who has the tag and sends `hello`. -/
theorem C23_admin_tag_goes_first_witness :
    Handler.handleMessage exampleConfig exampleEnv taggedWorld
        { exampleMessage with Text := "hello" } =
      Handler.handleAddChannel exampleEnv taggedWorld { exampleMessage with Text := "hello" } ∧
    (Handler.handleMessage exampleConfig exampleEnv taggedWorld
        { exampleMessage with Text := "hello" }).adminStates = [] ∧
    (Handler.handleMessage exampleConfig exampleEnv taggedWorld
        { exampleMessage with Text := "hello" }).channels.rows.map
      (fun c => c.ChannelUsername) = ["hello"] :=
  ⟨(C23_admin_tag_goes_first exampleConfig exampleEnv taggedWorld
      { exampleMessage with Text := "hello" } (by decide)).1,
   by decide, by decide⟩

/-- C25. Let the read of `GetOrCreateUser` succeed.  For a telegram id without record,
when the `INSERT` succeeds, the table gets one new row and loses none: the row has the
telegram id and the user name given, the next id, state `wait_full_name`, `is_verified`
false, empty first name, last name, region, district, school and phone, grade 0, and the
language given when it is `uz`, `ru` or `en` and `uz` otherwise; the user returned has
that id, telegram id, language and state.  For a telegram id with a record, that record
is returned and the table is as it was. -/
theorem C25_GetOrCreateUser_creates_or_returns (db : UserTable) (createErr : Option String)
    (now : Time) (telegramID : Int) (username langCode : String) :
    (db.rows.find? (fun u => u.TelegramID == telegramID) = none → createErr = none →
      ∃ created stored : User,
        UserService.GetOrCreateUser db none createErr now telegramID username langCode =
          (Except.ok created, { rows := db.rows ++ [stored], nextID := db.nextID + 1 }) ∧
        stored = { ID := db.nextID, TelegramID := telegramID, Username := username,
                   LanguageCode := if langCode = "uz" ∨ langCode = "ru" ∨ langCode = "en"
                     then langCode else "uz",
                   FirstName := "", LastName := "", Region := "", District := "", School := "",
                   Grade := 0, Phone := "", IsVerified := false, State := StateWaitFullName,
                   CreatedAt := now, UpdatedAt := now } ∧
        created = stored) ∧
    (∀ user : User, db.rows.find? (fun u => u.TelegramID == telegramID) = some user →
      UserService.GetOrCreateUser db none createErr now telegramID username langCode =
        (Except.ok user, db)) := by
  constructor
  · intro hnone hcreate
    subst hcreate
    have hlang : (if langCode = "" ∨ (langCode ≠ "uz" ∧ langCode ≠ "ru" ∧ langCode ≠ "en")
        then "uz" else langCode) =
        (if langCode = "uz" ∨ langCode = "ru" ∨ langCode = "en" then langCode else "uz") := by
      by_cases h1 : langCode = "uz"
      · subst h1; decide
      · by_cases h2 : langCode = "ru"
        · subst h2; decide
        · by_cases h3 : langCode = "en"
          · subst h3; decide
          · simp [h1, h2, h3]
    refine ⟨_, _, ?_, rfl, rfl⟩
    unfold UserService.GetOrCreateUser
    simp only [UserRepository.GetByTelegramID, hnone, UserRepository.Create, hlang]
  · intro user hsome
    unfold UserService.GetOrCreateUser
    simp only [UserRepository.GetByTelegramID, hsome]

/-- C25 for a sender without record whose client reports the language `de`, and for the
sender of `exampleUser`. -/
theorem C25_GetOrCreateUser_creates_or_returns_witness :
    (∃ created stored : User,
      UserService.GetOrCreateUser exampleWorld.users none none 77 99 "dilnoza" "de" =
        (Except.ok created,
          { rows := exampleWorld.users.rows ++ [stored],
            nextID := exampleWorld.users.nextID + 1 }) ∧
      stored = { ID := exampleWorld.users.nextID, TelegramID := 99, Username := "dilnoza",
                 LanguageCode := if "de" = "uz" ∨ "de" = "ru" ∨ "de" = "en" then "de" else "uz",
                 FirstName := "", LastName := "", Region := "", District := "", School := "",
                 Grade := 0, Phone := "", IsVerified := false, State := StateWaitFullName,
                 CreatedAt := 77, UpdatedAt := 77 } ∧
      created = stored) ∧
    UserService.GetOrCreateUser exampleWorld.users none none 77 42 "anvar" "ru" =
      (Except.ok exampleUser, exampleWorld.users) :=
  ⟨(C25_GetOrCreateUser_creates_or_returns exampleWorld.users none 77 99 "dilnoza" "de").1
      (by decide) rfl,
   (C25_GetOrCreateUser_creates_or_returns exampleWorld.users none 77 42 "anvar" "ru").2
      exampleUser (by decide)⟩

set_option maxRecDepth 100000 in
/-- C26, counterexample: in the step of the full name, when `UpdateFullName` succeeds and
`UpdateUserState` fails, nothing is sent to the user, so not the `Error` message either;
the name is stored and the state stays `wait_full_name`. -/
theorem C26_counterexample :
    stateWriteDownEnv.dbErr 0 = none ∧
    stateWriteDownEnv.dbErr 1 = some "connection refused" ∧
    (Handler.handleFullName stateWriteDownEnv exampleWorld exampleMessage exampleUser
        "Anvar Karimov").sent = [] ∧
    (Handler.handleFullName stateWriteDownEnv exampleWorld exampleMessage exampleUser
        "Anvar Karimov").users.rows.map (fun u => (u.FirstName, u.LastName, u.State)) =
      [("Anvar", "Karimov", StateWaitFullName)] := by
  refine ⟨rfl, rfl, ?_, ?_⟩
  · decide
  · decide

/-- C26, amended.  When the first store operation of a step fails on an input that the
step accepts (the write of the full name, the location, the grade or the phone, the read
of the record in the step of the code), the handler sends the `Error` message and does
nothing else: no prompt of the next step, nothing stored, the state as before.  When in
the steps of the full name, the location and the grade the field is written and
`UpdateUserState` fails, the handler sends nothing, and the states of the table and the
table of codes are as before. -/
theorem C26_failed_store_operation (cfg : Config) (env : Env) (w : World) (msg : Message)
    (user : User) :
    (∀ e : String, env.dbErr 0 = some e →
      (∀ text : String, 2 ≤ (Fields text).length →
        Handler.handleFullName env w msg user text =
          Handler.sendMessage w msg.ChatID (i18n.Get user.LanguageCode).Error) ∧
      (∀ (text seg0 seg1 seg2 : String) (rest : List String),
        Split text ',' = seg0 :: seg1 :: seg2 :: rest →
        TrimSpace seg0 ≠ "" → TrimSpace seg1 ≠ "" → TrimSpace (Join (seg2 :: rest) ",") ≠ "" →
        Handler.handleLocation env w msg user text =
          Handler.sendMessage w msg.ChatID (i18n.Get user.LanguageCode).Error) ∧
      (∀ (text : String) (grade : Int), Atoi text = Except.ok grade → 1 ≤ grade → grade ≤ 11 →
        Handler.handleGrade env w msg user text =
          Handler.sendMessage w msg.ChatID (i18n.Get user.LanguageCode).Error) ∧
      (∀ text : String, phoneRegex.MatchString (phoneReplacer text) = true →
        Handler.handlePhone cfg env w msg user text =
          Handler.sendMessage w msg.ChatID (i18n.Get user.LanguageCode).Error) ∧
      (∀ contact : String, msg.Contact = some contact →
        phoneRegex.MatchString
          (if (!HasPrefix (phoneReplacer contact) "998" && len (phoneReplacer contact) == 9) = true
            then "998" ++ phoneReplacer contact else phoneReplacer contact) = true →
        Handler.handleContact cfg env w msg user =
          Handler.sendMessage w msg.ChatID (i18n.Get user.LanguageCode).Error) ∧
      (∀ text : String,
        Handler.handleOTPInput env w msg user text =
          Handler.sendMessage w msg.ChatID (i18n.Get user.LanguageCode).Error)) ∧
    (∀ e : String, env.dbErr 0 = none → env.dbErr 1 = some e →
      (∀ text : String, 2 ≤ (Fields text).length →
        (Handler.handleFullName env w msg user text).sent = w.sent ∧
        (Handler.handleFullName env w msg user text).users.rows.map (fun u => u.State) =
          w.users.rows.map (fun u => u.State) ∧
        (Handler.handleFullName env w msg user text).otps = w.otps) ∧
      (∀ (text seg0 seg1 seg2 : String) (rest : List String),
        Split text ',' = seg0 :: seg1 :: seg2 :: rest →
        TrimSpace seg0 ≠ "" → TrimSpace seg1 ≠ "" → TrimSpace (Join (seg2 :: rest) ",") ≠ "" →
        (Handler.handleLocation env w msg user text).sent = w.sent ∧
        (Handler.handleLocation env w msg user text).users.rows.map (fun u => u.State) =
          w.users.rows.map (fun u => u.State) ∧
        (Handler.handleLocation env w msg user text).otps = w.otps) ∧
      (∀ (text : String) (grade : Int), Atoi text = Except.ok grade → 1 ≤ grade → grade ≤ 11 →
        (Handler.handleGrade env w msg user text).sent = w.sent ∧
        (Handler.handleGrade env w msg user text).users.rows.map (fun u => u.State) =
          w.users.rows.map (fun u => u.State) ∧
        (Handler.handleGrade env w msg user text).otps = w.otps)) := by
  constructor
  · intro e h0
    refine ⟨?_, ?_, ?_, ?_, ?_, ?_⟩
    · intro text hlen
      have hnot : ¬ (Fields text).length < 2 := by omega
      unfold Handler.handleFullName
      simp only [hnot, dite_false, UserService.UpdateFullName, UserRepository.UpdateFullName, h0]
    · intro text seg0 seg1 seg2 rest hsplit n0 n1 n2
      rw [handleLocation_of_split env w msg user text seg0 seg1 seg2 rest hsplit]
      simp only [n0, n1, n2, or_self, if_false, UserService.UpdateLocation,
        UserRepository.UpdateLocation, h0]
    · intro text grade hparse hlo hhi
      have hnot : ¬ (grade < 1 ∨ grade > 11) := by omega
      unfold Handler.handleGrade
      simp only [hparse, hnot, if_false, UserService.UpdateGrade, UserRepository.UpdateGrade, h0]
    · intro text hvalid
      unfold Handler.handlePhone
      simp only [hvalid, Bool.not_true, Bool.false_eq_true, if_false]
      exact submitPhone_of_update_error cfg env w msg user _ e h0
    · intro contact hcontact hvalid
      unfold Handler.handleContact
      simp only [hcontact, hvalid, Bool.not_true, Bool.false_eq_true, if_false]
      exact submitPhone_of_update_error cfg env w msg user _ e h0
    · intro text
      unfold Handler.handleOTPInput
      simp only [UserService.GetUser, UserRepository.GetByTelegramID, h0]
  · intro e h0 h1
    refine ⟨?_, ?_, ?_⟩
    · intro text hlen
      have hnot : ¬ (Fields text).length < 2 := by omega
      unfold Handler.handleFullName
      simp only [hnot, dite_false, UserService.UpdateFullName, UserRepository.UpdateFullName, h0,
        UserService.UpdateUserState, UserRepository.UpdateState, h1]
      exact ⟨trivial, updateWhere_states _ _ _ (fun _ => rfl), trivial⟩
    · intro text seg0 seg1 seg2 rest hsplit n0 n1 n2
      rw [handleLocation_of_split env w msg user text seg0 seg1 seg2 rest hsplit]
      simp only [n0, n1, n2, or_self, if_false, UserService.UpdateLocation,
        UserRepository.UpdateLocation, h0, UserService.UpdateUserState,
        UserRepository.UpdateState, h1]
      exact ⟨trivial, updateWhere_states _ _ _ (fun _ => rfl), trivial⟩
    · intro text grade hparse hlo hhi
      have hnot : ¬ (grade < 1 ∨ grade > 11) := by omega
      unfold Handler.handleGrade
      simp only [hparse, hnot, if_false, UserService.UpdateGrade, UserRepository.UpdateGrade, h0,
        UserService.UpdateUserState, UserRepository.UpdateState, h1]
      exact ⟨trivial, updateWhere_states _ _ _ (fun _ => rfl), trivial⟩

set_option maxRecDepth 100000 in
/-- C26 for the full name `Anvar Karimov` when the store is down, and for the grade `9`
when only the write of the state fails. -/
theorem C26_failed_store_operation_witness :
    Handler.handleFullName storeDownEnv exampleWorld exampleMessage exampleUser
        "Anvar Karimov" =
      Handler.sendMessage exampleWorld exampleMessage.ChatID
        (i18n.Get exampleUser.LanguageCode).Error ∧
    ((Handler.handleGrade stateWriteDownEnv (worldAt StateWaitGrade) exampleMessage
        (userAt StateWaitGrade) "9").sent = (worldAt StateWaitGrade).sent ∧
     (Handler.handleGrade stateWriteDownEnv (worldAt StateWaitGrade) exampleMessage
        (userAt StateWaitGrade) "9").users.rows.map (fun u => u.State) =
       (worldAt StateWaitGrade).users.rows.map (fun u => u.State) ∧
     (Handler.handleGrade stateWriteDownEnv (worldAt StateWaitGrade) exampleMessage
        (userAt StateWaitGrade) "9").otps = (worldAt StateWaitGrade).otps) :=
  ⟨((C26_failed_store_operation exampleConfig storeDownEnv exampleWorld exampleMessage
      exampleUser).1 "connection refused" rfl).1 "Anvar Karimov" (by decide),
   ((C26_failed_store_operation exampleConfig stateWriteDownEnv (worldAt StateWaitGrade)
      exampleMessage (userAt StateWaitGrade)).2 "connection refused" rfl rfl).2.2
      "9" 9 rfl (by decide) (by decide)⟩

/-- C27. Start from a world without users, without active channel and without tag for
the sender.  Let the sender send `/start`, then `Anvar Karimov`, then
`Tashkent, Yunusabad, School 56`, then `9`, then `998901234567`, then the code that the
fifth update generated, before it expires; let every store operation succeed and the
gateway answer 200.  Then the table of users is the one record of the sender, registered
and verified, with first name `Anvar`, last name `Karimov`, region `Tashkent`, district
`Yunusabad`, school `School 56`, grade 9 and phone `998901234567`; the last two messages
are the `RegistrationDone` template in the language of the record filled with these seven
values in this order, and the main menu; and no handler has panicked. -/
theorem C27_end_to_end_registration (cfg : Config) (e1 e2 e3 e4 e5 e6 : Env) (w0 : World)
    (start : Message) (lang code queryState : String)
    (hstart : start.Command = some "start") (hfrom : start.FromID = 42)
    (hlang : (if start.FromLanguageCode = "uz" ∨ start.FromLanguageCode = "ru" ∨
      start.FromLanguageCode = "en" then start.FromLanguageCode else "uz") = lang)
    (hnew : w0.users.rows = [])
    (hchannels : w0.channels.rows.filter (fun c => c.IsActive) = [])
    (htag : adminStateOf w0.adminStates 42 ≠ AdminStateWaitChannel)
    (h1 : ∀ k, e1.dbErr k = none) (h2 : ∀ k, e2.dbErr k = none) (h3 : ∀ k, e3.dbErr k = none)
    (h4 : ∀ k, e4.dbErr k = none) (h5 : ∀ k, e5.dbErr k = none) (h6 : ∀ k, e6.dbErr k = none)
    (hhttp : e5.http = HTTPOutcome.response 200 queryState)
    (hlen : 0 < cfg.OTPLength)
    (hgen : generateOTPCode cfg.OTPLength e5.rand = Result.ok code)
    (hfresh : e6.clock 2 < e5.otpClock + expiryWindow cfg) :
    (runUpdates cfg
        [(e1, Update.message start), (e2, textUpdate "Anvar Karimov"),
         (e3, textUpdate "Tashkent, Yunusabad, School 56"), (e4, textUpdate "9"),
         (e5, textUpdate "998901234567"), (e6, textUpdate code)] w0).users =
      { rows := [{ ID := w0.users.nextID, TelegramID := 42, Username := start.FromUserName,
                   LanguageCode := lang, FirstName := "Anvar", LastName := "Karimov",
                   Region := "Tashkent", District := "Yunusabad", School := "School 56",
                   Grade := 9, Phone := "998901234567", IsVerified := true,
                   State := StateRegistered, CreatedAt := e1.clock 2, UpdatedAt := e6.clock 5 }],
        nextID := w0.users.nextID + 1 } ∧
    (∃ earlier : List MessageConfig,
      (runUpdates cfg
        [(e1, Update.message start), (e2, textUpdate "Anvar Karimov"),
         (e3, textUpdate "Tashkent, Yunusabad, School 56"), (e4, textUpdate "9"),
         (e5, textUpdate "998901234567"), (e6, textUpdate code)] w0).sent =
      earlier ++
        [{ NewMessage 42
            (Sprintf (i18n.Get lang).RegistrationDone
              [Arg.str "Anvar", Arg.str "Karimov", Arg.str "Tashkent", Arg.str "Yunusabad",
               Arg.str "School 56", Arg.int 9, Arg.str "998901234567"]) with
            ParseMode := ModeHTML },
         { NewMessage 42 (i18n.Get lang).MainMenu with
            ParseMode := ModeHTML,
            ReplyMarkup := ReplyMarkup.inlineKeyboard
              [[Button.url (i18n.Get lang).BtnLogin "https://khiso.uz/login"],
               [Button.url (i18n.Get lang).BtnRegister "https://khiso.uz/register"]],
            DisableWebPagePreview := true }]) ∧
    (runUpdates cfg
        [(e1, Update.message start), (e2, textUpdate "Anvar Karimov"),
         (e3, textUpdate "Tashkent, Yunusabad, School 56"), (e4, textUpdate "9"),
         (e5, textUpdate "998901234567"), (e6, textUpdate code)] w0).panicked = w0.panicked := by
  -- the worlds after each update
  obtain ⟨W1, hW1⟩ : ∃ W, W = Handler.HandleUpdate cfg e1 w0 (Update.message start) := ⟨_, rfl⟩
  obtain ⟨W2, hW2⟩ : ∃ W, W = Handler.HandleUpdate cfg e2 W1 (textUpdate "Anvar Karimov") :=
    ⟨_, rfl⟩
  obtain ⟨W3, hW3⟩ : ∃ W, W = Handler.HandleUpdate cfg e3 W2
    (textUpdate "Tashkent, Yunusabad, School 56") := ⟨_, rfl⟩
  obtain ⟨W4, hW4⟩ : ∃ W, W = Handler.HandleUpdate cfg e4 W3 (textUpdate "9") := ⟨_, rfl⟩
  obtain ⟨W5, hW5⟩ : ∃ W, W = Handler.HandleUpdate cfg e5 W4 (textUpdate "998901234567") :=
    ⟨_, rfl⟩
  have hrun : runUpdates cfg
      [(e1, Update.message start), (e2, textUpdate "Anvar Karimov"),
       (e3, textUpdate "Tashkent, Yunusabad, School 56"), (e4, textUpdate "9"),
       (e5, textUpdate "998901234567"), (e6, textUpdate code)] w0 =
      Handler.HandleUpdate cfg e6 W5 (textUpdate code) := by
    simp only [runUpdates, hW5, hW4, hW3, hW2, hW1]
  -- the records after each update
  obtain ⟨r1, hr1⟩ : ∃ r : User, r =
      { ID := w0.users.nextID, TelegramID := start.FromID, Username := start.FromUserName,
        LanguageCode := lang, FirstName := "", LastName := "", Region := "", District := "",
        School := "", Grade := 0, Phone := "", IsVerified := false, State := StateWaitFullName,
        CreatedAt := e1.clock 2, UpdatedAt := e1.clock 2 } := ⟨_, rfl⟩
  obtain ⟨r2, hr2⟩ : ∃ r : User, r =
      { r1 with FirstName := "Anvar", LastName := "Karimov", State := StateWaitLocation,
                UpdatedAt := e2.clock 2 } := ⟨_, rfl⟩
  obtain ⟨r3, hr3⟩ : ∃ r : User, r =
      { r2 with Region := "Tashkent", District := "Yunusabad", School := "School 56",
                State := StateWaitGrade, UpdatedAt := e3.clock 2 } := ⟨_, rfl⟩
  obtain ⟨r4, hr4⟩ : ∃ r : User, r =
      { r3 with Grade := 9, State := StateWaitPhone, UpdatedAt := e4.clock 2 } := ⟨_, rfl⟩
  obtain ⟨r5, hr5⟩ : ∃ r : User, r =
      { r4 with Phone := "998901234567", State := StateWaitOTP, UpdatedAt := e5.clock 4 } :=
    ⟨_, rfl⟩
  -- the first `/start`
  have s1 := HandleUpdate_first_start cfg e1 w0 start lang hstart hlang hnew hchannels h1
  rw [← hW1, ← hr1] at s1
  have u1 : W1.users.rows = [r1] := by rw [s1]
  have a1 : W1.adminStates = w0.adminStates := by rw [s1]
  have p1 : W1.panicked = w0.panicked := by rw [s1]
  have n1 : W1.users.nextID = w0.users.nextID + 1 := by rw [s1]
  -- the full name
  have s2 := HandleUpdate_full_name cfg e2 W1 r1 u1 (by rw [hr1]; exact hfrom) (by rw [hr1])
    (by rw [a1]; exact htag) h2
  rw [← hW2, ← hr2] at s2
  have u2 : W2.users.rows = [r2] := by rw [s2]
  have a2 : W2.adminStates = w0.adminStates := by rw [s2]; exact a1
  have p2 : W2.panicked = w0.panicked := by rw [s2]; exact p1
  have n2 : W2.users.nextID = w0.users.nextID + 1 := by rw [s2]; exact n1
  -- the location
  have s3 := HandleUpdate_location cfg e3 W2 r2 u2 (by rw [hr2, hr1]; exact hfrom)
    (by rw [hr2]) (by rw [a2]; exact htag) h3
  rw [← hW3, ← hr3] at s3
  have u3 : W3.users.rows = [r3] := by rw [s3]
  have a3 : W3.adminStates = w0.adminStates := by rw [s3]; exact a2
  have p3 : W3.panicked = w0.panicked := by rw [s3]; exact p2
  have n3 : W3.users.nextID = w0.users.nextID + 1 := by rw [s3]; exact n2
  -- the grade
  have s4 := HandleUpdate_grade cfg e4 W3 r3 u3 (by rw [hr3, hr2, hr1]; exact hfrom)
    (by rw [hr3]) (by rw [a3]; exact htag) h4
  rw [← hW4, ← hr4] at s4
  have u4 : W4.users.rows = [r4] := by rw [s4]
  have a4 : W4.adminStates = w0.adminStates := by rw [s4]; exact a3
  have p4 : W4.panicked = w0.panicked := by rw [s4]; exact p3
  have n4 : W4.users.nextID = w0.users.nextID + 1 := by rw [s4]; exact n3
  -- the phone
  have s5 := HandleUpdate_phone cfg e5 W4 r4 code queryState u4
    (by rw [hr4, hr3, hr2, hr1]; exact hfrom) (by rw [hr4]) (by rw [a4]; exact htag) h5 hgen hhttp
  rw [← hW5, ← hr5] at s5
  have u5 : W5.users.rows = [r5] := by rw [s5]
  have a5 : W5.adminStates = w0.adminStates := by rw [s5]; exact a4
  have p5 : W5.panicked = w0.panicked := by rw [s5]; exact p4
  have n5 : W5.users.nextID = w0.users.nextID + 1 := by rw [s5]; exact n4
  have o5 : ∃ o ∈ W5.otps.rows, o.Phone = r5.Phone ∧ o.Code = code ∧ o.IsUsed = false ∧
      e6.clock 2 < o.ExpiresAt := by
    rw [s5]
    refine ⟨_, List.mem_append_right _ (List.mem_singleton_self _), ?_, rfl, rfl, hfresh⟩
    rw [hr5]
  -- the code
  have htrim := generateOTPCode_trim cfg.OTPLength e5.rand code hlen hgen
  have s6 := HandleUpdate_code cfg e6 W5 r5 code u5 (by rw [hr5, hr4, hr3, hr2, hr1]; exact hfrom)
    (by rw [hr5]) (by rw [hr5]; exact (by decide : ("998901234567" : String) ≠ ""))
    (by rw [a5]; exact htag) h6 htrim.1 htrim.2 o5
  rw [hrun]
  refine ⟨?_, ⟨W5.sent, ?_⟩, ?_⟩
  · rw [s6.1]
    simp only [n5, hr5, hr4, hr3, hr2, hr1, hfrom]
  · rw [s6.2.1]
    simp only [hr5, hr4, hr3, hr2, hr1]
  · rw [s6.2.2, p5]

set_option maxRecDepth 100000 in
/-- C27 for `exampleRun` from `emptyWorld`: the code is `000000`, the language `en`. -/
theorem C27_end_to_end_registration_witness :
    (runUpdates exampleConfig exampleRun emptyWorld).users =
      { rows := [{ ID := emptyWorld.users.nextID, TelegramID := 42,
                   Username := startMessageEn.FromUserName,
                   LanguageCode := "en", FirstName := "Anvar", LastName := "Karimov",
                   Region := "Tashkent", District := "Yunusabad", School := "School 56",
                   Grade := 9, Phone := "998901234567", IsVerified := true,
                   State := StateRegistered, CreatedAt := exampleEnv.clock 2,
                   UpdatedAt := exampleEnv.clock 5 }],
        nextID := emptyWorld.users.nextID + 1 } ∧
    ((runUpdates exampleConfig exampleRun emptyWorld).sent.map (fun m => m.Text)).drop 6 =
      ["🎉 Congratulations! You have successfully registered.\n\n👤 First Name: <b>Anvar</b>\n👤 Last Name: <b>Karimov</b>\n🏙 Region: <b>Tashkent</b>\n🏘 District: <b>Yunusabad</b>\n🏫 School: <b>School 56</b>\n🎓 Grade: <b>9</b>\n📱 Phone: <b>998901234567</b>",
       messagesEn.MainMenu] :=
  ⟨(C27_end_to_end_registration exampleConfig exampleEnv exampleEnv exampleEnv exampleEnv
      exampleEnv exampleEnv emptyWorld startMessageEn "en" "000000" "OK" rfl rfl (by decide) rfl
      rfl (by decide) (fun _ => rfl) (fun _ => rfl) (fun _ => rfl) (fun _ => rfl)
      (fun _ => rfl) (fun _ => rfl) rfl (by decide) rfl (by decide)).1,
   by decide⟩

set_option maxRecDepth 100000 in
/-- C28 does not hold of the code: `handleCallback` never asks `IsAdmin`.  In `gatedWorld`
there is no admin and one channel, of id 1.  The callback `admin_add_channel` of sender 42
sets the tag `wait_channel` for 42, and the next text of 42 creates a channel; the
callback `del_ch_1` of sender 42 deletes the channel.  The command `/admin` of the same
sender is ignored. -/
theorem C28_callbacks_skip_admin_check :
    gatedWorld.admins = [] ∧
    AdminRepository.IsAdmin gatedWorld.admins none 42 = Except.ok false ∧
    (Handler.HandleUpdate exampleConfig exampleEnv gatedWorld
        (Update.callback (callbackOf CallbackAdminAdd))).adminStates =
      [(42, AdminStateWaitChannel)] ∧
    (runUpdates exampleConfig
        [(exampleEnv, Update.callback (callbackOf CallbackAdminAdd)),
         (exampleEnv, Update.message { exampleMessage with Text := "@intruder" })]
        gatedWorld).channels.rows.map (fun c => (c.ChannelUsername, c.IsActive)) =
      [("khiso", true), ("intruder", true)] ∧
    (Handler.HandleUpdate exampleConfig exampleEnv gatedWorld
        (Update.callback (callbackOf "del_ch_1"))).channels.rows = [] ∧
    Handler.HandleUpdate exampleConfig exampleEnv gatedWorld
        (Update.message { exampleMessage with Text := "/admin", Command := some "admin" }) =
      gatedWorld := by
  refine ⟨rfl, rfl, ?_, ?_, ?_, ?_⟩
  · decide
  · decide
  · decide
  · decide

/-- C29. When loading the active channels fails, `checkSubscription` returns true and
leaves everything as it is: no message is sent, and the answers of the member queries
play no part.  It is what it returns when there is no active channel. -/
theorem C29_gate_fails_open (env : Env) (w : World) (userID chatID : Int) (lang e : String)
    (hload : env.dbErr 0 = some e) :
    Handler.checkSubscription env w userID chatID lang = (true, w) ∧
    (∀ member : Nat → Nat → Except String String,
      Handler.checkSubscription { env with member := member } w userID chatID lang =
        (true, w)) ∧
    (∀ env0 : Env, env0.dbErr 0 = none →
      (w.channels.rows.filter (fun c => c.IsActive)) = [] →
      Handler.checkSubscription env0 w userID chatID lang =
        Handler.checkSubscription env w userID chatID lang) := by
  have h : ∀ member : Nat → Nat → Except String String,
      Handler.checkSubscription { env with member := member } w userID chatID lang =
        (true, w) := by
    intro member
    unfold Handler.checkSubscription
    simp [ChannelRepository.GetActive, hload]
  refine ⟨h env.member, h, ?_⟩
  intro env0 h0 hnil
  rw [h env.member]
  unfold Handler.checkSubscription
  simp [ChannelRepository.GetActive, h0, hnil]

/-- C29 for `gatedWorld`, whose active channel the sender has left, when the channels
cannot be loaded. -/
theorem C29_gate_fails_open_witness :
    Handler.checkSubscription { leftEnv with dbErr := fun _ => some "connection refused" }
      gatedWorld 42 42 "en" = (true, gatedWorld) :=
  (C29_gate_fails_open { leftEnv with dbErr := fun _ => some "connection refused" }
    gatedWorld 42 42 "en" "connection refused" rfl).1

/-- C30. The body of `handleResendOTPCallback`, which is also that of `handleResendOTP`
for the chat and the sender of the message, and which the command `/resend` and the
callback `resend_otp` lead to.  It never changes the table of users.  Unless the record of
the user is read, has a phone and is in state `wait_otp`, it does nothing at all: no SMS,
no row of a code, no message.  Otherwise it makes one call of `GenerateAndSendOTP` for the
stored phone: the tables of codes and the SMS sent are those of that call, every new row
is for the stored phone and every new SMS goes to it. -/
theorem C30_resend_only_while_waiting (cfg : Config) (env : Env) (w : World)
    (chatID userID : Int) :
    (Handler.handleResendOTPCallback cfg env w chatID userID).users = w.users ∧
    ((¬ ∃ user : User, UserService.GetUser w.users (env.dbErr 0) userID = Except.ok (some user) ∧
        user.Phone ≠ "" ∧ user.State = StateWaitOTP) →
      Handler.handleResendOTPCallback cfg env w chatID userID = w) ∧
    (∀ user : User, UserService.GetUser w.users (env.dbErr 0) userID = Except.ok (some user) →
      user.Phone ≠ "" → user.State = StateWaitOTP →
      (Handler.handleResendOTPCallback cfg env w chatID userID).otps =
        (OTPService.GenerateAndSendOTP cfg (env.issue 1) w.otps user.ID user.Phone).db ∧
      (Handler.handleResendOTPCallback cfg env w chatID userID).sms =
        w.sms ++ (OTPService.GenerateAndSendOTP cfg (env.issue 1) w.otps user.ID user.Phone).sms ∧
      (∀ o ∈ (Handler.handleResendOTPCallback cfg env w chatID userID).otps.rows,
        o ∈ w.otps.rows ∨ o.Phone = user.Phone) ∧
      (∀ s ∈ (Handler.handleResendOTPCallback cfg env w chatID userID).sms,
        s ∈ w.sms ∨ s.1 = user.Phone)) ∧
    (∀ msg : Message, Handler.handleResendOTP cfg env w msg =
      Handler.handleResendOTPCallback cfg env w msg.ChatID msg.FromID) ∧
    (∀ msg : Message, msg.Command = some "resend" →
      Handler.HandleUpdate cfg env w (Update.message msg) =
        Handler.handleResendOTP cfg env w msg) ∧
    (∀ callback : CallbackQuery, callback.Data = CallbackResendOTP →
      Handler.HandleUpdate cfg env w (Update.callback callback) =
        Handler.handleResendOTPCallback cfg env
          { w with answered := w.answered ++ [callback.ID] } callback.ChatID callback.FromID) := by
  refine ⟨resendOTP_users cfg env w chatID userID, ?_, ?_, fun _ => rfl, ?_, ?_⟩
  · intro hno
    unfold Handler.handleResendOTPCallback Handler.resendOTP
    simp only
    cases hget : UserService.GetUser w.users (env.dbErr 0) userID with
    | error e => rfl
    | ok u =>
      cases u with
      | none => rfl
      | some user =>
        simp only
        by_cases h : user.Phone = "" ∨ user.State ≠ StateWaitOTP
        · rw [if_pos h]
        · exfalso
          apply hno
          refine ⟨user, hget, ?_, ?_⟩
          · intro hp; exact h (Or.inl hp)
          · by_contra hs; exact h (Or.inr hs)
  · intro user hget hphone hstate
    have hw := GenerateAndSendOTP_writes cfg (env.issue 1) w.otps user.ID user.Phone
    have hnot : ¬ (user.Phone = "" ∨ user.State ≠ StateWaitOTP) := by
      rintro (h | h)
      · exact hphone h
      · exact h hstate
    have hsms : ∀ s ∈ w.sms ++
        (OTPService.GenerateAndSendOTP cfg (env.issue 1) w.otps user.ID user.Phone).sms,
        s ∈ w.sms ∨ s.1 = user.Phone := by
      intro s hs
      rcases List.mem_append.mp hs with hs | hs
      · exact Or.inl hs
      · exact Or.inr (hw.2 s hs)
    unfold Handler.handleResendOTPCallback Handler.resendOTP
    simp only [hget, if_neg hnot]
    split
    · exact ⟨rfl, rfl, hw.1, hsms⟩
    · exact ⟨rfl, rfl, hw.1, hsms⟩
    · split
      · exact ⟨rfl, rfl, hw.1, hsms⟩
      · exact ⟨rfl, rfl, hw.1, hsms⟩
  · intro msg hcmd
    simp [Handler.HandleUpdate, hcmd, Handler.handleCommand]
  · intro callback hdata
    simp [Handler.HandleUpdate, Handler.handleCallback, hdata, CallbackResendOTP,
      CallbackCheckSub]

set_option maxRecDepth 100000 in
/-- C30 for `waitingUser`, who waits for a code for `998901234567`, and for
`registeredUser`, for whom nothing happens. -/
theorem C30_resend_only_while_waiting_witness :
    (∀ s ∈ (Handler.handleResendOTPCallback exampleConfig exampleEnv waitingWorld 42 42).sms,
      s ∈ waitingWorld.sms ∨ s.1 = waitingUser.Phone) ∧
    (Handler.handleResendOTPCallback exampleConfig exampleEnv waitingWorld 42 42).sms.map
      (fun s => s.1) = ["998901234567"] ∧
    Handler.handleResendOTPCallback exampleConfig exampleEnv gatedWorld 42 42 = gatedWorld :=
  ⟨((C30_resend_only_while_waiting exampleConfig exampleEnv waitingWorld 42 42).2.2.1
      waitingUser rfl (by decide) rfl).2.2.2,
   by decide,
   (C30_resend_only_while_waiting exampleConfig exampleEnv gatedWorld 42 42).2.1 (by
      rintro ⟨user, hget, _, hstate⟩
      have hu : user = registeredUser := by
        have h : (Except.ok (some registeredUser) : Except String (Option User)) =
            Except.ok (some user) := hget
        injection h with h
        injection h with h
        exact h.symm
      rw [hu] at hstate
      exact absurd hstate (by decide))⟩

end KhisoBot
